import Mathlib

/-!
# Staged GPU buffers: the index buffer of `chapter01/02_vulkan_assimp`

A shallow embedding of `vulkan/IndexBuffer.cpp` (`IndexBuffer::init`,
`IndexBuffer::uploadData`, `IndexBuffer::cleanup`).

The three functions talk to two collaborators that are not part of the file:
the memory allocator (`vmaCreateBuffer`, `vmaDestroyBuffer`, `vmaMapMemory`,
`vmaUnmapMemory`) and the command submission helper
(`CommandBuffer::createSingleShotBuffer`, `CommandBuffer::submitSingleShotBuffer`).
Both are modelled as explicit state:

* the allocator is the list of live buffers together with a counter from which
  fresh handles are drawn; the memory of a buffer is a function from byte
  offsets to byte values;
* whether an allocation, a map or a submission succeeds is not decided by the
  program, so each call takes the results of these operations as a `Driver`
  argument;
* every call into a collaborator is appended to `rdCalls`, a ghost record of
  the calls made so far, in the order they were made.

Sizes of type `size_t` and `VkDeviceSize` are natural numbers (nothing is ever
added to them); the one `unsigned int` of the file, `vertexDataSize`, is reduced
modulo `2 ^ 32`.

Two further parts of the repository follow the index buffer:

* `graphnodes/GraphNodeFactory.cpp` of chapter 10 (the constructor,
  `getNodeTypeName`, `makeNode`), where a call ends by returning a pointer, by
  dereferencing a null pointer or by an exception of `at`;
* the "Instances" header of `UserInterface::createSettingsWindow`: its
  selection controls (chapters 07 and 13), with `int` and `size_t` arithmetic
  made explicit and undefined behaviour as `none`; its calls
  `micAssimpInstances.at(micSelectedInstance)` and the callbacks called between
  them, where the callbacks are code outside the file and their effect on the
  list and on the selection is an argument; and the block of the "Reset Values
  to Zero" button (chapter 13).
-/

/-! ## Vulkan and VMA vocabulary -/

/-- Result code of a Vulkan or VMA call. -/
abbrev VkResult := Int

/-- Value of `VK_SUCCESS`. -/
def VK_SUCCESS : VkResult := 0

/-- Value of `VK_NULL_HANDLE`; no buffer is ever created with this handle. -/
def VK_NULL_HANDLE : Nat := 0

/-- Bit `VK_BUFFER_USAGE_TRANSFER_SRC_BIT`. -/
def VK_BUFFER_USAGE_TRANSFER_SRC_BIT : Nat := 0x00000001
/-- Bit `VK_BUFFER_USAGE_TRANSFER_DST_BIT`. -/
def VK_BUFFER_USAGE_TRANSFER_DST_BIT : Nat := 0x00000002
/-- Bit `VK_BUFFER_USAGE_INDEX_BUFFER_BIT`. -/
def VK_BUFFER_USAGE_INDEX_BUFFER_BIT : Nat := 0x00000040
/-- Value of `VK_SHARING_MODE_EXCLUSIVE`. -/
def VK_SHARING_MODE_EXCLUSIVE : Nat := 0
/-- Value of `VMA_MEMORY_USAGE_GPU_ONLY`. -/
def VMA_MEMORY_USAGE_GPU_ONLY : Nat := 1
/-- Value of `VMA_MEMORY_USAGE_CPU_ONLY`. -/
def VMA_MEMORY_USAGE_CPU_ONLY : Nat := 2
/-- Bit `VK_ACCESS_MEMORY_WRITE_BIT`. -/
def VK_ACCESS_MEMORY_WRITE_BIT : Nat := 0x00010000
/-- Bit `VK_ACCESS_VERTEX_ATTRIBUTE_READ_BIT`. -/
def VK_ACCESS_VERTEX_ATTRIBUTE_READ_BIT : Nat := 0x00000004
/-- Value of `VK_QUEUE_FAMILY_IGNORED`. -/
def VK_QUEUE_FAMILY_IGNORED : Nat := 0xFFFFFFFF
/-- Bit `VK_PIPELINE_STAGE_TRANSFER_BIT`. -/
def VK_PIPELINE_STAGE_TRANSFER_BIT : Nat := 0x00001000
/-- Bit `VK_PIPELINE_STAGE_VERTEX_INPUT_BIT`. -/
def VK_PIPELINE_STAGE_VERTEX_INPUT_BIT : Nat := 0x00000004

/-- The fields of `VkBufferCreateInfo` that `IndexBuffer::init` fills in
(the constant `sType` tag is left out). -/
structure VkBufferCreateInfo where
  size : Nat
  usage : Nat
  sharingMode : Nat
  deriving DecidableEq, Repr

/-- The field of `VmaAllocationCreateInfo` that `IndexBuffer::init` fills in. -/
structure VmaAllocationCreateInfo where
  usage : Nat
  deriving DecidableEq, Repr

/-- The fields of `VkBufferMemoryBarrier` that `IndexBuffer::uploadData` fills in. -/
structure VkBufferMemoryBarrier where
  srcAccessMask : Nat
  dstAccessMask : Nat
  srcQueueFamilyIndex : Nat
  dstQueueFamilyIndex : Nat
  buffer : Nat
  offset : Nat
  size : Nat
  deriving DecidableEq, Repr

/-- One copy region of `vkCmdCopyBuffer`. -/
structure VkBufferCopy where
  srcOffset : Nat
  dstOffset : Nat
  size : Nat
  deriving DecidableEq, Repr

/-- A command recorded into a command buffer. -/
inductive Command where
  | copyBuffer (srcBuffer dstBuffer : Nat) (region : VkBufferCopy)
  | pipelineBarrier (srcStageMask dstStageMask : Nat) (barrier : VkBufferMemoryBarrier)
  deriving DecidableEq, Repr

/-- A command buffer in the recording state: the commands recorded so far,
oldest first. -/
structure VkCommandBuffer where
  commands : List Command
  deriving DecidableEq, Repr

/-- One call into a collaborator, as kept in the ghost record `rdCalls`. -/
inductive Call where
  | vmaCreateBuffer (info : VkBufferCreateInfo) (allocInfo : VmaAllocationCreateInfo)
      (result : VkResult) (buffer allocation : Nat)
  | vmaDestroyBuffer (buffer allocation : Nat)
  | vmaMapMemory (allocation : Nat) (result : VkResult)
  | memcpy (allocation : Nat) (count : Nat)
  | vmaUnmapMemory (allocation : Nat)
  | createSingleShotBuffer
  | submitSingleShotBuffer (commandBuffer : VkCommandBuffer) (queue : Nat) (ok : Bool)
  | log (level : Nat) (message : String) (arg : Int)
  deriving DecidableEq, Repr

/-! ## The allocator -/

/-- A live buffer of the allocator: its two handles, the parameters it was
created with and its memory (byte value at each byte offset). -/
structure VmaBuffer where
  handle : Nat
  allocation : Nat
  size : Nat
  usage : Nat
  memoryUsage : Nat
  memory : Nat → Nat

/-- State of the allocator `rdAllocator`: the live buffers, newest first, and
the number of buffers created so far (the next handle is `created + 1`). -/
structure VmaAllocator where
  buffers : List VmaBuffer
  created : Nat

/-- The results of the operations whose outcome the program does not control,
for one call of `init` or `uploadData`: the two `vmaCreateBuffer` calls, the
`vmaMapMemory` call and the submission. `failedCreateClears` says whether a
failed `vmaCreateBuffer` resets its two output handles to `VK_NULL_HANDLE`
(as the VMA library does) or leaves them as they were. -/
structure Driver where
  createBuffer : VkResult
  createStagingBuffer : VkResult
  failedCreateClears : Bool
  mapMemory : VkResult
  submit : Bool
  deriving DecidableEq, Repr

/-- The part of `VkRenderData` that `IndexBuffer.cpp` uses (`rdAllocator`,
`rdGraphicsQueue`), with the ghost record of calls. -/
structure VkRenderData where
  rdAllocator : VmaAllocator
  rdGraphicsQueue : Nat
  rdCalls : List Call

/-- The fields of `VkIndexBufferData` that `IndexBuffer.cpp` reads and writes. -/
structure VkIndexBufferData where
  bufferSize : Nat
  buffer : Nat
  bufferAlloc : Nat
  stagingBuffer : Nat
  stagingBufferAlloc : Nat
  deriving DecidableEq, Repr

/-- The field of `VkMesh` that `IndexBuffer::uploadData` reads: the index list,
each index a 32-bit unsigned value. -/
structure VkMesh where
  indices : List Nat
  deriving DecidableEq, Repr

/-- The live buffer with handle `h`, if any. -/
def VmaAllocator.find (a : VmaAllocator) (h : Nat) : Option VmaBuffer :=
  a.buffers.find? (fun b => b.handle == h)

/-- Append a call to the ghost record. -/
def VkRenderData.record (renderData : VkRenderData) (c : Call) : VkRenderData :=
  { renderData with rdCalls := renderData.rdCalls ++ [c] }

/-- Capacity in bytes of the live buffer with handle `h` (`none` when no live
buffer has that handle). -/
def VkRenderData.capacity (renderData : VkRenderData) (h : Nat) : Option Nat :=
  (renderData.rdAllocator.find h).map (fun b => b.size)

/-- Full readback of the live buffer with handle `h`: all `size` bytes of it. -/
def VkRenderData.readback (renderData : VkRenderData) (h : Nat) : Option (List Nat) :=
  (renderData.rdAllocator.find h).map (fun b => (List.range b.size).map b.memory)

/-- Whether a live buffer has handle `h`. -/
def VkRenderData.isLive (renderData : VkRenderData) (h : Nat) : Bool :=
  (renderData.rdAllocator.find h).isSome

/-- Result of `vmaCreateBuffer`: the result code, the new state and the values
left in the two output handles. -/
structure CreateBufferResult where
  result : VkResult
  renderData : VkRenderData
  buffer : Nat
  allocation : Nat

/-- Allocator call `vmaCreateBuffer`. On success a buffer of `info.size` bytes
with a fresh handle joins the live buffers (its memory reads as zero) and both
output handles name it. On failure nothing is allocated and the output handles
are either reset or left at their previous values `buffer`, `allocation`. -/
def vmaCreateBuffer (result : VkResult) (failedCreateClears : Bool)
    (renderData : VkRenderData) (info : VkBufferCreateInfo)
    (allocInfo : VmaAllocationCreateInfo) (buffer allocation : Nat) : CreateBufferResult :=
  if result = VK_SUCCESS then
    let h := renderData.rdAllocator.created + 1
    { result := VK_SUCCESS
      renderData :=
        { renderData with
          rdAllocator :=
            { buffers :=
                { handle := h, allocation := h, size := info.size, usage := info.usage,
                  memoryUsage := allocInfo.usage, memory := fun _ => 0 }
                  :: renderData.rdAllocator.buffers
              created := h }
          rdCalls := renderData.rdCalls ++ [Call.vmaCreateBuffer info allocInfo VK_SUCCESS h h] }
      buffer := h
      allocation := h }
  else
    { result := result
      renderData := renderData.record
        (Call.vmaCreateBuffer info allocInfo result VK_NULL_HANDLE VK_NULL_HANDLE)
      buffer := if failedCreateClears then VK_NULL_HANDLE else buffer
      allocation := if failedCreateClears then VK_NULL_HANDLE else allocation }

/-- Allocator call `vmaDestroyBuffer`: the buffer with handle `buffer` leaves
the live buffers. -/
def vmaDestroyBuffer (renderData : VkRenderData) (buffer allocation : Nat) : VkRenderData :=
  { renderData with
    rdAllocator :=
      { renderData.rdAllocator with
        buffers := renderData.rdAllocator.buffers.filter (fun b => !(b.handle == buffer)) }
    rdCalls := renderData.rdCalls ++ [Call.vmaDestroyBuffer buffer allocation] }

/-- Allocator call `vmaMapMemory`: only its result code is modelled; the
mapped pointer is the allocation itself. -/
def vmaMapMemory (result : VkResult) (renderData : VkRenderData) (allocation : Nat) :
    VkResult × VkRenderData :=
  (result, renderData.record (Call.vmaMapMemory allocation result))

/-- Library call `std::memcpy(data, src, count)` into the memory mapped from
`allocation`: the first `count` bytes of that memory become the first `count`
bytes of `src`. -/
def memcpy (renderData : VkRenderData) (allocation : Nat) (src : List Nat) (count : Nat) :
    VkRenderData :=
  { renderData with
    rdAllocator :=
      { renderData.rdAllocator with
        buffers := renderData.rdAllocator.buffers.map (fun b =>
          if b.allocation = allocation then
            { b with memory := fun i => if i < count then src.getD i 0 else b.memory i }
          else b) }
    rdCalls := renderData.rdCalls ++ [Call.memcpy allocation count] }

/-- Allocator call `vmaUnmapMemory`. -/
def vmaUnmapMemory (renderData : VkRenderData) (allocation : Nat) : VkRenderData :=
  renderData.record (Call.vmaUnmapMemory allocation)

/-- Recording call `vkCmdCopyBuffer` with one region. -/
def vkCmdCopyBuffer (commandBuffer : VkCommandBuffer) (srcBuffer dstBuffer : Nat)
    (region : VkBufferCopy) : VkCommandBuffer :=
  { commands := commandBuffer.commands ++ [Command.copyBuffer srcBuffer dstBuffer region] }

/-- Recording call `vkCmdPipelineBarrier` with one buffer memory barrier. -/
def vkCmdPipelineBarrier (commandBuffer : VkCommandBuffer) (srcStageMask dstStageMask : Nat)
    (barrier : VkBufferMemoryBarrier) : VkCommandBuffer :=
  { commands := commandBuffer.commands ++ [Command.pipelineBarrier srcStageMask dstStageMask barrier] }

/-- Effect of one executed command on the allocator's memory. A copy moves
`region.size` bytes from the source buffer to the destination buffer; a
barrier orders accesses and moves nothing. -/
def Command.exec (a : VmaAllocator) : Command → VmaAllocator
  | Command.copyBuffer srcBuffer dstBuffer region =>
    match a.find srcBuffer with
    | none => a
    | some s =>
      { a with
        buffers := a.buffers.map (fun b =>
          if b.handle = dstBuffer then
            { b with
              memory := fun i =>
                if region.dstOffset ≤ i ∧ i < region.dstOffset + region.size then
                  s.memory (region.srcOffset + (i - region.dstOffset))
                else b.memory i }
          else b) }
  | Command.pipelineBarrier _ _ _ => a

/-- Logging call `Logger::log(level, message, ..., arg)`: kept in the record of
calls with its format string and its numeric argument. -/
def Logger.log (renderData : VkRenderData) (level : Nat) (message : String) (arg : Int) :
    VkRenderData :=
  renderData.record (Call.log level message arg)

/-- Modelled from the spec: `CommandBuffer::createSingleShotBuffer` (in
`CommandBuffer.cpp`) allocates a command buffer and begins recording; it has no
failure path. -/
def CommandBuffer.createSingleShotBuffer (renderData : VkRenderData) :
    VkCommandBuffer × VkRenderData :=
  ({ commands := [] }, renderData.record Call.createSingleShotBuffer)

/-- Modelled from the spec: `CommandBuffer::submitSingleShotBuffer` (in
`CommandBuffer.cpp`) ends recording, submits to the queue, waits for the work
to complete and reports success or failure. On success the recorded commands
have run, in order; on failure the memory is left as it was. -/
def CommandBuffer.submitSingleShotBuffer (ok : Bool) (renderData : VkRenderData)
    (commandBuffer : VkCommandBuffer) (queue : Nat) : Bool × VkRenderData :=
  let renderData := renderData.record (Call.submitSingleShotBuffer commandBuffer queue ok)
  if ok then
    (true, { renderData with
             rdAllocator := commandBuffer.commands.foldl Command.exec renderData.rdAllocator })
  else
    (false, renderData)

/-! ## `IndexBuffer.cpp` -/

/-- What a call of `init` or `uploadData` leaves behind: the returned `bool`
and the two objects passed by reference. -/
structure Outcome where
  ok : Bool
  renderData : VkRenderData
  bufferData : VkIndexBufferData

/-- The four bytes of a 32-bit index, least significant first. -/
def indexBytes (v : Nat) : List Nat :=
  [v % 256, v / 256 % 256, v / 65536 % 256, v / 16777216 % 256]

/-- The bytes of the array `vertexData.indices.data()`. -/
def VkMesh.bytes (vertexData : VkMesh) : List Nat :=
  vertexData.indices.flatMap indexBytes

/-- The local `unsigned int vertexDataSize` of `uploadData`:
`vertexData.indices.size() * sizeof(uint32_t)`, stored in 32 bits. -/
def vertexDataSize (vertexData : VkMesh) : Nat :=
  (vertexData.indices.length * 4) % 2 ^ 32

/-- Function `IndexBuffer::init`. -/
def IndexBuffer.init (drv : Driver) (renderData : VkRenderData)
    (bufferData : VkIndexBufferData) (bufferSize : Nat) : Outcome :=
  let bufferInfo : VkBufferCreateInfo :=
    { size := bufferSize
      usage := VK_BUFFER_USAGE_INDEX_BUFFER_BIT ||| VK_BUFFER_USAGE_TRANSFER_DST_BIT
      sharingMode := VK_SHARING_MODE_EXCLUSIVE }
  let bufferAllocInfo : VmaAllocationCreateInfo := { usage := VMA_MEMORY_USAGE_GPU_ONLY }
  let r := vmaCreateBuffer drv.createBuffer drv.failedCreateClears renderData bufferInfo
    bufferAllocInfo bufferData.buffer bufferData.bufferAlloc
  let bufferData := { bufferData with buffer := r.buffer, bufferAlloc := r.allocation }
  if r.result ≠ VK_SUCCESS then
    { ok := false
      renderData := Logger.log r.renderData 1
        "%s error: could not allocate index buffer via VMA (error: %i)\n" r.result
      bufferData := bufferData }
  else
    let stagingBufferInfo : VkBufferCreateInfo :=
      { size := bufferSize, usage := VK_BUFFER_USAGE_TRANSFER_SRC_BIT, sharingMode := 0 }
    let stagingAllocInfo : VmaAllocationCreateInfo := { usage := VMA_MEMORY_USAGE_CPU_ONLY }
    let s := vmaCreateBuffer drv.createStagingBuffer drv.failedCreateClears r.renderData
      stagingBufferInfo stagingAllocInfo bufferData.stagingBuffer bufferData.stagingBufferAlloc
    let bufferData :=
      { bufferData with stagingBuffer := s.buffer, stagingBufferAlloc := s.allocation }
    if s.result ≠ VK_SUCCESS then
      { ok := false
        renderData := Logger.log s.renderData 1
          "%s error: could not allocate index staging buffer via VMA (error: %i)\n" s.result
        bufferData := bufferData }
    else
      { ok := true
        renderData := s.renderData
        bufferData := { bufferData with bufferSize := bufferSize } }

/-- Function `IndexBuffer::cleanup`. -/
def IndexBuffer.cleanup (renderData : VkRenderData) (bufferData : VkIndexBufferData) :
    VkRenderData :=
  let renderData :=
    vmaDestroyBuffer renderData bufferData.stagingBuffer bufferData.stagingBufferAlloc
  vmaDestroyBuffer renderData bufferData.buffer bufferData.bufferAlloc

/-- Lines 59 to 96 of `IndexBuffer::uploadData`: map the staging buffer, copy
the payload into it, record the copy and the barrier, submit. -/
def IndexBuffer.uploadData.transfer (drv : Driver) (renderData : VkRenderData)
    (bufferData : VkIndexBufferData) (vertexData : VkMesh) : Outcome :=
  let m := vmaMapMemory drv.mapMemory renderData bufferData.stagingBufferAlloc
  if m.1 ≠ VK_SUCCESS then
    { ok := false
      renderData := Logger.log m.2 1
        "%s error: could not map index buffer memory (error: %i)\n" m.1
      bufferData := bufferData }
  else
    let renderData :=
      memcpy m.2 bufferData.stagingBufferAlloc vertexData.bytes (vertexDataSize vertexData)
    let renderData := vmaUnmapMemory renderData bufferData.stagingBufferAlloc
    let vertexBufferBarrier : VkBufferMemoryBarrier :=
      { srcAccessMask := VK_ACCESS_MEMORY_WRITE_BIT
        dstAccessMask := VK_ACCESS_VERTEX_ATTRIBUTE_READ_BIT
        srcQueueFamilyIndex := VK_QUEUE_FAMILY_IGNORED
        dstQueueFamilyIndex := VK_QUEUE_FAMILY_IGNORED
        buffer := bufferData.stagingBuffer
        offset := 0
        size := bufferData.bufferSize }
    let stagingBufferCopy : VkBufferCopy :=
      { srcOffset := 0, dstOffset := 0, size := bufferData.bufferSize }
    let c := CommandBuffer.createSingleShotBuffer renderData
    let commandBuffer :=
      vkCmdCopyBuffer c.1 bufferData.stagingBuffer bufferData.buffer stagingBufferCopy
    let commandBuffer := vkCmdPipelineBarrier commandBuffer VK_PIPELINE_STAGE_TRANSFER_BIT
      VK_PIPELINE_STAGE_VERTEX_INPUT_BIT vertexBufferBarrier
    let sub := CommandBuffer.submitSingleShotBuffer drv.submit c.2 commandBuffer
      c.2.rdGraphicsQueue
    if !sub.1 then
      { ok := false, renderData := sub.2, bufferData := bufferData }
    else
      { ok := true, renderData := sub.2, bufferData := bufferData }

/-- Function `IndexBuffer::uploadData`. -/
def IndexBuffer.uploadData (drv : Driver) (renderData : VkRenderData)
    (bufferData : VkIndexBufferData) (vertexData : VkMesh) : Outcome :=
  if bufferData.bufferSize < vertexDataSize vertexData then
    let renderData := IndexBuffer.cleanup renderData bufferData
    let r := IndexBuffer.init drv renderData bufferData (vertexDataSize vertexData)
    if !r.ok then
      { ok := false
        renderData := Logger.log r.renderData 1
          "%s error: could not create index buffer of size %i bytes\n" (vertexDataSize vertexData)
        bufferData := r.bufferData }
    else
      let renderData := Logger.log r.renderData 1
        "%s: index buffer resize to %i bytes\n" (vertexDataSize vertexData)
      let bufferData := { r.bufferData with bufferSize := vertexDataSize vertexData }
      IndexBuffer.uploadData.transfer drv renderData bufferData vertexData
  else
    IndexBuffer.uploadData.transfer drv renderData bufferData vertexData

/-! ## Runs and states -/

/-- A driver under which every operation succeeds. -/
def Driver.allOk : Driver :=
  { createBuffer := VK_SUCCESS, createStagingBuffer := VK_SUCCESS, failedCreateClears := true,
    mapMemory := VK_SUCCESS, submit := true }

/-- A render context whose allocator holds no buffer and has created none. -/
def VkRenderData.fresh : VkRenderData :=
  { rdAllocator := { buffers := [], created := 0 }, rdGraphicsQueue := 1, rdCalls := [] }

/-- A default-constructed `VkIndexBufferData`: size zero and null handles. -/
def VkIndexBufferData.empty : VkIndexBufferData :=
  { bufferSize := 0, buffer := VK_NULL_HANDLE, bufferAlloc := VK_NULL_HANDLE,
    stagingBuffer := VK_NULL_HANDLE, stagingBufferAlloc := VK_NULL_HANDLE }

/-- Handle, allocation and size of a live buffer: what identifies the
allocation, as opposed to what its memory holds. -/
def VmaBuffer.shape (b : VmaBuffer) : Nat × Nat × Nat :=
  (b.handle, b.allocation, b.size)

/-- The live allocations of the allocator, newest first. -/
def VmaAllocator.layout (a : VmaAllocator) : List (Nat × Nat × Nat) :=
  a.buffers.map VmaBuffer.shape

/-- Handles of live buffers are not null and were drawn from the counter. -/
def VmaAllocator.WellFormed (a : VmaAllocator) : Prop :=
  ∀ s ∈ a.layout, s.1 ≠ VK_NULL_HANDLE ∧ s.1 ≤ a.created

instance (a : VmaAllocator) : Decidable a.WellFormed := by
  unfold VmaAllocator.WellFormed; infer_instance

/-- Allocation handle of the live buffer with handle `h`. -/
def VkRenderData.allocationOf (renderData : VkRenderData) (h : Nat) : Option Nat :=
  (renderData.rdAllocator.find h).map (fun b => b.allocation)

/-- The recorded size equals the capacity of the live destination buffer and
of the live staging buffer. -/
def SizeInvariant (renderData : VkRenderData) (bufferData : VkIndexBufferData) : Prop :=
  renderData.capacity bufferData.buffer = some bufferData.bufferSize ∧
  renderData.capacity bufferData.stagingBuffer = some bufferData.bufferSize

instance (rd : VkRenderData) (bd : VkIndexBufferData) : Decidable (SizeInvariant rd bd) := by
  unfold SizeInvariant; infer_instance

/-- An initialised pair: both handles name live buffers of capacity
`bufferSize`, the two allocation handles are those of these buffers, the two
buffers are different, and the allocator is well formed. -/
def Initialised (renderData : VkRenderData) (bufferData : VkIndexBufferData) : Prop :=
  renderData.rdAllocator.WellFormed ∧
  SizeInvariant renderData bufferData ∧
  renderData.allocationOf bufferData.buffer = some bufferData.bufferAlloc ∧
  renderData.allocationOf bufferData.stagingBuffer = some bufferData.stagingBufferAlloc ∧
  bufferData.buffer ≠ bufferData.stagingBuffer

instance (rd : VkRenderData) (bd : VkIndexBufferData) : Decidable (Initialised rd bd) := by
  unfold Initialised; infer_instance

/-- The barrier that `uploadData` records for the pair `bd`. -/
def recordedBarrier (bd : VkIndexBufferData) : VkBufferMemoryBarrier :=
  { srcAccessMask := VK_ACCESS_MEMORY_WRITE_BIT
    dstAccessMask := VK_ACCESS_VERTEX_ATTRIBUTE_READ_BIT
    srcQueueFamilyIndex := VK_QUEUE_FAMILY_IGNORED
    dstQueueFamilyIndex := VK_QUEUE_FAMILY_IGNORED
    buffer := bd.stagingBuffer
    offset := 0
    size := bd.bufferSize }

/-- The two `vmaCreateBuffer` calls of a successful `init`. -/
def initCalls (created S : Nat) : List Call :=
  [Call.vmaCreateBuffer
     { size := S, usage := VK_BUFFER_USAGE_INDEX_BUFFER_BIT ||| VK_BUFFER_USAGE_TRANSFER_DST_BIT,
       sharingMode := VK_SHARING_MODE_EXCLUSIVE }
     { usage := VMA_MEMORY_USAGE_GPU_ONLY } VK_SUCCESS (created + 1) (created + 1),
   Call.vmaCreateBuffer
     { size := S, usage := VK_BUFFER_USAGE_TRANSFER_SRC_BIT, sharingMode := 0 }
     { usage := VMA_MEMORY_USAGE_CPU_ONLY } VK_SUCCESS (created + 2) (created + 2)]

/-- The pair that a successful resize to `n` bytes hands to the transfer part
of `uploadData`, for an allocator that had created `created` buffers. -/
def resizedPair (created n : Nat) : VkIndexBufferData :=
  { bufferSize := n, buffer := created + 1, bufferAlloc := created + 1,
    stagingBuffer := created + 2, stagingBufferAlloc := created + 2 }

/-- Whether a recorded call is a `vmaCreateBuffer`. -/
def Call.isCreate : Call → Bool
  | Call.vmaCreateBuffer _ _ _ _ _ => true
  | _ => false

/-- Whether a recorded call is a `vmaDestroyBuffer`. -/
def Call.isDestroy : Call → Bool
  | Call.vmaDestroyBuffer _ _ => true
  | _ => false

/-- The pair state after a sequence of `uploadData` calls, each with its own
driver results and payload. -/
def runUploads : List (Driver × VkMesh) → VkRenderData → VkIndexBufferData →
    VkRenderData × VkIndexBufferData
  | [], renderData, bufferData => (renderData, bufferData)
  | (drv, vertexData) :: rest, renderData, bufferData =>
    runUploads rest (IndexBuffer.uploadData drv renderData bufferData vertexData).renderData
      (IndexBuffer.uploadData drv renderData bufferData vertexData).bufferData

/-- No call of the sequence has a failing allocation: whenever a call has to
resize, both `vmaCreateBuffer` calls of its `init` succeed. Map and submit
results are not constrained. -/
def allocationsSucceed : List (Driver × VkMesh) → VkRenderData → VkIndexBufferData → Bool
  | [], _, _ => true
  | (drv, vertexData) :: rest, renderData, bufferData =>
    (!decide (bufferData.bufferSize < vertexDataSize vertexData) ||
      (decide (drv.createBuffer = VK_SUCCESS) &&
        decide (drv.createStagingBuffer = VK_SUCCESS))) &&
    allocationsSucceed rest
      (IndexBuffer.uploadData drv renderData bufferData vertexData).renderData
      (IndexBuffer.uploadData drv renderData bufferData vertexData).bufferData

/-- A pair with the default capacity of 1024 bytes, created by `init` in a
fresh render context; its destination buffer has handle 1, its staging
buffer handle 2. -/
def defaultPair : Outcome :=
  IndexBuffer.init Driver.allOk VkRenderData.fresh VkIndexBufferData.empty 1024

/-- A pair of capacity 8 bytes, created by `init` in a fresh render context. -/
def smallPair : Outcome :=
  IndexBuffer.init Driver.allOk VkRenderData.fresh VkIndexBufferData.empty 8

/-- Value of `VK_ERROR_OUT_OF_HOST_MEMORY`. -/
def VK_ERROR_OUT_OF_HOST_MEMORY : VkResult := -1

/-- Value of `VK_ERROR_OUT_OF_DEVICE_MEMORY`. -/
def VK_ERROR_OUT_OF_DEVICE_MEMORY : VkResult := -2

/-- Value of `VK_ERROR_MEMORY_MAP_FAILED`. -/
def VK_ERROR_MEMORY_MAP_FAILED : VkResult := -5

/-- A driver under which the allocation of the destination buffer fails. -/
def Driver.destinationAllocationFails : Driver :=
  { Driver.allOk with createBuffer := VK_ERROR_OUT_OF_DEVICE_MEMORY }

/-- A driver under which the allocation of the staging buffer fails. -/
def Driver.stagingAllocationFails : Driver :=
  { Driver.allOk with createStagingBuffer := VK_ERROR_OUT_OF_HOST_MEMORY }

/-- A driver under which mapping the staging buffer fails. -/
def Driver.mapFails : Driver :=
  { Driver.allOk with mapMemory := VK_ERROR_MEMORY_MAP_FAILED }

/-- A driver under which the submission of the command buffer fails. -/
def Driver.submitFails : Driver :=
  { Driver.allOk with submit := false }

/-- A mesh of 12 indices (48 bytes). -/
def twelveIndices : VkMesh :=
  { indices := [0, 1, 2, 2, 3, 0, 4, 5, 6, 6, 7, 4] }

/-- A mesh of 3 indices (12 bytes). -/
def threeIndices : VkMesh :=
  { indices := [1, 2, 3] }

/-- A mesh of 500 indices (2000 bytes). -/
def fiveHundredIndices : VkMesh :=
  { indices := List.replicate 500 7 }

/-- A mesh of `2 ^ 30` indices: `2 ^ 32` bytes. -/
def hugeMesh : VkMesh :=
  { indices := List.replicate (2 ^ 30) 0 }

/-- The two `vmaDestroyBuffer` calls of `cleanup` on the pair `bufferData`. -/
def cleanupCalls (bufferData : VkIndexBufferData) : List Call :=
  [Call.vmaDestroyBuffer bufferData.stagingBuffer bufferData.stagingBufferAlloc,
   Call.vmaDestroyBuffer bufferData.buffer bufferData.bufferAlloc]

/-- The calls of lines 59 to 96 of `uploadData` on the pair `bufferData` when
the map succeeds: map, copy of `count` bytes into the mapped memory, unmap,
creation of the command buffer, submission of the copy and the barrier. -/
def transferCalls (drv : Driver) (bufferData : VkIndexBufferData) (count queue : Nat) :
    List Call :=
  [Call.vmaMapMemory bufferData.stagingBufferAlloc drv.mapMemory,
   Call.memcpy bufferData.stagingBufferAlloc count,
   Call.vmaUnmapMemory bufferData.stagingBufferAlloc,
   Call.createSingleShotBuffer,
   Call.submitSingleShotBuffer
     { commands :=
         [Command.copyBuffer bufferData.stagingBuffer bufferData.buffer
            { srcOffset := 0, dstOffset := 0, size := bufferData.bufferSize },
          Command.pipelineBarrier VK_PIPELINE_STAGE_TRANSFER_BIT
            VK_PIPELINE_STAGE_VERTEX_INPUT_BIT (recordedBarrier bufferData)] }
     queue drv.submit]

/-- The calls of a successful `uploadData` that resizes the pair `bufferData`
to `count` bytes, in an allocator that had created `created` buffers: the
calls of one `cleanup` of the old pair, of one `init`, the log line of the
resize, and the transfer on the new pair. -/
def resizeCalls (drv : Driver) (bufferData : VkIndexBufferData) (created count queue : Nat) :
    List Call :=
  cleanupCalls bufferData ++ initCalls created count ++
    [Call.log 1 "%s: index buffer resize to %i bytes\n" count] ++
    transferCalls drv (resizedPair created count) count queue

/-- Lines 46 to 57 of `IndexBuffer::uploadData`, the resize check. With
`ok = true` the outcome is the state in which line 59 is reached; with
`ok = false` it is what the `return false` of line 53 leaves behind. -/
def IndexBuffer.uploadData.resize (drv : Driver) (renderData : VkRenderData)
    (bufferData : VkIndexBufferData) (vertexData : VkMesh) : Outcome :=
  if bufferData.bufferSize < vertexDataSize vertexData then
    let renderData := IndexBuffer.cleanup renderData bufferData
    let r := IndexBuffer.init drv renderData bufferData (vertexDataSize vertexData)
    if !r.ok then
      { ok := false
        renderData := Logger.log r.renderData 1
          "%s error: could not create index buffer of size %i bytes\n" (vertexDataSize vertexData)
        bufferData := r.bufferData }
    else
      { ok := true
        renderData := Logger.log r.renderData 1
          "%s: index buffer resize to %i bytes\n" (vertexDataSize vertexData)
        bufferData := { r.bufferData with bufferSize := vertexDataSize vertexData } }
  else
    { ok := true, renderData := renderData, bufferData := bufferData }

/-- The calls recorded in `after` since the state `before`. -/
def VkRenderData.callsSince (after before : VkRenderData) : List Call :=
  after.rdCalls.drop before.rdCalls.length

/-- The create info of the destination buffer in `init` (lines 10 to 14). -/
def destinationBufferInfo (bufferSize : Nat) : VkBufferCreateInfo :=
  { size := bufferSize
    usage := VK_BUFFER_USAGE_INDEX_BUFFER_BIT ||| VK_BUFFER_USAGE_TRANSFER_DST_BIT
    sharingMode := VK_SHARING_MODE_EXCLUSIVE }

/-- The create info of the staging buffer in `init` (lines 27 to 30). -/
def stagingBufferInfo (bufferSize : Nat) : VkBufferCreateInfo :=
  { size := bufferSize, usage := VK_BUFFER_USAGE_TRANSFER_SRC_BIT, sharingMode := 0 }

/-- The calls of an `init` whose destination allocation fails with `result`:
one `vmaCreateBuffer` and the log line naming the index buffer. -/
def initDestinationFailedCalls (result : VkResult) (S : Nat) : List Call :=
  [Call.vmaCreateBuffer (destinationBufferInfo S) { usage := VMA_MEMORY_USAGE_GPU_ONLY }
     result VK_NULL_HANDLE VK_NULL_HANDLE,
   Call.log 1 "%s error: could not allocate index buffer via VMA (error: %i)\n" result]

/-- The calls of an `init` whose destination allocation succeeds and whose
staging allocation fails with `result`: two `vmaCreateBuffer` calls and the
log line naming the index staging buffer. -/
def initStagingFailedCalls (result : VkResult) (created S : Nat) : List Call :=
  [Call.vmaCreateBuffer (destinationBufferInfo S) { usage := VMA_MEMORY_USAGE_GPU_ONLY }
     VK_SUCCESS (created + 1) (created + 1),
   Call.vmaCreateBuffer (stagingBufferInfo S) { usage := VMA_MEMORY_USAGE_CPU_ONLY }
     result VK_NULL_HANDLE VK_NULL_HANDLE,
   Call.log 1 "%s error: could not allocate index staging buffer via VMA (error: %i)\n" result]

/-- The calls of `init` for `S` bytes under the driver results `drv`, in an
allocator that had created `created` buffers. -/
def initCallsOf (drv : Driver) (created S : Nat) : List Call :=
  if drv.createBuffer ≠ VK_SUCCESS then initDestinationFailedCalls drv.createBuffer S
  else if drv.createStagingBuffer ≠ VK_SUCCESS then
    initStagingFailedCalls drv.createStagingBuffer created S
  else initCalls created S

/-- The calls of lines 59 to 96 of `uploadData` on the pair `bufferData`: the
failed map and its log line, or the calls of `transferCalls`. -/
def transferCallsOf (drv : Driver) (bufferData : VkIndexBufferData) (count queue : Nat) :
    List Call :=
  if drv.mapMemory ≠ VK_SUCCESS then
    [Call.vmaMapMemory bufferData.stagingBufferAlloc drv.mapMemory,
     Call.log 1 "%s error: could not map index buffer memory (error: %i)\n" drv.mapMemory]
  else transferCalls drv bufferData count queue

/-- The calls of the resize check of `uploadData` (lines 46 to 57): none when
the payload fits, else those of `cleanup`, of `init` and one log line. -/
def resizeCheckCalls (drv : Driver) (bufferData : VkIndexBufferData) (created count : Nat) :
    List Call :=
  if bufferData.bufferSize < count then
    cleanupCalls bufferData ++ initCallsOf drv created count ++
      [if drv.createBuffer = VK_SUCCESS ∧ drv.createStagingBuffer = VK_SUCCESS then
        Call.log 1 "%s: index buffer resize to %i bytes\n" count
       else Call.log 1 "%s error: could not create index buffer of size %i bytes\n" count]
  else []

/-- Whether a recorded call creates or submits a command buffer. -/
def Call.isCommandBufferCall : Call → Bool
  | Call.createSingleShotBuffer => true
  | Call.submitSingleShotBuffer _ _ _ => true
  | _ => false

/-- The copy regions recorded into the command buffers that the calls submit. -/
def copyRegions (calls : List Call) : List VkBufferCopy :=
  calls.flatMap (fun c =>
    match c with
    | Call.submitSingleShotBuffer commandBuffer _ _ =>
      commandBuffer.commands.filterMap (fun cmd =>
        match cmd with
        | Command.copyBuffer _ _ region => some region
        | Command.pipelineBarrier _ _ _ => none)
    | _ => [])

/-- The sizes requested by the `vmaCreateBuffer` calls among `calls`. -/
def createSizes (calls : List Call) : List Nat :=
  calls.filterMap (fun c =>
    match c with
    | Call.vmaCreateBuffer info _ _ _ _ => some info.size
    | _ => none)

/-- The byte counts of the `memcpy` calls among `calls`. -/
def memcpyCounts (calls : List Call) : List Nat :=
  calls.filterMap (fun c =>
    match c with
    | Call.memcpy _ count => some count
    | _ => none)

/-- A pair of capacity `2 ^ 32` bytes, created by `init` in a fresh render
context. -/
def hugePair : Outcome :=
  IndexBuffer.init Driver.allOk VkRenderData.fresh VkIndexBufferData.empty (2 ^ 32)

/-- A mesh of `2 ^ 30` indices (`2 ^ 32` bytes) whose first index is 1. -/
def hugeMeshFromOne : VkMesh :=
  { indices := 1 :: List.replicate (2 ^ 30 - 1) 0 }

/-! ## `GraphNodeFactory.cpp` (chapter 10) -/

/-- The enumeration `graphNodeType`. Its declaration (`Enums.h`) is not among
the sources: the twelve named values are the enumerators that
`GraphNodeFactory.cpp` names, and `other v` stands for every other value of the
enumeration, the ones that reach the `default` label of `makeNode`. -/
inductive graphNodeType where
  | root
  | test
  | wait
  | randomWait
  | selector
  | sequence
  | «instance»
  | event
  | action
  | debugLog
  | faceAnim
  | headAmin
  | other (value : Int)
  deriving DecidableEq, Repr

/-- The twelve node types that the constructor of `GraphNodeFactory` registers
and that the `switch` of `makeNode` constructs. -/
def graphNodeType.registered : List graphNodeType :=
  [graphNodeType.root, graphNodeType.test, graphNodeType.wait, graphNodeType.randomWait,
   graphNodeType.selector, graphNodeType.sequence, graphNodeType.instance,
   graphNodeType.event, graphNodeType.action, graphNodeType.debugLog,
   graphNodeType.faceAnim, graphNodeType.headAmin]

/-- The node classes that `makeNode` instantiates with `std::make_shared`. -/
inductive NodeClass where
  | RootNode
  | TestNode
  | WaitNode
  | RandomWaitNode
  | SelectorNode
  | SequenceNode
  | InstanceNode
  | EventNode
  | ActionNode
  | DebugLogNode
  | FaceAnimNode
  | HeadAnimNode
  deriving DecidableEq, Repr

/-- A `fireNodeOutputCallback`: a `std::function`, which is either empty
(`none`) or holds a target, identified by a number. -/
abbrev fireNodeOutputCallback := Option Nat

/-- The members of a node that `makeNode` deals with: the class it was
constructed as, the constructor argument (`RootNode` takes none), and the three
members that `makeNode` sets after the `switch`. -/
structure GraphNodeBase where
  nodeClass : NodeClass
  nodeId : Option Int
  outputTriggerCallback : fireNodeOutputCallback
  mNodeName : String
  mNodeType : graphNodeType
  deriving DecidableEq, Repr

/-- A node as `std::make_shared` leaves it, before `makeNode` sets its
callback, name and type (these three are overwritten at lines 87 to 89). -/
def GraphNodeBase.make_shared (nodeClass : NodeClass) (nodeId : Option Int) : GraphNodeBase :=
  { nodeClass := nodeClass, nodeId := nodeId, outputTriggerCallback := none, mNodeName := "",
    mNodeType := graphNodeType.other 0 }

/-- One `Logger::log` line: level, format string and numeric arguments. -/
structure LogLine where
  level : Nat
  message : String
  args : List Int
  deriving DecidableEq, Repr

/-- The members of `GraphNodeFactory` (`GraphNodeFactory.h`, lines 18 and 19);
the unordered map is a list of key and value pairs with distinct keys. -/
structure GraphNodeFactory where
  mFireNodeOutputCallback : fireNodeOutputCallback
  mGraphNodeTypeMap : List (graphNodeType × String)
  deriving DecidableEq, Repr

/-- Map access `m[key] = value`: the value of an existing key is replaced, a new
key is added. -/
def unordered_map.assign (m : List (graphNodeType × String)) (key : graphNodeType)
    (value : String) : List (graphNodeType × String) :=
  if m.any (fun e => e.1 == key) then
    m.map (fun e => if e.1 = key then (key, value) else e)
  else m ++ [(key, value)]

/-- Map access `m.at(key)`: `none` stands for the `std::out_of_range` exception
of a missing key. -/
def unordered_map.at (m : List (graphNodeType × String)) (key : graphNodeType) :
    Option String :=
  (m.find? (fun e => e.1 == key)).map (fun e => e.2)

/-- Constructor `GraphNodeFactory::GraphNodeFactory` (lines 18 to 32). -/
def GraphNodeFactory.construct (callback : fireNodeOutputCallback) : GraphNodeFactory :=
  let m : List (graphNodeType × String) := []
  let m := unordered_map.assign m graphNodeType.root "Root"
  let m := unordered_map.assign m graphNodeType.test "Test"
  let m := unordered_map.assign m graphNodeType.wait "Wait"
  let m := unordered_map.assign m graphNodeType.randomWait "RandomWait"
  let m := unordered_map.assign m graphNodeType.selector "Selector"
  let m := unordered_map.assign m graphNodeType.sequence "Sequence"
  let m := unordered_map.assign m graphNodeType.instance "Instance"
  let m := unordered_map.assign m graphNodeType.event "Event"
  let m := unordered_map.assign m graphNodeType.action "Action"
  let m := unordered_map.assign m graphNodeType.debugLog "DebugLog"
  let m := unordered_map.assign m graphNodeType.faceAnim "FaceAnim"
  let m := unordered_map.assign m graphNodeType.headAmin "HeadAnim"
  { mFireNodeOutputCallback := callback, mGraphNodeTypeMap := m }

/-- Function `GraphNodeFactory::getNodeTypeName`: `mGraphNodeTypeMap[nodeType]`,
which returns the registered name, or adds the key with an empty name and
returns that. The second component is the map afterwards. -/
def GraphNodeFactory.getNodeTypeName (factory : GraphNodeFactory) (nodeType : graphNodeType) :
    String × GraphNodeFactory :=
  match unordered_map.at factory.mGraphNodeTypeMap nodeType with
  | some name => (name, factory)
  | none =>
    ("", { factory with
           mGraphNodeTypeMap := unordered_map.assign factory.mGraphNodeTypeMap nodeType "" })

/-- How a call of `makeNode` ends: it returns a shared pointer (`none` is
`nullptr`), or line 87 dereferences the null `newNode`, or `at` at line 88
throws for a key that is not registered. -/
inductive MakeNodeEnd where
  | returned (node : Option GraphNodeBase)
  | nullDereference
  | outOfRange
  deriving DecidableEq, Repr

/-- What a call of `makeNode` does: the objects it constructs, the lines it
logs, and how it ends. -/
structure MakeNodeOutcome where
  constructed : List NodeClass
  log : List LogLine
  ending : MakeNodeEnd
  deriving DecidableEq, Repr

/-- The integer value of a `graphNodeType`, for the log line of the `default`
label; only the values of `other` reach it. -/
def graphNodeType.toInt : graphNodeType → Int
  | graphNodeType.other value => value
  | _ => 0

/-- The `switch` of `makeNode` (lines 45 to 85): the node it assigns to
`newNode` (`none` when `newNode` stays `nullptr`) and the line it logs. -/
def GraphNodeFactory.makeNode.switch (type : graphNodeType) (nodeId : Int) :
    Option GraphNodeBase × List LogLine :=
  match type with
  | graphNodeType.root => (some (GraphNodeBase.make_shared NodeClass.RootNode none), [])
  | graphNodeType.test => (some (GraphNodeBase.make_shared NodeClass.TestNode (some nodeId)), [])
  | graphNodeType.wait => (some (GraphNodeBase.make_shared NodeClass.WaitNode (some nodeId)), [])
  | graphNodeType.randomWait =>
    (some (GraphNodeBase.make_shared NodeClass.RandomWaitNode (some nodeId)), [])
  | graphNodeType.selector =>
    (some (GraphNodeBase.make_shared NodeClass.SelectorNode (some nodeId)), [])
  | graphNodeType.sequence =>
    (some (GraphNodeBase.make_shared NodeClass.SequenceNode (some nodeId)), [])
  | graphNodeType.instance =>
    (some (GraphNodeBase.make_shared NodeClass.InstanceNode (some nodeId)), [])
  | graphNodeType.event =>
    (some (GraphNodeBase.make_shared NodeClass.EventNode (some nodeId)), [])
  | graphNodeType.action =>
    (some (GraphNodeBase.make_shared NodeClass.ActionNode (some nodeId)), [])
  | graphNodeType.debugLog =>
    (some (GraphNodeBase.make_shared NodeClass.DebugLogNode (some nodeId)), [])
  | graphNodeType.faceAnim =>
    (some (GraphNodeBase.make_shared NodeClass.FaceAnimNode (some nodeId)), [])
  | graphNodeType.headAmin =>
    (some (GraphNodeBase.make_shared NodeClass.HeadAnimNode (some nodeId)), [])
  | graphNodeType.other value =>
    (none, [{ level := 1, message := "%s error: invalid node type %i", args := [value] }])

/-- Function `GraphNodeFactory::makeNode`. -/
def GraphNodeFactory.makeNode (factory : GraphNodeFactory) (type : graphNodeType)
    (nodeId : Int) : MakeNodeOutcome :=
  let newNode : Option GraphNodeBase := none
  if factory.mFireNodeOutputCallback.isNone then
    { constructed := []
      log := [{ level := 1, message := "%s error: node fire callback not set\n", args := [] }]
      ending := MakeNodeEnd.returned newNode }
  else
    let s := GraphNodeFactory.makeNode.switch type nodeId
    match s.1 with
    | none => { constructed := [], log := s.2, ending := MakeNodeEnd.nullDereference }
    | some node =>
      let node := { node with outputTriggerCallback := factory.mFireNodeOutputCallback }
      match unordered_map.at factory.mGraphNodeTypeMap type with
      | none => { constructed := [node.nodeClass], log := s.2, ending := MakeNodeEnd.outOfRange }
      | some name =>
        let node := { node with mNodeName := name }
        let node := { node with mNodeType := type }
        { constructed := [node.nodeClass], log := s.2, ending := MakeNodeEnd.returned (some node) }

/-! ## `UserInterface.cpp`: the selection controls of the "Instances" header -/

/-- Value of an expression of type `size_t`: reduction modulo `2 ^ 64`. -/
def toSizeT (x : Int) : Nat :=
  (x % 2 ^ 64).toNat

/-- Value of `static_cast<int>(x)` for a `size_t` value `x`: the 32-bit two's
complement reading of its low 32 bits. -/
def toInt32 (x : Nat) : Int :=
  if x % 2 ^ 32 < 2 ^ 31 then (x % 2 ^ 32 : Nat) else ((x % 2 ^ 32 : Nat) : Int) - 2 ^ 32

/-- Value of `INT_MAX`. -/
def INT_MAX : Int := 2 ^ 31 - 1

/-- Library call `std::clamp(v, lo, hi)`: `lo` if `v` is less than `lo`, `hi` if
`hi` is less than `v`, otherwise `v`. The call requires `lo ≤ hi`; with
`hi < lo` its behaviour is undefined (`none`). -/
def std.clamp (v lo hi : Int) : Option Int :=
  if hi < lo then none
  else some (if v < lo then lo else if hi < v then hi else v)

/-- Widget call `ImGui::DragInt("##SelInst", &v, ...)`: the widget leaves the
value (`none`) or writes an integer of its choosing (`some w`). -/
def ImGui.DragInt (written : Option Int) (v : Int) : Int :=
  match written with
  | none => v
  | some w => w

/-- Increment `v++` of an `int`: undefined (`none`) at `INT_MAX`. -/
def intIncrement (v : Int) : Option Int :=
  if v = INT_MAX then none else some (v + 1)

/-- The selection controls of `UserInterface::createSettingsWindow` in chapter
13 (lines 2388 to 2419): left arrow, drag field, clamp, right arrow. `n` is
`micAssimpInstances.size()`, the two booleans are the results of the
`ArrowButton` calls; the result is `micSelectedInstance` afterwards, `none` when
the behaviour is undefined. -/
def Chapter13.UserInterface.createSettingsWindow.selectInstance (n : Nat)
    (leftPressed : Bool) (written : Option Int) (rightPressed : Bool)
    (micSelectedInstance : Int) : Option Int :=
  let sel :=
    if leftPressed && decide (micSelectedInstance > 1) then micSelectedInstance - 1
    else micSelectedInstance
  let sel := ImGui.DragInt written sel
  match std.clamp sel 0 (toInt32 (toSizeT ((n : Int) - 1))) with
  | none => none
  | some sel =>
    if rightPressed && decide (toSizeT sel < toSizeT ((n : Int) - 1)) then intIncrement sel
    else some sel

/-- The selection controls of `UserInterface::createSettingsWindow` in chapter
07 (lines 1555 to 1598): left arrow, drag field, right arrow, and the clamp
last. -/
def Chapter07.UserInterface.createSettingsWindow.selectInstance (n : Nat)
    (leftPressed : Bool) (written : Option Int) (rightPressed : Bool)
    (micSelectedInstance : Int) : Option Int :=
  let sel :=
    if leftPressed && decide (micSelectedInstance > 1) then micSelectedInstance - 1
    else micSelectedInstance
  let sel := ImGui.DragInt written sel
  let incremented :=
    if rightPressed && decide (toSizeT sel < toSizeT ((n : Int) - 1)) then intIncrement sel
    else some sel
  match incremented with
  | none => none
  | some sel => std.clamp sel 0 (toInt32 (toSizeT ((n : Int) - 1)))

/-! ## `UserInterface.cpp` (chapter 13): the "Reset Values to Zero" button -/

/-- The structure `InstanceSettings`. Its declaration (`InstanceSettings.h`) is
not among the sources: the two index members are named, every other member is
gathered in `rest`, of the parameter type `Rest`. -/
structure InstanceSettings (Rest : Type) where
  isInstanceIndexPosition : Int
  isInstancePerModelIndexPosition : Int
  rest : Rest

/-- A call that the button block makes into its collaborators. -/
inductive SettingsCall (Rest : Type) where
  | applyEditInstanceSettings (selectedInstance : Int) (newSettings : InstanceSettings Rest)
      (oldSettings : InstanceSettings Rest)
  | setConfigDirty (dirty : Bool)

/-- The variables that the block of the "Reset Values to Zero" button reads
and writes: the local `settings`, the static `savedInstanceSettings`, and the
calls made so far. -/
structure InstancesHeader (Rest : Type) where
  settings : InstanceSettings Rest
  savedInstanceSettings : InstanceSettings Rest
  calls : List (SettingsCall Rest)

/-- The block of the "Reset Values to Zero" button of
`UserInterface::createSettingsWindow` in chapter 13 (lines 2573 to 2587).
`pressed` is the result of `ImGui::Button`, `defaultSettings` the
default-constructed `InstanceSettings`, `micSelectedInstance` the selected
instance. -/
def Chapter13.UserInterface.createSettingsWindow.resetValuesToZero {Rest : Type}
    (pressed : Bool) (defaultSettings : InstanceSettings Rest) (micSelectedInstance : Int)
    (header : InstancesHeader Rest) : InstancesHeader Rest :=
  if pressed then
    let calls := header.calls ++
      [SettingsCall.applyEditInstanceSettings micSelectedInstance header.settings
        header.savedInstanceSettings]
    let instanceIndex := header.settings.isInstanceIndexPosition
    let modelInstanceIndex := header.settings.isInstancePerModelIndexPosition
    let settings := defaultSettings
    let settings := { settings with isInstanceIndexPosition := instanceIndex }
    let settings := { settings with isInstancePerModelIndexPosition := modelInstanceIndex }
    { settings := settings
      savedInstanceSettings := settings
      calls := calls ++ [SettingsCall.setConfigDirty true] }
  else header

/-! ## `UserInterface.cpp`: the calls `micAssimpInstances.at(micSelectedInstance)` of the "Instances" header -/

/-- The part of the structure `ModelInstanceCamData` that a call
`micAssimpInstances.at(micSelectedInstance)` depends on: the size of the vector
`micAssimpInstances` and the member `micSelectedInstance`. -/
structure ModelInstanceCamData where
  micAssimpInstances : Nat
  micSelectedInstance : Int
  deriving DecidableEq, Repr

/-- Whether `micAssimpInstances.at(micSelectedInstance)` is in bounds: the
`int` argument is converted to `size_t`, and `std::vector::at` throws
`std::out_of_range` unless the converted position is less than `size()`. -/
def ModelInstanceCamData.selectedInBounds (data : ModelInstanceCamData) : Bool :=
  decide (toSizeT data.micSelectedInstance < data.micAssimpInstances)

/-- The callbacks that the "Instances" header calls through `modInstCamData`.
Their targets are set by the renderer and are not among the sources. -/
inductive InstancesCallback where
  | micInstanceCenterCallbackFunction
  | micInstanceDeleteCallbackFunction
  | micInstanceCloneCallbackFunction
  | micInstanceCloneManyCallbackFunction
  | applyEditInstanceSettings
  | micSetConfigDirtyCallbackFunction
  | micInstanceAddBehaviorCallbackFunction
  | micInstanceDelBehaviorCallbackFunction
  | micGetNavTargetsCallbackFunction
  deriving DecidableEq, Repr

/-- What the header does to the instance list, in program order: a call
`micAssimpInstances.at(micSelectedInstance)` at a source line, with the
converted position and the size of the vector at that moment, or a call of a
callback at a source line, with the list and the selection as the callback
left them. -/
inductive HeaderEvent where
  | access (line : Nat) (pos : Nat) (size : Nat)
  | called (callback : InstancesCallback) (line : Nat) (after : ModelInstanceCamData)
  deriving DecidableEq, Repr

/-- The variables of the "Instances" header that decide its calls
`micAssimpInstances.at(micSelectedInstance)`: the list and the selection, the
local `numberOfInstances`, the events so far, and the line of the access that
threw `std::out_of_range`, if one did. The header has no handler, so nothing
of it runs after a throw. -/
structure HeaderRun where
  data : ModelInstanceCamData
  numberOfInstances : Nat
  events : List HeaderEvent
  thrown : Option Nat
  deriving DecidableEq, Repr

/-- A call `modInstCamData.micAssimpInstances.at(modInstCamData.micSelectedInstance)`
at the given source line. -/
def HeaderRun.atSelected (line : Nat) (run : HeaderRun) : HeaderRun :=
  if run.thrown.isSome then run
  else if run.data.selectedInBounds then
    { run with
      events := run.events ++
        [HeaderEvent.access line (toSizeT run.data.micSelectedInstance)
          run.data.micAssimpInstances] }
  else
    { run with
      events := run.events ++
        [HeaderEvent.access line (toSizeT run.data.micSelectedInstance)
          run.data.micAssimpInstances]
      thrown := some line }

/-- A call of a callback at the given source line. The callback is code
outside this file: `callbacks` gives, for the callback, the line of the call
and the list and selection before, the list and selection that it leaves. -/
def HeaderRun.call
    (callbacks : InstancesCallback → Nat → ModelInstanceCamData → ModelInstanceCamData)
    (callback : InstancesCallback) (line : Nat) (run : HeaderRun) : HeaderRun :=
  if run.thrown.isSome then run
  else
    { run with
      data := callbacks callback line run.data
      events := run.events ++
        [HeaderEvent.called callback line (callbacks callback line run.data)] }

/-- The assignment `numberOfInstances = modInstCamData.micAssimpInstances.size() - 1`,
in `size_t`. -/
def HeaderRun.readNumberOfInstances (run : HeaderRun) : HeaderRun :=
  if run.thrown.isSome then run
  else { run with numberOfInstances := toSizeT ((run.data.micAssimpInstances : Int) - 1) }

/-- Statements in sequence. -/
def HeaderRun.steps : List (HeaderRun → HeaderRun) → HeaderRun → HeaderRun
  | [], run => run
  | step :: rest, run => HeaderRun.steps rest (step run)

/-- The statement `if (condition) { body }`. -/
def HeaderRun.ifThen (condition : HeaderRun → Bool) (body : List (HeaderRun → HeaderRun))
    (run : HeaderRun) : HeaderRun :=
  if condition run then HeaderRun.steps body run else run

/-- The "Instances" header of `UserInterface::createSettingsWindow` in chapter
13 after its selection controls (lines 2421 to 2790), reduced to the calls
`micAssimpInstances.at(micSelectedInstance)` and the calls of callbacks, in
program order. `branch l` is the value of the condition of source line `l`
where the value comes from outside: the result of `ImGui::Button` or
`ImGui::IsItemDeactivatedAfterEdit`, the pointer comparison of line 2433, the
test `numNavTargets > 0` of line 2728. Calls on an instance or a model
(`getInstanceSettings`, `setInstanceSettings`, `getModel`,
`updateInstanceState`) and the ImGui calls get no reference to
`modInstCamData` and are left out, as is line 2769, whose position is a
navigation target and not the selection. -/
def Chapter13.UserInterface.createSettingsWindow.instancesHeader.afterSelection
    (callbacks : InstancesCallback → Nat → ModelInstanceCamData → ModelInstanceCamData)
    (branch : Nat → Bool) (nullInstanceSelected : Bool) : List (HeaderRun → HeaderRun) :=
  [ HeaderRun.ifThen (fun run => decide (run.numberOfInstances > 0))
      [ HeaderRun.atSelected 2432,
        HeaderRun.atSelected 2433,
        HeaderRun.ifThen (fun _ => branch 2433) [HeaderRun.atSelected 2434] ],
    HeaderRun.ifThen (fun run => decide (run.numberOfInstances > 0) && !nullInstanceSelected)
      [ HeaderRun.atSelected 2453 ],
    HeaderRun.ifThen (fun _ => branch 2464)
      [ HeaderRun.call callbacks InstancesCallback.micInstanceCenterCallbackFunction 2465 ],
    HeaderRun.ifThen (fun _ => branch 2482)
      [ HeaderRun.call callbacks InstancesCallback.micInstanceDeleteCallbackFunction 2483,
        HeaderRun.atSelected 2486 ],
    HeaderRun.ifThen (fun _ => branch 2495)
      [ HeaderRun.call callbacks InstancesCallback.micInstanceCloneCallbackFunction 2496,
        HeaderRun.atSelected 2499 ],
    HeaderRun.ifThen (fun _ => branch 2509)
      [ HeaderRun.call callbacks InstancesCallback.micInstanceCloneManyCallbackFunction 2510,
        HeaderRun.atSelected 2513 ],
    HeaderRun.readNumberOfInstances,
    HeaderRun.ifThen (fun _ => branch 2531)
      [ HeaderRun.atSelected 2532,
        HeaderRun.call callbacks InstancesCallback.applyEditInstanceSettings 2532,
        HeaderRun.call callbacks InstancesCallback.micSetConfigDirtyCallbackFunction 2535 ],
    HeaderRun.ifThen (fun _ => branch 2542)
      [ HeaderRun.atSelected 2543,
        HeaderRun.call callbacks InstancesCallback.applyEditInstanceSettings 2543,
        HeaderRun.call callbacks InstancesCallback.micSetConfigDirtyCallbackFunction 2546 ],
    HeaderRun.ifThen (fun _ => branch 2553)
      [ HeaderRun.atSelected 2554,
        HeaderRun.call callbacks InstancesCallback.applyEditInstanceSettings 2554,
        HeaderRun.call callbacks InstancesCallback.micSetConfigDirtyCallbackFunction 2557 ],
    HeaderRun.ifThen (fun _ => branch 2564)
      [ HeaderRun.atSelected 2565,
        HeaderRun.call callbacks InstancesCallback.applyEditInstanceSettings 2565,
        HeaderRun.call callbacks InstancesCallback.micSetConfigDirtyCallbackFunction 2568 ],
    HeaderRun.ifThen (fun _ => branch 2573)
      [ HeaderRun.atSelected 2574,
        HeaderRun.call callbacks InstancesCallback.applyEditInstanceSettings 2574,
        HeaderRun.call callbacks InstancesCallback.micSetConfigDirtyCallbackFunction 2586 ],
    HeaderRun.atSelected 2590,
    HeaderRun.ifThen (fun _ => branch 2634)
      [ HeaderRun.call callbacks InstancesCallback.micInstanceAddBehaviorCallbackFunction 2636 ],
    HeaderRun.ifThen (fun _ => branch 2648)
      [ HeaderRun.call callbacks InstancesCallback.micInstanceDelBehaviorCallbackFunction 2649,
        HeaderRun.atSelected 2653,
        HeaderRun.atSelected 2655 ],
    HeaderRun.call callbacks InstancesCallback.micGetNavTargetsCallbackFunction 2704,
    HeaderRun.ifThen (fun _ => branch 2728)
      [ HeaderRun.ifThen (fun _ => branch 2767)
          [ HeaderRun.call callbacks InstancesCallback.micInstanceCenterCallbackFunction 2770 ] ],
    HeaderRun.ifThen (fun run => decide (run.numberOfInstances > 0))
      [ HeaderRun.atSelected 2789 ] ]

/-- The "Instances" header of `UserInterface::createSettingsWindow` in chapter
13 (lines 2377 to 2791) for a list of `n` instances: the locals of lines 2379
and 2380, the selection controls, then the rest of the header. The result is
`none` when the selection controls have undefined behaviour. -/
def Chapter13.UserInterface.createSettingsWindow.instancesHeader
    (callbacks : InstancesCallback → Nat → ModelInstanceCamData → ModelInstanceCamData)
    (branch : Nat → Bool) (n : Nat) (leftPressed : Bool) (written : Option Int)
    (rightPressed : Bool) (micSelectedInstance : Int) : Option HeaderRun :=
  let nullInstanceSelected := decide (micSelectedInstance = 0)
  let numberOfInstances := toSizeT ((n : Int) - 1)
  match Chapter13.UserInterface.createSettingsWindow.selectInstance n leftPressed written
      rightPressed micSelectedInstance with
  | none => none
  | some sel =>
    some (HeaderRun.steps
      (Chapter13.UserInterface.createSettingsWindow.instancesHeader.afterSelection callbacks
        branch nullInstanceSelected)
      { data := { micAssimpInstances := n, micSelectedInstance := sel }
        numberOfInstances := numberOfInstances
        events := []
        thrown := none })

/-- The "Instances" header of `UserInterface::createSettingsWindow` in chapter
07 after its selection controls and the clamp (lines 1600 to 1744), reduced
as in chapter 13; `branch 1607` is the pointer comparison of line 1607. -/
def Chapter07.UserInterface.createSettingsWindow.instancesHeader.afterSelection
    (callbacks : InstancesCallback → Nat → ModelInstanceCamData → ModelInstanceCamData)
    (branch : Nat → Bool) (nullInstanceSelected : Bool) : List (HeaderRun → HeaderRun) :=
  [ HeaderRun.ifThen (fun run => decide (run.numberOfInstances > 0))
      [ HeaderRun.atSelected 1605,
        HeaderRun.atSelected 1607,
        HeaderRun.ifThen (fun _ => branch 1607) [HeaderRun.atSelected 1608] ],
    HeaderRun.ifThen (fun _ => branch 1615)
      [ HeaderRun.call callbacks InstancesCallback.micInstanceCenterCallbackFunction 1616 ],
    HeaderRun.ifThen (fun _ => branch 1633)
      [ HeaderRun.call callbacks InstancesCallback.micInstanceDeleteCallbackFunction 1634,
        HeaderRun.atSelected 1637 ],
    HeaderRun.ifThen (fun _ => branch 1646)
      [ HeaderRun.call callbacks InstancesCallback.micInstanceCloneCallbackFunction 1647,
        HeaderRun.atSelected 1650 ],
    HeaderRun.ifThen (fun _ => branch 1660)
      [ HeaderRun.call callbacks InstancesCallback.micInstanceCloneManyCallbackFunction 1661,
        HeaderRun.atSelected 1664 ],
    HeaderRun.readNumberOfInstances,
    HeaderRun.ifThen (fun run => decide (run.numberOfInstances > 0) && !nullInstanceSelected)
      [ HeaderRun.atSelected 1676 ],
    HeaderRun.ifThen (fun _ => branch 1687)
      [ HeaderRun.atSelected 1688,
        HeaderRun.call callbacks InstancesCallback.applyEditInstanceSettings 1688,
        HeaderRun.call callbacks InstancesCallback.micSetConfigDirtyCallbackFunction 1691 ],
    HeaderRun.ifThen (fun _ => branch 1698)
      [ HeaderRun.atSelected 1699,
        HeaderRun.call callbacks InstancesCallback.applyEditInstanceSettings 1699,
        HeaderRun.call callbacks InstancesCallback.micSetConfigDirtyCallbackFunction 1702 ],
    HeaderRun.ifThen (fun _ => branch 1709)
      [ HeaderRun.atSelected 1710,
        HeaderRun.call callbacks InstancesCallback.applyEditInstanceSettings 1710,
        HeaderRun.call callbacks InstancesCallback.micSetConfigDirtyCallbackFunction 1713 ],
    HeaderRun.ifThen (fun _ => branch 1720)
      [ HeaderRun.atSelected 1721,
        HeaderRun.call callbacks InstancesCallback.applyEditInstanceSettings 1721,
        HeaderRun.call callbacks InstancesCallback.micSetConfigDirtyCallbackFunction 1724 ],
    HeaderRun.ifThen (fun _ => branch 1729)
      [ HeaderRun.atSelected 1730,
        HeaderRun.call callbacks InstancesCallback.applyEditInstanceSettings 1730,
        HeaderRun.call callbacks InstancesCallback.micSetConfigDirtyCallbackFunction 1735 ],
    HeaderRun.ifThen (fun run => decide (run.numberOfInstances > 0))
      [ HeaderRun.atSelected 1743 ] ]

/-- The "Instances" header of `UserInterface::createSettingsWindow` in chapter
07 (lines 1544 to 1745) for a list of `n` instances. -/
def Chapter07.UserInterface.createSettingsWindow.instancesHeader
    (callbacks : InstancesCallback → Nat → ModelInstanceCamData → ModelInstanceCamData)
    (branch : Nat → Bool) (n : Nat) (leftPressed : Bool) (written : Option Int)
    (rightPressed : Bool) (micSelectedInstance : Int) : Option HeaderRun :=
  let nullInstanceSelected := decide (micSelectedInstance = 0)
  let numberOfInstances := toSizeT ((n : Int) - 1)
  match Chapter07.UserInterface.createSettingsWindow.selectInstance n leftPressed written
      rightPressed micSelectedInstance with
  | none => none
  | some sel =>
    some (HeaderRun.steps
      (Chapter07.UserInterface.createSettingsWindow.instancesHeader.afterSelection callbacks
        branch nullInstanceSelected)
      { data := { micAssimpInstances := n, micSelectedInstance := sel }
        numberOfInstances := numberOfInstances
        events := []
        thrown := none })

/-- Lookup by handle depends only on the shapes of the listed buffers. -/
theorem find_shape_congr_list (k : Nat) : ∀ (l l' : List VmaBuffer),
    l'.map VmaBuffer.shape = l.map VmaBuffer.shape →
    (l'.find? (fun b => b.handle == k)).map VmaBuffer.shape
      = (l.find? (fun b => b.handle == k)).map VmaBuffer.shape := by
  intro l
  induction l with
  | nil =>
    intro l' h
    cases l' with
    | nil => rfl
    | cons _ _ => simp at h
  | cons b l ih =>
    intro l' h
    cases l' with
    | nil => simp at h
    | cons b' l' =>
      simp only [List.map_cons, List.cons.injEq] at h
      have hb : b'.handle = b.handle := congrArg Prod.fst h.1
      simp only [List.find?_cons, hb]
      cases hk : b.handle == k with
      | true => simp [h.1]
      | false => exact ih l' h.2

/-- Two allocators with the same layout find buffers of the same shape. -/
theorem find_shape_congr {a a' : VmaAllocator} (h : a'.layout = a.layout) (k : Nat) :
    (a'.find k).map VmaBuffer.shape = (a.find k).map VmaBuffer.shape :=
  find_shape_congr_list k a.buffers a'.buffers h

/-- Capacities depend only on the layout of the allocator. -/
theorem capacity_congr {rd rd' : VkRenderData}
    (h : rd'.rdAllocator.layout = rd.rdAllocator.layout) (k : Nat) :
    rd'.capacity k = rd.capacity k := by
  have e := congrArg (Option.map (fun s : Nat × Nat × Nat => s.2.2)) (find_shape_congr h k)
  simpa [VkRenderData.capacity, Option.map_map, Function.comp_def, VmaBuffer.shape] using e

/-- Allocation handles depend only on the layout of the allocator. -/
theorem allocationOf_congr {rd rd' : VkRenderData}
    (h : rd'.rdAllocator.layout = rd.rdAllocator.layout) (k : Nat) :
    rd'.allocationOf k = rd.allocationOf k := by
  have e := congrArg (Option.map (fun s : Nat × Nat × Nat => s.2.1)) (find_shape_congr h k)
  simpa [VkRenderData.allocationOf, Option.map_map, Function.comp_def, VmaBuffer.shape] using e

/-- Liveness depends only on the layout of the allocator. -/
theorem isLive_congr {rd rd' : VkRenderData}
    (h : rd'.rdAllocator.layout = rd.rdAllocator.layout) (k : Nat) :
    rd'.isLive k = rd.isLive k := by
  have e := congrArg Option.isSome (find_shape_congr h k)
  simpa [VkRenderData.isLive] using e

/-- Rewriting the memory of buffers leaves the layout unchanged. -/
theorem layout_map (a : VmaAllocator) (f : VmaBuffer → VmaBuffer)
    (hf : ∀ b, (f b).shape = b.shape) :
    ({ a with buffers := a.buffers.map f } : VmaAllocator).layout = a.layout := by
  simp [VmaAllocator.layout, List.map_map, Function.comp_def, hf]

/-- Executing a command leaves the layout and the handle counter unchanged. -/
theorem layout_exec (c : Command) (a : VmaAllocator) :
    (c.exec a).layout = a.layout ∧ (c.exec a).created = a.created := by
  cases c with
  | copyBuffer s d r =>
    simp only [Command.exec]
    cases a.find s with
    | none => exact ⟨rfl, rfl⟩
    | some sb =>
      refine ⟨layout_map a _ ?_, rfl⟩
      intro b
      split <;> rfl
  | pipelineBarrier _ _ _ => exact ⟨rfl, rfl⟩

/-- Executing a list of commands leaves the layout and the handle counter
unchanged. -/
theorem layout_foldl_exec (cs : List Command) : ∀ a : VmaAllocator,
    (cs.foldl Command.exec a).layout = a.layout ∧
      (cs.foldl Command.exec a).created = a.created := by
  induction cs with
  | nil => intro a; exact ⟨rfl, rfl⟩
  | cons c cs ih =>
    intro a
    rw [List.foldl_cons]
    exact ⟨(ih _).1.trans (layout_exec c a).1, (ih _).2.trans (layout_exec c a).2⟩

/-- A `memcpy` into mapped memory leaves the layout unchanged. -/
theorem layout_memcpy (rd : VkRenderData) (al : Nat) (src : List Nat) (n : Nat) :
    (memcpy rd al src n).rdAllocator.layout = rd.rdAllocator.layout := by
  unfold memcpy
  apply layout_map
  intro b
  split <;> rfl

/-- A submission, successful or not, leaves the layout and the handle counter
unchanged. -/
theorem layout_submit (ok : Bool) (rd : VkRenderData) (cb : VkCommandBuffer) (q : Nat) :
    (CommandBuffer.submitSingleShotBuffer ok rd cb q).2.rdAllocator.layout
        = rd.rdAllocator.layout ∧
      (CommandBuffer.submitSingleShotBuffer ok rd cb q).2.rdAllocator.created
        = rd.rdAllocator.created := by
  unfold CommandBuffer.submitSingleShotBuffer
  cases ok with
  | false => exact ⟨rfl, rfl⟩
  | true => exact layout_foldl_exec cb.commands _

/-- The transfer part of `uploadData` neither creates nor destroys a buffer.
-/
theorem transfer_layout (drv : Driver) (rd : VkRenderData) (bd : VkIndexBufferData)
    (m : VkMesh) :
    (IndexBuffer.uploadData.transfer drv rd bd m).renderData.rdAllocator.layout
        = rd.rdAllocator.layout ∧
      (IndexBuffer.uploadData.transfer drv rd bd m).renderData.rdAllocator.created
        = rd.rdAllocator.created := by
  unfold IndexBuffer.uploadData.transfer
  simp only []
  split
  · exact ⟨rfl, rfl⟩
  · split <;>
      (simp only [layout_submit]
       exact ⟨layout_memcpy _ _ _ _, rfl⟩)

/-- Lookup by handle commutes with a rewriting of buffers that keeps their
handles. -/
theorem find_map_of_handle (a : VmaAllocator) (f : VmaBuffer → VmaBuffer)
    (hf : ∀ b, (f b).handle = b.handle) (h : Nat) :
    ({ a with buffers := a.buffers.map f } : VmaAllocator).find h = (a.find h).map f := by
  unfold VmaAllocator.find
  simp only [List.find?_map]
  congr 1
  congr 1
  funext b
  simp [hf]

/-- The buffer found under a handle after a `memcpy`. -/
theorem find_memcpy (rd : VkRenderData) (al : Nat) (src : List Nat) (n h : Nat) :
    (memcpy rd al src n).rdAllocator.find h =
      (rd.rdAllocator.find h).map (fun b =>
        if b.allocation = al then
          { b with memory := fun i => if i < n then src.getD i 0 else b.memory i }
        else b) := by
  unfold memcpy
  apply find_map_of_handle
  intro b
  split <;> rfl

/-- The transfer part of `uploadData` leaves the pair record unchanged. -/
theorem transfer_bufferData (drv : Driver) (rd : VkRenderData) (bd : VkIndexBufferData)
    (m : VkMesh) : (IndexBuffer.uploadData.transfer drv rd bd m).bufferData = bd := by
  unfold IndexBuffer.uploadData.transfer
  simp only []
  split
  · rfl
  · split <;> rfl

/-- The transfer part of `uploadData` succeeds exactly when the map and the
submission do. -/
theorem transfer_ok (drv : Driver) (rd : VkRenderData) (bd : VkIndexBufferData)
    (m : VkMesh) :
    (IndexBuffer.uploadData.transfer drv rd bd m).ok = true ↔
      drv.mapMemory = VK_SUCCESS ∧ drv.submit = true := by
  unfold IndexBuffer.uploadData.transfer
  simp only [vmaMapMemory, CommandBuffer.submitSingleShotBuffer]
  by_cases h1 : drv.mapMemory = VK_SUCCESS
  · by_cases h2 : drv.submit = true
    · simp [h1, h2]
    · simp [h1, h2]
  · simp [h1]

/-- The calls made by the transfer part of `uploadData`. -/
theorem transfer_calls (drv : Driver) (rd : VkRenderData) (bd : VkIndexBufferData)
    (m : VkMesh) :
    (IndexBuffer.uploadData.transfer drv rd bd m).renderData.rdCalls =
      rd.rdCalls ++
        (if drv.mapMemory ≠ VK_SUCCESS then
          [Call.vmaMapMemory bd.stagingBufferAlloc drv.mapMemory,
           Call.log 1 "%s error: could not map index buffer memory (error: %i)\n" drv.mapMemory]
         else transferCalls drv bd (vertexDataSize m) rd.rdGraphicsQueue) := by
  unfold IndexBuffer.uploadData.transfer
  by_cases h1 : drv.mapMemory = VK_SUCCESS
  · cases h2 : drv.submit <;>
      simp [h1, h2, vmaMapMemory, CommandBuffer.submitSingleShotBuffer, memcpy, vmaUnmapMemory,
        CommandBuffer.createSingleShotBuffer, VkRenderData.record, vkCmdCopyBuffer,
        vkCmdPipelineBarrier, recordedBarrier, transferCalls]
  · simp [h1, vmaMapMemory, Logger.log, VkRenderData.record]

/-- A buffer found under a handle has that handle. -/
theorem find_eq_some_handle {a : VmaAllocator} {h : Nat} {b : VmaBuffer}
    (hb : a.find h = some b) : b.handle = h := by
  have := List.find?_some hb
  simpa using this

/-- Reading a list back offset by offset gives the list. -/
theorem getD_range_map (l : List Nat) :
    (List.range l.length).map (fun i => l.getD i 0) = l := by
  apply List.ext_getElem
  · simp
  · intro i h1 h2
    simp [List.getD_eq_getElem?_getD, List.getElem?_eq_getElem h2]

/-- Readback of the destination buffer after a successful transfer: the
payload bytes below `vertexDataSize`, the previous staging bytes above it. -/
theorem transfer_readback (drv : Driver) (rd : VkRenderData) (bd : VkIndexBufferData)
    (m : VkMesh) (d s : VmaBuffer)
    (hd : rd.rdAllocator.find bd.buffer = some d)
    (hs : rd.rdAllocator.find bd.stagingBuffer = some s)
    (hsa : s.allocation = bd.stagingBufferAlloc) (hsize : d.size = bd.bufferSize)
    (hmap : drv.mapMemory = VK_SUCCESS) (hsub : drv.submit = true) :
    (IndexBuffer.uploadData.transfer drv rd bd m).renderData.readback bd.buffer =
      some ((List.range bd.bufferSize).map
        (fun i => if i < vertexDataSize m then m.bytes.getD i 0 else s.memory i)) := by
  have hdh := find_eq_some_handle hd
  unfold IndexBuffer.uploadData.transfer
  simp only [vmaMapMemory, hmap, hsub, CommandBuffer.submitSingleShotBuffer,
    CommandBuffer.createSingleShotBuffer, vkCmdCopyBuffer, vkCmdPipelineBarrier,
    vmaUnmapMemory, VkRenderData.record, ne_eq, not_true_eq_false, ↓reduceIte,
    Bool.not_true, Bool.false_eq_true, List.nil_append, List.foldl_cons, List.foldl_nil,
    List.singleton_append, Command.exec, VkRenderData.readback]
  have e1 := find_memcpy (rd.record (Call.vmaMapMemory bd.stagingBufferAlloc VK_SUCCESS))
    bd.stagingBufferAlloc m.bytes (vertexDataSize m) bd.stagingBuffer
  have e2 := find_memcpy (rd.record (Call.vmaMapMemory bd.stagingBufferAlloc VK_SUCCESS))
    bd.stagingBufferAlloc m.bytes (vertexDataSize m) bd.buffer
  simp only [VkRenderData.record, hs, hd, Option.map_some', hsa, ↓reduceIte] at e1 e2
  rw [e1]
  simp only []
  rw [find_map_of_handle _ _ (by intro b; split <;> rfl), e2]
  simp only [Option.map_some', Option.some.injEq]
  have hh : (if d.allocation = bd.stagingBufferAlloc then
        ({ d with memory := fun i =>
            if i < vertexDataSize m then m.bytes.getD i 0 else d.memory i } : VmaBuffer)
      else d).handle = bd.buffer := by
    split <;> exact hdh
  have hz : (if d.allocation = bd.stagingBufferAlloc then
        ({ d with memory := fun i =>
            if i < vertexDataSize m then m.bytes.getD i 0 else d.memory i } : VmaBuffer)
      else d).size = bd.bufferSize := by
    split <;> exact hsize
  simp only [hh, hz, ↓reduceIte]
  apply List.map_congr_left
  intro i hi
  have hi2 : i < bd.bufferSize := List.mem_range.mp hi
  simp [hi2]

/-- Lookup by handle, seen on the layout. -/
theorem find_shape_eq (a : VmaAllocator) (k : Nat) :
    (a.find k).map VmaBuffer.shape = a.layout.find? (fun s => s.1 == k) := by
  unfold VmaAllocator.find VmaAllocator.layout
  rw [List.find?_map]
  rfl

/-- The capacity of a handle, read off the layout. -/
theorem capacity_eq_layout (rd : VkRenderData) (k : Nat) :
    rd.capacity k = (rd.rdAllocator.layout.find? (fun s => s.1 == k)).map (fun s => s.2.2) := by
  rw [← find_shape_eq]
  simp [VkRenderData.capacity, Option.map_map, Function.comp_def, VmaBuffer.shape]

/-- The allocation of a handle, read off the layout. -/
theorem allocationOf_eq_layout (rd : VkRenderData) (k : Nat) :
    rd.allocationOf k =
      (rd.rdAllocator.layout.find? (fun s => s.1 == k)).map (fun s => s.2.1) := by
  rw [← find_shape_eq]
  simp [VkRenderData.allocationOf, Option.map_map, Function.comp_def, VmaBuffer.shape]

/-- Liveness of a handle, read off the layout. -/
theorem isLive_eq_layout (rd : VkRenderData) (k : Nat) :
    rd.isLive k = (rd.rdAllocator.layout.find? (fun s => s.1 == k)).isSome := by
  rw [← find_shape_eq]
  simp [VkRenderData.isLive]

/-- Function `init` returns true exactly when both allocations succeed. -/
theorem init_ok_iff (drv : Driver) (rd : VkRenderData) (bd : VkIndexBufferData) (S : Nat) :
    (IndexBuffer.init drv rd bd S).ok = true ↔
      drv.createBuffer = VK_SUCCESS ∧ drv.createStagingBuffer = VK_SUCCESS := by
  unfold IndexBuffer.init vmaCreateBuffer
  by_cases h1 : drv.createBuffer = VK_SUCCESS
  · by_cases h2 : drv.createStagingBuffer = VK_SUCCESS
    · simp [h1, h2]
    · simp [h1, h2]
  · simp [h1]

/-- The state that a successful `init` leaves behind. -/
theorem init_success (drv : Driver) (rd : VkRenderData) (bd : VkIndexBufferData) (S : Nat)
    (h1 : drv.createBuffer = VK_SUCCESS) (h2 : drv.createStagingBuffer = VK_SUCCESS) :
    (IndexBuffer.init drv rd bd S).bufferData =
        { bufferSize := S, buffer := rd.rdAllocator.created + 1,
          bufferAlloc := rd.rdAllocator.created + 1,
          stagingBuffer := rd.rdAllocator.created + 2,
          stagingBufferAlloc := rd.rdAllocator.created + 2 } ∧
      (IndexBuffer.init drv rd bd S).renderData.rdAllocator.buffers =
        { handle := rd.rdAllocator.created + 2, allocation := rd.rdAllocator.created + 2,
          size := S, usage := VK_BUFFER_USAGE_TRANSFER_SRC_BIT,
          memoryUsage := VMA_MEMORY_USAGE_CPU_ONLY, memory := fun _ => 0 } ::
        { handle := rd.rdAllocator.created + 1, allocation := rd.rdAllocator.created + 1,
          size := S,
          usage := VK_BUFFER_USAGE_INDEX_BUFFER_BIT ||| VK_BUFFER_USAGE_TRANSFER_DST_BIT,
          memoryUsage := VMA_MEMORY_USAGE_GPU_ONLY, memory := fun _ => 0 } ::
        rd.rdAllocator.buffers ∧
      (IndexBuffer.init drv rd bd S).renderData.rdAllocator.created
        = rd.rdAllocator.created + 2 ∧
      (IndexBuffer.init drv rd bd S).renderData.rdCalls
        = rd.rdCalls ++ initCalls rd.rdAllocator.created S ∧
      (IndexBuffer.init drv rd bd S).renderData.rdGraphicsQueue = rd.rdGraphicsQueue := by
  unfold IndexBuffer.init vmaCreateBuffer
  simp [h1, h2, initCalls]

/-- The state that `cleanup` leaves behind: both buffers of the pair are gone,
two destroy calls are recorded. -/
theorem cleanup_layout (rd : VkRenderData) (bd : VkIndexBufferData) :
    (IndexBuffer.cleanup rd bd).rdAllocator.layout =
        rd.rdAllocator.layout.filter
          (fun s => !(s.1 == bd.stagingBuffer) && !(s.1 == bd.buffer)) ∧
      (IndexBuffer.cleanup rd bd).rdAllocator.created = rd.rdAllocator.created ∧
      (IndexBuffer.cleanup rd bd).rdCalls =
        rd.rdCalls ++ [Call.vmaDestroyBuffer bd.stagingBuffer bd.stagingBufferAlloc,
          Call.vmaDestroyBuffer bd.buffer bd.bufferAlloc] ∧
      (IndexBuffer.cleanup rd bd).rdGraphicsQueue = rd.rdGraphicsQueue := by
  unfold IndexBuffer.cleanup vmaDestroyBuffer VmaAllocator.layout
  refine ⟨?_, rfl, ?_, rfl⟩
  · simp only [List.filter_filter, List.filter_map]
    congr 1
    apply List.filter_congr
    intro b _
    simp [VmaBuffer.shape, Bool.and_comm]
  · simp

/-- Without a resize `uploadData` is its transfer part. -/
theorem uploadData_of_fits (drv : Driver) (rd : VkRenderData) (bd : VkIndexBufferData)
    (m : VkMesh) (h : ¬ bd.bufferSize < vertexDataSize m) :
    IndexBuffer.uploadData drv rd bd m = IndexBuffer.uploadData.transfer drv rd bd m := by
  unfold IndexBuffer.uploadData
  simp [h]

/-- With a successful resize `uploadData` is its transfer part on the new
pair. -/
theorem uploadData_of_resize (drv : Driver) (rd : VkRenderData) (bd : VkIndexBufferData)
    (m : VkMesh) (h : bd.bufferSize < vertexDataSize m)
    (h1 : drv.createBuffer = VK_SUCCESS) (h2 : drv.createStagingBuffer = VK_SUCCESS) :
    IndexBuffer.uploadData drv rd bd m =
      IndexBuffer.uploadData.transfer drv
        (Logger.log
          (IndexBuffer.init drv (IndexBuffer.cleanup rd bd) bd (vertexDataSize m)).renderData 1
          "%s: index buffer resize to %i bytes\n" (vertexDataSize m))
        (resizedPair rd.rdAllocator.created (vertexDataSize m)) m := by
  have hok := (init_ok_iff drv (IndexBuffer.cleanup rd bd) bd (vertexDataSize m)).mpr ⟨h1, h2⟩
  have hbd := (init_success drv (IndexBuffer.cleanup rd bd) bd (vertexDataSize m) h1 h2).1
  unfold IndexBuffer.uploadData
  simp only [h, ↓reduceIte, hok, Bool.not_true, Bool.false_eq_true, hbd, resizedPair]
  rfl

/-- With a failed resize `uploadData` returns false with what `init` left
behind. -/
theorem uploadData_of_resize_failed (drv : Driver) (rd : VkRenderData)
    (bd : VkIndexBufferData) (m : VkMesh) (h : bd.bufferSize < vertexDataSize m)
    (hf : ¬ (drv.createBuffer = VK_SUCCESS ∧ drv.createStagingBuffer = VK_SUCCESS)) :
    IndexBuffer.uploadData drv rd bd m =
      { ok := false
        renderData := Logger.log
          (IndexBuffer.init drv (IndexBuffer.cleanup rd bd) bd (vertexDataSize m)).renderData 1
          "%s error: could not create index buffer of size %i bytes\n" (vertexDataSize m)
        bufferData :=
          (IndexBuffer.init drv (IndexBuffer.cleanup rd bd) bd (vertexDataSize m)).bufferData } := by
  have hok : (IndexBuffer.init drv (IndexBuffer.cleanup rd bd) bd (vertexDataSize m)).ok = false := by
    cases hc : (IndexBuffer.init drv (IndexBuffer.cleanup rd bd) bd (vertexDataSize m)).ok with
    | false => rfl
    | true => exact absurd ((init_ok_iff _ _ _ _).mp hc) hf
  unfold IndexBuffer.uploadData
  simp only [h, ↓reduceIte, hok, Bool.not_false]

/-- Function `uploadData` returns true exactly when the allocations of a
needed resize, the map and the submission all succeed. -/
theorem uploadData_ok_iff (drv : Driver) (rd : VkRenderData) (bd : VkIndexBufferData)
    (m : VkMesh) :
    (IndexBuffer.uploadData drv rd bd m).ok = true ↔
      (bd.bufferSize < vertexDataSize m →
        drv.createBuffer = VK_SUCCESS ∧ drv.createStagingBuffer = VK_SUCCESS) ∧
      drv.mapMemory = VK_SUCCESS ∧ drv.submit = true := by
  by_cases h : bd.bufferSize < vertexDataSize m
  · by_cases hc : drv.createBuffer = VK_SUCCESS ∧ drv.createStagingBuffer = VK_SUCCESS
    · rw [uploadData_of_resize drv rd bd m h hc.1 hc.2, transfer_ok]
      simp [hc]
    · rw [uploadData_of_resize_failed drv rd bd m h hc]
      simp [h, hc]
  · rw [uploadData_of_fits drv rd bd m h, transfer_ok]
    simp [h]

/-- The layout after `cleanup` and a successful `init`. -/
theorem resized_layout (drv : Driver) (rd : VkRenderData) (bd : VkIndexBufferData) (n : Nat)
    (h1 : drv.createBuffer = VK_SUCCESS) (h2 : drv.createStagingBuffer = VK_SUCCESS) :
    (IndexBuffer.init drv (IndexBuffer.cleanup rd bd) bd n).renderData.rdAllocator.layout =
      (rd.rdAllocator.created + 2, rd.rdAllocator.created + 2, n) ::
      (rd.rdAllocator.created + 1, rd.rdAllocator.created + 1, n) ::
      rd.rdAllocator.layout.filter
        (fun s => !(s.1 == bd.stagingBuffer) && !(s.1 == bd.buffer)) := by
  have hi := init_success drv (IndexBuffer.cleanup rd bd) bd n h1 h2
  have hc := cleanup_layout rd bd
  unfold VmaAllocator.layout at hc ⊢
  rw [hi.2.1, hc.2.1]
  simp only [List.map_cons, VmaBuffer.shape]
  rw [hc.1]

/-- A freshly created pair satisfies the size invariant. -/
theorem sizeInvariant_resizedPair (rd : VkRenderData) (c n : Nat)
    (tail : List (Nat × Nat × Nat))
    (h : rd.rdAllocator.layout = (c + 2, c + 2, n) :: (c + 1, c + 1, n) :: tail) :
    SizeInvariant rd (resizedPair c n) := by
  unfold SizeInvariant
  rw [capacity_eq_layout, capacity_eq_layout, h]
  simp [resizedPair, List.find?_cons]

/-- One `uploadData` call without allocation failure preserves the size
invariant. -/
theorem sizeInvariant_uploadData (drv : Driver) (rd : VkRenderData) (bd : VkIndexBufferData)
    (m : VkMesh) (hinv : SizeInvariant rd bd)
    (halloc : bd.bufferSize < vertexDataSize m →
      drv.createBuffer = VK_SUCCESS ∧ drv.createStagingBuffer = VK_SUCCESS) :
    SizeInvariant (IndexBuffer.uploadData drv rd bd m).renderData
      (IndexBuffer.uploadData drv rd bd m).bufferData := by
  by_cases h : bd.bufferSize < vertexDataSize m
  · obtain ⟨h1, h2⟩ := halloc h
    rw [uploadData_of_resize drv rd bd m h h1 h2, transfer_bufferData]
    have hl := resized_layout drv rd bd (vertexDataSize m) h1 h2
    have hs := sizeInvariant_resizedPair
      (IndexBuffer.init drv (IndexBuffer.cleanup rd bd) bd (vertexDataSize m)).renderData
      _ _ _ hl
    unfold SizeInvariant at hs ⊢
    rw [capacity_congr (transfer_layout _ _ _ _).1, capacity_congr (transfer_layout _ _ _ _).1]
    exact hs
  · rw [uploadData_of_fits drv rd bd m h, transfer_bufferData]
    unfold SizeInvariant at hinv ⊢
    rw [capacity_congr (transfer_layout _ _ _ _).1, capacity_congr (transfer_layout _ _ _ _).1]
    exact hinv

/-- The payload has four bytes per index. -/
theorem bytes_length (m : VkMesh) : m.bytes.length = m.indices.length * 4 := by
  unfold VkMesh.bytes
  induction m.indices with
  | nil => rfl
  | cons v vs ih =>
    rw [List.flatMap_cons, List.length_append, ih]
    simp [indexBytes]
    omega

/-- The 32-bit byte count never exceeds the byte length of the payload. -/
theorem vertexDataSize_le (m : VkMesh) : vertexDataSize m ≤ m.bytes.length := by
  rw [bytes_length]
  exact Nat.mod_le _ _

/-- Below `2 ^ 32` the 32-bit byte count is the byte length of the payload. -/
theorem vertexDataSize_eq (m : VkMesh) (h : m.bytes.length < 2 ^ 32) :
    vertexDataSize m = m.bytes.length := by
  rw [bytes_length] at h ⊢
  exact Nat.mod_eq_of_lt h

/-! ## Claims about `IndexBuffer` -/

/-- C1, as stated, fails: after a resize whose staging allocation fails,
`uploadData` returns false with `bufferSize` still 8 while the destination
handle names a live buffer of 12 bytes and the staging handle names no live
buffer. -/
theorem sizeInvariant_broken_by_failed_resize :
    smallPair.ok = true ∧
    (IndexBuffer.uploadData Driver.stagingAllocationFails smallPair.renderData
      smallPair.bufferData threeIndices).ok = false ∧
    (IndexBuffer.uploadData Driver.stagingAllocationFails smallPair.renderData
      smallPair.bufferData threeIndices).bufferData.bufferSize = 8 ∧
    (IndexBuffer.uploadData Driver.stagingAllocationFails smallPair.renderData
      smallPair.bufferData threeIndices).renderData.capacity
      (IndexBuffer.uploadData Driver.stagingAllocationFails smallPair.renderData
        smallPair.bufferData threeIndices).bufferData.buffer = some 12 ∧
    (IndexBuffer.uploadData Driver.stagingAllocationFails smallPair.renderData
      smallPair.bufferData threeIndices).renderData.capacity
      (IndexBuffer.uploadData Driver.stagingAllocationFails smallPair.renderData
        smallPair.bufferData threeIndices).bufferData.stagingBuffer = none ∧
    ¬ SizeInvariant
      (IndexBuffer.uploadData Driver.stagingAllocationFails smallPair.renderData
        smallPair.bufferData threeIndices).renderData
      (IndexBuffer.uploadData Driver.stagingAllocationFails smallPair.renderData
        smallPair.bufferData threeIndices).bufferData := by
  decide

/-- C1, amended: in every pair state reachable from a successful `init` by a
sequence of `uploadData` calls in which no allocation of a resize fails (the
calls may still fail at the map or at the submission and return false),
`bufferSize` equals the capacity of the live destination buffer and of the
live staging buffer. -/
theorem sizeInvariant_of_runUploads (drv0 : Driver) (rd0 : VkRenderData)
    (bd0 : VkIndexBufferData) (S : Nat) (calls : List (Driver × VkMesh))
    (hinit : (IndexBuffer.init drv0 rd0 bd0 S).ok = true)
    (halloc : allocationsSucceed calls (IndexBuffer.init drv0 rd0 bd0 S).renderData
      (IndexBuffer.init drv0 rd0 bd0 S).bufferData = true) :
    SizeInvariant
      (runUploads calls (IndexBuffer.init drv0 rd0 bd0 S).renderData
        (IndexBuffer.init drv0 rd0 bd0 S).bufferData).1
      (runUploads calls (IndexBuffer.init drv0 rd0 bd0 S).renderData
        (IndexBuffer.init drv0 rd0 bd0 S).bufferData).2 := by
  have hstart : SizeInvariant (IndexBuffer.init drv0 rd0 bd0 S).renderData
      (IndexBuffer.init drv0 rd0 bd0 S).bufferData := by
    obtain ⟨h1, h2⟩ := (init_ok_iff drv0 rd0 bd0 S).mp hinit
    have hi := init_success drv0 rd0 bd0 S h1 h2
    rw [hi.1]
    apply sizeInvariant_resizedPair _ _ _ rd0.rdAllocator.layout
    unfold VmaAllocator.layout
    rw [hi.2.1]
    rfl
  have step : ∀ (cs : List (Driver × VkMesh)) (rd : VkRenderData) (bd : VkIndexBufferData),
      SizeInvariant rd bd → allocationsSucceed cs rd bd = true →
      SizeInvariant (runUploads cs rd bd).1 (runUploads cs rd bd).2 := by
    intro cs
    induction cs with
    | nil => intro rd bd h _; exact h
    | cons c cs ih =>
      intro rd bd h ha
      obtain ⟨drv, m⟩ := c
      simp only [allocationsSucceed, Bool.and_eq_true, Bool.or_eq_true, Bool.not_eq_true',
        decide_eq_false_iff_not, decide_eq_true_eq] at ha
      simp only [runUploads]
      apply ih _ _ _ ha.2
      apply sizeInvariant_uploadData drv rd bd m h
      intro hlt
      cases ha.1 with
      | inl hn => exact absurd hlt hn
      | inr hs => exact hs
  exact step calls _ _ hstart halloc

/-- Witness for C1, amended: a pair of capacity 8, then an upload of three
indices whose submission fails (after a successful resize to 12 bytes), then
an upload whose map fails. -/
theorem sizeInvariant_of_runUploads_witness :
    smallPair.ok = true ∧
    allocationsSucceed
      [(Driver.submitFails, threeIndices), (Driver.mapFails, { indices := [5] })]
      smallPair.renderData smallPair.bufferData = true ∧
    SizeInvariant
      (runUploads
        [(Driver.submitFails, threeIndices), (Driver.mapFails, { indices := [5] })]
        smallPair.renderData smallPair.bufferData).1
      (runUploads
        [(Driver.submitFails, threeIndices), (Driver.mapFails, { indices := [5] })]
        smallPair.renderData smallPair.bufferData).2 :=
  ⟨by decide, by decide,
    sizeInvariant_of_runUploads Driver.allOk VkRenderData.fresh VkIndexBufferData.empty 8
      [(Driver.submitFails, threeIndices), (Driver.mapFails, { indices := [5] })]
      (by decide) (by decide)⟩

/-- C2, as stated, fails: one index (4 bytes) uploaded into a pair of capacity
8 succeeds, and the full readback of the destination buffer is 8 bytes long,
so it is not the 4 bytes of the payload. -/
theorem readback_longer_than_payload :
    (IndexBuffer.uploadData Driver.allOk smallPair.renderData smallPair.bufferData
      { indices := [7] }).ok = true ∧
    (IndexBuffer.uploadData Driver.allOk smallPair.renderData smallPair.bufferData
      { indices := [7] }).renderData.readback
      (IndexBuffer.uploadData Driver.allOk smallPair.renderData smallPair.bufferData
        { indices := [7] }).bufferData.buffer = some [7, 0, 0, 0, 0, 0, 0, 0] ∧
    VkMesh.bytes { indices := [7] } = [7, 0, 0, 0] ∧
    (IndexBuffer.uploadData Driver.allOk smallPair.renderData smallPair.bufferData
      { indices := [7] }).renderData.readback
      (IndexBuffer.uploadData Driver.allOk smallPair.renderData smallPair.bufferData
        { indices := [7] }).bufferData.buffer ≠ some (VkMesh.bytes { indices := [7] }) := by
  decide

/-- A handle with a capacity names a live buffer of that size. -/
theorem find_of_capacity {rd : VkRenderData} {h C : Nat} (hc : rd.capacity h = some C) :
    ∃ b, rd.rdAllocator.find h = some b ∧ b.size = C := by
  unfold VkRenderData.capacity at hc
  cases hf : rd.rdAllocator.find h with
  | none => rw [hf] at hc; cases hc
  | some b =>
    rw [hf] at hc
    exact ⟨b, rfl, Option.some.inj hc⟩

/-- The allocation of a found buffer is the one recorded for its handle. -/
theorem allocation_of_find {rd : VkRenderData} {h al : Nat} {b : VmaBuffer}
    (hf : rd.rdAllocator.find h = some b) (ha : rd.allocationOf h = some al) :
    b.allocation = al := by
  unfold VkRenderData.allocationOf at ha
  rw [hf] at ha
  exact Option.some.inj ha

/-- The first bytes of a buffer that starts with the list `l` are `l`. -/
theorem staged_prefix (l : List Nat) (f : Nat → Nat) (C : Nat) (h : l.length ≤ C) :
    ((List.range C).map (fun i => if i < l.length then l.getD i 0 else f i)).take l.length
      = l := by
  rw [← List.map_take, List.take_range, Nat.min_eq_left h]
  conv_rhs => rw [← getD_range_map l]
  apply List.map_congr_left
  intro i hi
  simp [List.mem_range.mp hi]

theorem readback_starts_with_payload (drv : Driver) (rd : VkRenderData)
    (bd : VkIndexBufferData) (m : VkMesh) (hinit : Initialised rd bd)
    (hlen : m.bytes.length < 2 ^ 32)
    (hok : (IndexBuffer.uploadData drv rd bd m).ok = true) :
    ∃ r, (IndexBuffer.uploadData drv rd bd m).renderData.readback
          (IndexBuffer.uploadData drv rd bd m).bufferData.buffer = some r ∧
      r.length = (IndexBuffer.uploadData drv rd bd m).bufferData.bufferSize ∧
      r.take m.bytes.length = m.bytes ∧
      (bd.bufferSize ≤ m.bytes.length → r = m.bytes) := by
  obtain ⟨halloc, hmap, hsub⟩ := (uploadData_ok_iff drv rd bd m).mp hok
  have hn := vertexDataSize_eq m hlen
  have fin : ∀ (C : Nat) (f : Nat → Nat), m.bytes.length ≤ C →
      ((List.range C).map
          (fun i => if i < vertexDataSize m then m.bytes.getD i 0 else f i)).length = C ∧
        ((List.range C).map
          (fun i => if i < vertexDataSize m then m.bytes.getD i 0 else f i)).take
            m.bytes.length = m.bytes ∧
        (C ≤ m.bytes.length → (List.range C).map
          (fun i => if i < vertexDataSize m then m.bytes.getD i 0 else f i) = m.bytes) := by
    intro C f hC
    rw [hn]
    have hp := staged_prefix m.bytes f C hC
    refine ⟨by simp, hp, ?_⟩
    intro hle
    have hl : ((List.range C).map
        (fun i => if i < m.bytes.length then m.bytes.getD i 0 else f i)).length
          ≤ m.bytes.length := by
      simpa using hle
    exact (List.take_of_length_le hl).symm.trans hp
  by_cases h : bd.bufferSize < vertexDataSize m
  · obtain ⟨h1, h2⟩ := halloc h
    rw [uploadData_of_resize drv rd bd m h h1 h2, transfer_bufferData]
    have hb := (init_success drv (IndexBuffer.cleanup rd bd) bd (vertexDataSize m) h1 h2).2.1
    have hr := transfer_readback drv
      (Logger.log
        (IndexBuffer.init drv (IndexBuffer.cleanup rd bd) bd (vertexDataSize m)).renderData 1
        "%s: index buffer resize to %i bytes\n" (vertexDataSize m))
      (resizedPair rd.rdAllocator.created (vertexDataSize m)) m
      { handle := (IndexBuffer.cleanup rd bd).rdAllocator.created + 1,
        allocation := (IndexBuffer.cleanup rd bd).rdAllocator.created + 1,
        size := vertexDataSize m,
        usage := VK_BUFFER_USAGE_INDEX_BUFFER_BIT ||| VK_BUFFER_USAGE_TRANSFER_DST_BIT,
        memoryUsage := VMA_MEMORY_USAGE_GPU_ONLY, memory := fun _ => 0 }
      { handle := (IndexBuffer.cleanup rd bd).rdAllocator.created + 2,
        allocation := (IndexBuffer.cleanup rd bd).rdAllocator.created + 2,
        size := vertexDataSize m, usage := VK_BUFFER_USAGE_TRANSFER_SRC_BIT,
        memoryUsage := VMA_MEMORY_USAGE_CPU_ONLY, memory := fun _ => 0 }
      (by
        simp only [Logger.log, VkRenderData.record, VmaAllocator.find, hb, resizedPair,
          (cleanup_layout rd bd).2.1]
        simp [List.find?_cons])
      (by
        simp only [Logger.log, VkRenderData.record, VmaAllocator.find, hb, resizedPair,
          (cleanup_layout rd bd).2.1]
        simp [List.find?_cons])
      (by simp [resizedPair, (cleanup_layout rd bd).2.1]) rfl hmap hsub
    refine ⟨_, hr, ?_⟩
    have hC : m.bytes.length ≤ (resizedPair rd.rdAllocator.created (vertexDataSize m)).bufferSize := by
      simp [resizedPair, hn]
    obtain ⟨f1, f2, f3⟩ := fin _ (fun _ => 0) hC
    exact ⟨f1, f2, fun _ => f3 (by simp [resizedPair, hn])⟩
  · rw [uploadData_of_fits drv rd bd m h, transfer_bufferData]
    obtain ⟨_, ⟨hcd, hcs⟩, _, has, _⟩ := hinit
    obtain ⟨d, hd, hds⟩ := find_of_capacity hcd
    obtain ⟨s, hs, _⟩ := find_of_capacity hcs
    have hr := transfer_readback drv rd bd m d s hd hs (allocation_of_find hs has) hds hmap hsub
    refine ⟨_, hr, ?_⟩
    have hC : m.bytes.length ≤ bd.bufferSize := by
      rw [← hn]; exact Nat.le_of_not_lt h
    exact fin _ _ hC

/-- Witness for C2, amended: 12 indices uploaded into the default pair. -/
theorem readback_starts_with_payload_witness :
    Initialised defaultPair.renderData defaultPair.bufferData ∧
    twelveIndices.bytes.length < 2 ^ 32 ∧
    (IndexBuffer.uploadData Driver.allOk defaultPair.renderData defaultPair.bufferData
      twelveIndices).ok = true ∧
    ∃ r, (IndexBuffer.uploadData Driver.allOk defaultPair.renderData defaultPair.bufferData
          twelveIndices).renderData.readback
          (IndexBuffer.uploadData Driver.allOk defaultPair.renderData defaultPair.bufferData
            twelveIndices).bufferData.buffer = some r ∧
      r.length = (IndexBuffer.uploadData Driver.allOk defaultPair.renderData
        defaultPair.bufferData twelveIndices).bufferData.bufferSize ∧
      r.take twelveIndices.bytes.length = twelveIndices.bytes ∧
      (defaultPair.bufferData.bufferSize ≤ twelveIndices.bytes.length →
        r = twelveIndices.bytes) :=
  ⟨by decide, by decide, by decide,
    readback_starts_with_payload Driver.allOk defaultPair.renderData defaultPair.bufferData
      twelveIndices (by decide) (by decide) (by decide)⟩

/-- The 32-bit byte count of a mesh of `n` equal indices. -/
theorem vertexDataSize_replicate (n v : Nat) :
    vertexDataSize { indices := List.replicate n v } = n * 4 % 2 ^ 32 := by
  simp [vertexDataSize]

/-- The byte length of a mesh of `n` equal indices. -/
theorem bytes_length_replicate (n v : Nat) :
    (VkMesh.bytes { indices := List.replicate n v }).length = n * 4 := by
  rw [bytes_length]
  simp

/-- The 32-bit byte count of `2 ^ 30` indices is zero. -/
theorem vertexDataSize_hugeMesh : vertexDataSize hugeMesh = 0 := by
  rw [hugeMesh, vertexDataSize_replicate]
  norm_num

/-- C3, as stated, fails: a payload of `2 ^ 30` indices has `2 ^ 32` bytes, more
than the capacity 1024 of the default pair, and its upload succeeds without
any resize: the pair and its `bufferSize` of 1024 are unchanged. -/
theorem huge_payload_is_not_resized :
    defaultPair.bufferData.bufferSize = 1024 ∧
    hugeMesh.bytes.length = 2 ^ 32 ∧
    (IndexBuffer.uploadData Driver.allOk defaultPair.renderData defaultPair.bufferData
      hugeMesh).ok = true ∧
    (IndexBuffer.uploadData Driver.allOk defaultPair.renderData defaultPair.bufferData
      hugeMesh).bufferData = defaultPair.bufferData ∧
    (IndexBuffer.uploadData Driver.allOk defaultPair.renderData defaultPair.bufferData
      hugeMesh).bufferData.bufferSize ≠ hugeMesh.bytes.length := by
  have hfit : ¬ defaultPair.bufferData.bufferSize < vertexDataSize hugeMesh := by
    rw [vertexDataSize_hugeMesh]; exact Nat.not_lt_zero _
  have hlen : hugeMesh.bytes.length = 2 ^ 32 := by
    rw [hugeMesh, bytes_length_replicate]
    norm_num
  have hsize : defaultPair.bufferData.bufferSize = 1024 := by decide
  refine ⟨hsize, hlen, ?_, ?_, ?_⟩
  · exact (uploadData_ok_iff _ _ _ _).mpr ⟨fun h => absurd h hfit, rfl, rfl⟩
  · rw [uploadData_of_fits _ _ _ _ hfit, transfer_bufferData]
  · rw [uploadData_of_fits _ _ _ _ hfit, transfer_bufferData, hsize, hlen]
    decide

/-- A handle that no live buffer carries is not live. -/
theorem isLive_false_of_not_mem (rd : VkRenderData) (k : Nat)
    (h : ∀ s ∈ rd.rdAllocator.layout, s.1 ≠ k) : rd.isLive k = false := by
  rw [isLive_eq_layout]
  cases hf : rd.rdAllocator.layout.find? (fun s => s.1 == k) with
  | none => rfl
  | some s =>
    have h1 := List.find?_some hf
    have h2 := h s (List.mem_of_find?_eq_some hf)
    simp at h1
    exact absurd h1 h2

/-- In a well-formed allocator a live handle is not null and was drawn from
the counter. -/
theorem handle_of_live {rd : VkRenderData} {k C : Nat} (hwf : rd.rdAllocator.WellFormed)
    (hc : rd.capacity k = some C) : k ≠ VK_NULL_HANDLE ∧ k ≤ rd.rdAllocator.created := by
  rw [capacity_eq_layout] at hc
  cases hf : rd.rdAllocator.layout.find? (fun s => s.1 == k) with
  | none => rw [hf] at hc; cases hc
  | some s =>
    have h1 := List.find?_some hf
    have h2 := hwf s (List.mem_of_find?_eq_some hf)
    simp only [beq_iff_eq] at h1
    rw [← h1]
    exact h2

/-- Among the calls of a resizing upload, the destroy calls are those of the
one `cleanup` and the create calls those of the one `init`. -/
theorem resizeCalls_destroys (drv : Driver) (bd : VkIndexBufferData) (created count q : Nat) :
    (resizeCalls drv bd created count q).filter Call.isDestroy = cleanupCalls bd ∧
      (resizeCalls drv bd created count q).filter Call.isCreate = initCalls created count := by
  simp [resizeCalls, cleanupCalls, initCalls, transferCalls, Call.isDestroy, Call.isCreate,
    List.filter_cons]

/-- C3, amended: for every initialised pair of capacity `C` and every payload
whose byte length `L` is greater than `C` and below `2 ^ 32`, a successful
`uploadData` makes the calls of exactly one `cleanup` of the old pair followed
by exactly one `init` (then the log line and the transfer); the destroy calls
among them are the two of that `cleanup`, on two different buffers, neither of
which is live afterwards; and afterwards `bufferSize` and the capacities of
both buffers equal `L`. -/
theorem resize_is_one_destroy_recreate_cycle (drv : Driver) (rd : VkRenderData)
    (bd : VkIndexBufferData) (m : VkMesh) (hinit : Initialised rd bd)
    (hgt : bd.bufferSize < m.bytes.length) (hlen : m.bytes.length < 2 ^ 32)
    (hok : (IndexBuffer.uploadData drv rd bd m).ok = true) :
    (IndexBuffer.uploadData drv rd bd m).renderData.rdCalls =
        rd.rdCalls ++
          resizeCalls drv bd rd.rdAllocator.created m.bytes.length rd.rdGraphicsQueue ∧
      (resizeCalls drv bd rd.rdAllocator.created m.bytes.length rd.rdGraphicsQueue).filter
        Call.isDestroy = cleanupCalls bd ∧
      (resizeCalls drv bd rd.rdAllocator.created m.bytes.length rd.rdGraphicsQueue).filter
        Call.isCreate = initCalls rd.rdAllocator.created m.bytes.length ∧
      bd.buffer ≠ bd.stagingBuffer ∧
      (IndexBuffer.uploadData drv rd bd m).renderData.isLive bd.buffer = false ∧
      (IndexBuffer.uploadData drv rd bd m).renderData.isLive bd.stagingBuffer = false ∧
      (IndexBuffer.uploadData drv rd bd m).bufferData.bufferSize = m.bytes.length ∧
      (IndexBuffer.uploadData drv rd bd m).renderData.capacity
        (IndexBuffer.uploadData drv rd bd m).bufferData.buffer = some m.bytes.length ∧
      (IndexBuffer.uploadData drv rd bd m).renderData.capacity
        (IndexBuffer.uploadData drv rd bd m).bufferData.stagingBuffer = some m.bytes.length := by
  obtain ⟨halloc, hmap, hsub⟩ := (uploadData_ok_iff drv rd bd m).mp hok
  have hn := vertexDataSize_eq m hlen
  have h : bd.bufferSize < vertexDataSize m := by rw [hn]; exact hgt
  obtain ⟨h1, h2⟩ := halloc h
  obtain ⟨hwf, ⟨hcd, hcs⟩, _, _, hne⟩ := hinit
  have hl := resized_layout drv rd bd (vertexDataSize m) h1 h2
  have hs := sizeInvariant_resizedPair
    (IndexBuffer.init drv (IndexBuffer.cleanup rd bd) bd (vertexDataSize m)).renderData _ _ _ hl
  have hi := init_success drv (IndexBuffer.cleanup rd bd) bd (vertexDataSize m) h1 h2
  have hc := cleanup_layout rd bd
  rw [uploadData_of_resize drv rd bd m h h1 h2, transfer_bufferData]
  rw [hn] at hl hs hi ⊢
  have hdead : ∀ k C, rd.capacity k = some C → (k = bd.buffer ∨ k = bd.stagingBuffer) →
      (IndexBuffer.init drv (IndexBuffer.cleanup rd bd) bd m.bytes.length).renderData.isLive k
        = false := by
    intro k C hk hor
    have hle := (handle_of_live hwf hk).2
    apply isLive_false_of_not_mem
    rw [hl]
    intro s hs
    simp only [List.mem_cons, List.mem_filter, Bool.and_eq_true, Bool.not_eq_true',
      beq_eq_false_iff_ne] at hs
    rcases hs with hs | hs | hs
    · rw [hs]; simp only []; omega
    · rw [hs]; simp only []; omega
    · rcases hor with hor | hor
      · rw [hor]; exact hs.2.2
      · rw [hor]; exact hs.2.1
  have hlive : ∀ k,
      (IndexBuffer.uploadData.transfer drv
        (Logger.log
          (IndexBuffer.init drv (IndexBuffer.cleanup rd bd) bd m.bytes.length).renderData 1
          "%s: index buffer resize to %i bytes\n" m.bytes.length)
        (resizedPair rd.rdAllocator.created m.bytes.length) m).renderData.isLive k =
      (IndexBuffer.init drv (IndexBuffer.cleanup rd bd) bd m.bytes.length).renderData.isLive k :=
    fun k => isLive_congr (transfer_layout _ _ _ _).1 k
  have hcap : ∀ k,
      (IndexBuffer.uploadData.transfer drv
        (Logger.log
          (IndexBuffer.init drv (IndexBuffer.cleanup rd bd) bd m.bytes.length).renderData 1
          "%s: index buffer resize to %i bytes\n" m.bytes.length)
        (resizedPair rd.rdAllocator.created m.bytes.length) m).renderData.capacity k =
      (IndexBuffer.init drv (IndexBuffer.cleanup rd bd) bd m.bytes.length).renderData.capacity k :=
    fun k => capacity_congr (transfer_layout _ _ _ _).1 k
  refine ⟨?_, (resizeCalls_destroys _ _ _ _ _).1, (resizeCalls_destroys _ _ _ _ _).2, hne,
    ?_, ?_, rfl, ?_, ?_⟩
  · rw [transfer_calls]
    simp only [hmap, ne_eq, not_true_eq_false, ↓reduceIte, Logger.log, VkRenderData.record,
      hi.2.2.2.1, hc.2.2.1, hc.2.1, hi.2.2.2.2, hc.2.2.2, cleanupCalls, hn, List.append_assoc,
      resizeCalls]
  · rw [hlive]; exact hdead _ _ hcd (Or.inl rfl)
  · rw [hlive]; exact hdead _ _ hcs (Or.inr rfl)
  · rw [hcap]; exact hs.1
  · rw [hcap]; exact hs.2

/-- Witness for C3, amended: capacity 1024, payload of 2000 bytes. -/
theorem resize_is_one_destroy_recreate_cycle_witness :
    Initialised defaultPair.renderData defaultPair.bufferData ∧
    defaultPair.bufferData.bufferSize < fiveHundredIndices.bytes.length ∧
    fiveHundredIndices.bytes.length < 2 ^ 32 ∧
    (IndexBuffer.uploadData Driver.allOk defaultPair.renderData defaultPair.bufferData
      fiveHundredIndices).ok = true ∧
    (IndexBuffer.uploadData Driver.allOk defaultPair.renderData defaultPair.bufferData
      fiveHundredIndices).bufferData.bufferSize = fiveHundredIndices.bytes.length ∧
    fiveHundredIndices.bytes.length = 2000 :=
  have h1 : Initialised defaultPair.renderData defaultPair.bufferData := by decide
  have hL : fiveHundredIndices.bytes.length = 2000 := by
    rw [fiveHundredIndices, bytes_length_replicate]
  have h2 : defaultPair.bufferData.bufferSize < fiveHundredIndices.bytes.length := by
    rw [hL]; decide
  have h3 : fiveHundredIndices.bytes.length < 2 ^ 32 := by
    rw [hL]; decide
  have h4 : (IndexBuffer.uploadData Driver.allOk defaultPair.renderData defaultPair.bufferData
      fiveHundredIndices).ok = true :=
    (uploadData_ok_iff _ _ _ _).mpr ⟨fun _ => ⟨rfl, rfl⟩, rfl, rfl⟩
  ⟨h1, h2, h3, h4,
    (resize_is_one_destroy_recreate_cycle Driver.allOk defaultPair.renderData
      defaultPair.bufferData fiveHundredIndices h1 h2 h3 h4).2.2.2.2.2.2.1, hL⟩

/-- C4: for every pair of capacity `C` and every payload whose byte length is
at most `C`, `uploadData` leaves the whole pair record (destination handle,
staging handle, both allocations, `bufferSize`) as it was, makes no
`vmaCreateBuffer` and no `vmaDestroyBuffer` call, and leaves the capacity of
every buffer unchanged, whether it returns true or false. -/
theorem uploadData_within_capacity_keeps_pair (drv : Driver) (rd : VkRenderData)
    (bd : VkIndexBufferData) (m : VkMesh) (hfit : m.bytes.length ≤ bd.bufferSize) :
    (IndexBuffer.uploadData drv rd bd m).bufferData = bd ∧
      (∃ calls, (IndexBuffer.uploadData drv rd bd m).renderData.rdCalls = rd.rdCalls ++ calls ∧
        ∀ c ∈ calls, c.isCreate = false ∧ c.isDestroy = false) ∧
      (IndexBuffer.uploadData drv rd bd m).renderData.rdAllocator.layout
        = rd.rdAllocator.layout ∧
      ∀ h, (IndexBuffer.uploadData drv rd bd m).renderData.capacity h = rd.capacity h := by
  have h : ¬ bd.bufferSize < vertexDataSize m :=
    Nat.not_lt.mpr (Nat.le_trans (vertexDataSize_le m) hfit)
  rw [uploadData_of_fits drv rd bd m h]
  refine ⟨transfer_bufferData _ _ _ _, ⟨_, transfer_calls _ _ _ _, ?_⟩,
    (transfer_layout _ _ _ _).1, fun k => capacity_congr (transfer_layout _ _ _ _).1 k⟩
  intro c hc
  split at hc
  · simp only [List.mem_cons, List.mem_singleton, List.not_mem_nil, or_false] at hc
    rcases hc with hc | hc <;> rw [hc] <;> exact ⟨rfl, rfl⟩
  · simp only [transferCalls, List.mem_cons, List.mem_singleton, List.not_mem_nil,
      or_false] at hc
    rcases hc with hc | hc | hc | hc | hc <;> rw [hc] <;> exact ⟨rfl, rfl⟩

/-- Witness for C4: 12 indices (48 bytes) into the pair of capacity 1024. -/
theorem uploadData_within_capacity_keeps_pair_witness :
    twelveIndices.bytes.length = 48 ∧
    twelveIndices.bytes.length ≤ defaultPair.bufferData.bufferSize ∧
    (IndexBuffer.uploadData Driver.allOk defaultPair.renderData defaultPair.bufferData
      twelveIndices).bufferData = defaultPair.bufferData ∧
    (IndexBuffer.uploadData Driver.allOk defaultPair.renderData defaultPair.bufferData
      twelveIndices).renderData.capacity defaultPair.bufferData.buffer = some 1024 :=
  ⟨by decide, by decide,
    (uploadData_within_capacity_keeps_pair Driver.allOk defaultPair.renderData
      defaultPair.bufferData twelveIndices (by decide)).1,
    by decide⟩

/-- After a successful `uploadData` the recorded size is the larger of the
previous size and the 32-bit byte count. -/
theorem bufferSize_of_uploadData_ok (drv : Driver) (rd : VkRenderData)
    (bd : VkIndexBufferData) (m : VkMesh)
    (hok : (IndexBuffer.uploadData drv rd bd m).ok = true) :
    (IndexBuffer.uploadData drv rd bd m).bufferData.bufferSize
      = max bd.bufferSize (vertexDataSize m) := by
  obtain ⟨halloc, _, _⟩ := (uploadData_ok_iff drv rd bd m).mp hok
  by_cases h : bd.bufferSize < vertexDataSize m
  · obtain ⟨h1, h2⟩ := halloc h
    rw [uploadData_of_resize drv rd bd m h h1 h2, transfer_bufferData]
    simp only [resizedPair]
    omega
  · rw [uploadData_of_fits drv rd bd m h, transfer_bufferData]
    omega

/-- C5, as stated, fails: into the pair of capacity 1024, an upload of 4 bytes
and then one of 48 bytes both succeed, and the final capacity is 1024, not
48. -/
theorem capacity_not_last_payload_size :
    VkMesh.bytes { indices := [7] } = [7, 0, 0, 0] ∧
    twelveIndices.bytes.length = 48 ∧
    (IndexBuffer.uploadData Driver.allOk defaultPair.renderData defaultPair.bufferData
      { indices := [7] }).ok = true ∧
    (IndexBuffer.uploadData Driver.allOk
      (IndexBuffer.uploadData Driver.allOk defaultPair.renderData defaultPair.bufferData
        { indices := [7] }).renderData
      (IndexBuffer.uploadData Driver.allOk defaultPair.renderData defaultPair.bufferData
        { indices := [7] }).bufferData twelveIndices).ok = true ∧
    (IndexBuffer.uploadData Driver.allOk
      (IndexBuffer.uploadData Driver.allOk defaultPair.renderData defaultPair.bufferData
        { indices := [7] }).renderData
      (IndexBuffer.uploadData Driver.allOk defaultPair.renderData defaultPair.bufferData
        { indices := [7] }).bufferData twelveIndices).bufferData.bufferSize = 1024 := by
  decide

/-- C5, amended: for every initialised pair of capacity `C` and all payload
byte sizes `S1 ≤ S2 < 2 ^ 32`, after `uploadData` with a payload of size `S1`
and then with a payload of size `S2`, both succeeding, `bufferSize` and the
capacity of both buffers equal the larger of `C` and `S2`. -/
theorem capacity_after_two_uploads (drv1 drv2 : Driver) (rd : VkRenderData)
    (bd : VkIndexBufferData) (m1 m2 : VkMesh) (hinit : Initialised rd bd)
    (hle : m1.bytes.length ≤ m2.bytes.length) (hlen : m2.bytes.length < 2 ^ 32)
    (hok1 : (IndexBuffer.uploadData drv1 rd bd m1).ok = true)
    (hok2 : (IndexBuffer.uploadData drv2 (IndexBuffer.uploadData drv1 rd bd m1).renderData
      (IndexBuffer.uploadData drv1 rd bd m1).bufferData m2).ok = true) :
    (IndexBuffer.uploadData drv2 (IndexBuffer.uploadData drv1 rd bd m1).renderData
        (IndexBuffer.uploadData drv1 rd bd m1).bufferData m2).bufferData.bufferSize
        = max bd.bufferSize m2.bytes.length ∧
      SizeInvariant
        (IndexBuffer.uploadData drv2 (IndexBuffer.uploadData drv1 rd bd m1).renderData
          (IndexBuffer.uploadData drv1 rd bd m1).bufferData m2).renderData
        (IndexBuffer.uploadData drv2 (IndexBuffer.uploadData drv1 rd bd m1).renderData
          (IndexBuffer.uploadData drv1 rd bd m1).bufferData m2).bufferData := by
  have hn2 := vertexDataSize_eq m2 hlen
  have hn1 := vertexDataSize_eq m1 (Nat.lt_of_le_of_lt hle hlen)
  have hs1 := sizeInvariant_uploadData drv1 rd bd m1 hinit.2.1
    ((uploadData_ok_iff drv1 rd bd m1).mp hok1).1
  have hs2 := sizeInvariant_uploadData drv2 _ _ m2 hs1 ((uploadData_ok_iff _ _ _ _).mp hok2).1
  refine ⟨?_, hs2⟩
  rw [bufferSize_of_uploadData_ok _ _ _ _ hok2, bufferSize_of_uploadData_ok _ _ _ _ hok1,
    hn1, hn2]
  omega

/-- Witness for C5, amended: 4 bytes and then 48 bytes into the pair of
capacity 1024. -/
theorem capacity_after_two_uploads_witness :
    Initialised defaultPair.renderData defaultPair.bufferData ∧
    (VkMesh.bytes { indices := [7] }).length ≤ twelveIndices.bytes.length ∧
    twelveIndices.bytes.length < 2 ^ 32 ∧
    (IndexBuffer.uploadData Driver.allOk
      (IndexBuffer.uploadData Driver.allOk defaultPair.renderData defaultPair.bufferData
        { indices := [7] }).renderData
      (IndexBuffer.uploadData Driver.allOk defaultPair.renderData defaultPair.bufferData
        { indices := [7] }).bufferData twelveIndices).bufferData.bufferSize
      = max defaultPair.bufferData.bufferSize twelveIndices.bytes.length :=
  ⟨by decide, by decide, by decide,
    (capacity_after_two_uploads Driver.allOk Driver.allOk defaultPair.renderData
      defaultPair.bufferData { indices := [7] } twelveIndices (by decide) (by decide)
      (by decide) (by decide) (by decide)).1⟩

/-- C6 fails on the code: after `init` of a pair of capacity 8, an `uploadData`
of 12 bytes whose destination allocation fails returns false having destroyed
both buffers of the pair, and the final `cleanup` passes the staging buffer
(handle 2) to `vmaDestroyBuffer` a second time, whichever way the failed
`vmaCreateBuffer` left its output handles. -/
theorem cleanup_after_failed_resize_destroys_again :
    smallPair.ok = true ∧ smallPair.bufferData.stagingBuffer = 2 ∧
    ∀ clears : Bool,
      (IndexBuffer.uploadData
        { Driver.destinationAllocationFails with failedCreateClears := clears }
        smallPair.renderData smallPair.bufferData threeIndices).ok = false ∧
      ((IndexBuffer.cleanup
        (IndexBuffer.uploadData
          { Driver.destinationAllocationFails with failedCreateClears := clears }
          smallPair.renderData smallPair.bufferData threeIndices).renderData
        (IndexBuffer.uploadData
          { Driver.destinationAllocationFails with failedCreateClears := clears }
          smallPair.renderData smallPair.bufferData threeIndices).bufferData).rdCalls.count
        (Call.vmaDestroyBuffer 2 2)) = 2 := by
  refine ⟨by decide, by decide, ?_⟩
  intro clears
  cases clears <;> decide

/-- C8 fails on the code: in a successful upload into the pair of capacity 8
(destination handle 1, staging handle 2), the submitted command buffer holds
the copy from buffer 2 to buffer 1 followed by a barrier whose `buffer` field
is 2, the staging buffer, over offset 0 and length 8. -/
theorem barrier_names_staging_buffer :
    (IndexBuffer.uploadData Driver.allOk smallPair.renderData smallPair.bufferData
      { indices := [7] }).ok = true ∧
    (IndexBuffer.uploadData Driver.allOk smallPair.renderData smallPair.bufferData
      { indices := [7] }).bufferData.buffer = 1 ∧
    (IndexBuffer.uploadData Driver.allOk smallPair.renderData smallPair.bufferData
      { indices := [7] }).bufferData.stagingBuffer = 2 ∧
    (IndexBuffer.uploadData Driver.allOk smallPair.renderData smallPair.bufferData
      { indices := [7] }).renderData.rdCalls.getLast? =
      some (Call.submitSingleShotBuffer
        { commands :=
            [Command.copyBuffer 2 1 { srcOffset := 0, dstOffset := 0, size := 8 },
             Command.pipelineBarrier VK_PIPELINE_STAGE_TRANSFER_BIT
               VK_PIPELINE_STAGE_VERTEX_INPUT_BIT
               { srcAccessMask := VK_ACCESS_MEMORY_WRITE_BIT
                 dstAccessMask := VK_ACCESS_VERTEX_ATTRIBUTE_READ_BIT
                 srcQueueFamilyIndex := VK_QUEUE_FAMILY_IGNORED
                 dstQueueFamilyIndex := VK_QUEUE_FAMILY_IGNORED
                 buffer := 2, offset := 0, size := 8 }] }
        1 true) := by
  decide

/-- C9: `uploadData` returns false exactly when the payload needs a resize and
the `init` of that resize returns false, or the map of the staging buffer
fails, or the submission fails; otherwise it returns true. -/
theorem uploadData_fails_iff (drv : Driver) (rd : VkRenderData) (bd : VkIndexBufferData)
    (m : VkMesh) :
    (IndexBuffer.uploadData drv rd bd m).ok = false ↔
      (bd.bufferSize < vertexDataSize m ∧
        (IndexBuffer.init drv (IndexBuffer.cleanup rd bd) bd (vertexDataSize m)).ok = false) ∨
      drv.mapMemory ≠ VK_SUCCESS ∨ drv.submit = false := by
  have hb : ∀ b : Bool, b = false ↔ ¬ b = true := by intro b; cases b <;> simp
  rw [hb, hb, uploadData_ok_iff, init_ok_iff]
  by_cases h : bd.bufferSize < vertexDataSize m <;>
    by_cases h1 : drv.createBuffer = VK_SUCCESS <;>
    by_cases h2 : drv.createStagingBuffer = VK_SUCCESS <;>
    by_cases h3 : drv.mapMemory = VK_SUCCESS <;>
    by_cases h4 : drv.submit = true <;> simp [h, h1, h2, h3, h4]

/-- Witness for C9: an injected submission failure makes `uploadData` return
false. -/
theorem uploadData_fails_iff_witness :
    (IndexBuffer.uploadData Driver.submitFails defaultPair.renderData defaultPair.bufferData
      twelveIndices).ok = false :=
  (uploadData_fails_iff Driver.submitFails defaultPair.renderData defaultPair.bufferData
    twelveIndices).mpr (Or.inr (Or.inr rfl))

/-- C10: for every target size `S`, when both allocations succeed `init`
returns true, it has made exactly two `vmaCreateBuffer` calls of size `S` (the
destination with index and transfer-destination usage, the staging buffer with
transfer-source usage), the two buffers it created are different and both have
capacity exactly `S`, and `bufferSize` is `S`. -/
theorem init_allocates_pair_of_size (drv : Driver) (rd : VkRenderData)
    (bd : VkIndexBufferData) (S : Nat) (h1 : drv.createBuffer = VK_SUCCESS)
    (h2 : drv.createStagingBuffer = VK_SUCCESS) :
    (IndexBuffer.init drv rd bd S).ok = true ∧
      (IndexBuffer.init drv rd bd S).renderData.rdCalls
        = rd.rdCalls ++ initCalls rd.rdAllocator.created S ∧
      (IndexBuffer.init drv rd bd S).bufferData.buffer
        ≠ (IndexBuffer.init drv rd bd S).bufferData.stagingBuffer ∧
      (IndexBuffer.init drv rd bd S).renderData.capacity
        (IndexBuffer.init drv rd bd S).bufferData.buffer = some S ∧
      (IndexBuffer.init drv rd bd S).renderData.capacity
        (IndexBuffer.init drv rd bd S).bufferData.stagingBuffer = some S ∧
      (IndexBuffer.init drv rd bd S).bufferData.bufferSize = S := by
  have hi := init_success drv rd bd S h1 h2
  have hs : SizeInvariant (IndexBuffer.init drv rd bd S).renderData
      (resizedPair rd.rdAllocator.created S) := by
    apply sizeInvariant_resizedPair _ _ _ rd.rdAllocator.layout
    unfold VmaAllocator.layout
    rw [hi.2.1]
    rfl
  refine ⟨(init_ok_iff drv rd bd S).mpr ⟨h1, h2⟩, hi.2.2.2.1, ?_, ?_, ?_, ?_⟩
  · rw [hi.1]; simp
  · rw [hi.1]; exact hs.1
  · rw [hi.1]; exact hs.2
  · rw [hi.1]

/-- Witness for C10: `init` of the default size in a fresh render context. -/
theorem init_allocates_pair_of_size_witness :
    Driver.allOk.createBuffer = VK_SUCCESS ∧ Driver.allOk.createStagingBuffer = VK_SUCCESS ∧
    defaultPair.ok = true ∧
    defaultPair.renderData.capacity defaultPair.bufferData.buffer = some 1024 ∧
    defaultPair.renderData.capacity defaultPair.bufferData.stagingBuffer = some 1024 ∧
    defaultPair.bufferData.bufferSize = 1024 :=
  have h := init_allocates_pair_of_size Driver.allOk VkRenderData.fresh
    VkIndexBufferData.empty 1024 rfl rfl
  ⟨rfl, rfl, h.1, h.2.2.2.1, h.2.2.2.2.1, h.2.2.2.2.2⟩

/-- The state that `init` leaves behind when the destination allocation fails.
-/
theorem init_destination_failed (drv : Driver) (rd : VkRenderData) (bd : VkIndexBufferData)
    (S : Nat) (h : drv.createBuffer ≠ VK_SUCCESS) :
    (IndexBuffer.init drv rd bd S).ok = false ∧
      (IndexBuffer.init drv rd bd S).renderData.rdAllocator = rd.rdAllocator ∧
      (IndexBuffer.init drv rd bd S).bufferData =
        { bd with
          buffer := if drv.failedCreateClears then VK_NULL_HANDLE else bd.buffer
          bufferAlloc := if drv.failedCreateClears then VK_NULL_HANDLE else bd.bufferAlloc } := by
  unfold IndexBuffer.init vmaCreateBuffer
  simp [h, Logger.log, VkRenderData.record]

/-- The state that `init` leaves behind when the staging allocation fails. -/
theorem init_staging_failed (drv : Driver) (rd : VkRenderData) (bd : VkIndexBufferData)
    (S : Nat) (h1 : drv.createBuffer = VK_SUCCESS) (h2 : drv.createStagingBuffer ≠ VK_SUCCESS) :
    (IndexBuffer.init drv rd bd S).ok = false ∧
      (IndexBuffer.init drv rd bd S).renderData.rdAllocator.layout =
        (rd.rdAllocator.created + 1, rd.rdAllocator.created + 1, S) :: rd.rdAllocator.layout ∧
      (IndexBuffer.init drv rd bd S).renderData.rdAllocator.created
        = rd.rdAllocator.created + 1 ∧
      (IndexBuffer.init drv rd bd S).bufferData =
        { bufferSize := bd.bufferSize
          buffer := rd.rdAllocator.created + 1
          bufferAlloc := rd.rdAllocator.created + 1
          stagingBuffer :=
            if drv.failedCreateClears then VK_NULL_HANDLE else bd.stagingBuffer
          stagingBufferAlloc :=
            if drv.failedCreateClears then VK_NULL_HANDLE else bd.stagingBufferAlloc } := by
  unfold IndexBuffer.init vmaCreateBuffer
  simp [h1, h2, Logger.log, VkRenderData.record, VmaAllocator.layout, VmaBuffer.shape]

/-- A handle with a capacity is live. -/
theorem isLive_of_capacity {rd : VkRenderData} {k C : Nat} (h : rd.capacity k = some C) :
    rd.isLive k = true := by
  unfold VkRenderData.capacity at h
  unfold VkRenderData.isLive
  cases hf : rd.rdAllocator.find k with
  | none => rw [hf] at h; cases h
  | some b => rfl

/-- C7, as stated, fails: an `uploadData` of 12 bytes into the pair of capacity
8 whose staging allocation fails returns false and leaves exactly one of the
two buffers live, the new destination buffer. -/
theorem failed_staging_allocation_leaves_half_built_pair :
    (IndexBuffer.uploadData Driver.stagingAllocationFails smallPair.renderData
      smallPair.bufferData threeIndices).ok = false ∧
    (IndexBuffer.uploadData Driver.stagingAllocationFails smallPair.renderData
      smallPair.bufferData threeIndices).renderData.isLive
      (IndexBuffer.uploadData Driver.stagingAllocationFails smallPair.renderData
        smallPair.bufferData threeIndices).bufferData.buffer = true ∧
    (IndexBuffer.uploadData Driver.stagingAllocationFails smallPair.renderData
      smallPair.bufferData threeIndices).renderData.isLive
      (IndexBuffer.uploadData Driver.stagingAllocationFails smallPair.renderData
        smallPair.bufferData threeIndices).bufferData.stagingBuffer = false := by
  decide

/-- C7, amended: for every initialised pair, `uploadData` leaves the pair
half-built only when the staging allocation of a resize fails: then it returns
false with the new destination buffer live and no live staging buffer. When
the destination allocation of a resize fails it returns false with neither
handle naming a live buffer (both old buffers are destroyed); in every other
case, in particular when it fails at the map or at the submission, both
handles name live buffers, and they are the handles the pair had before the
call when no resize took place. -/
theorem half_built_only_on_staging_failure (drv : Driver) (rd : VkRenderData)
    (bd : VkIndexBufferData) (m : VkMesh) (hinit : Initialised rd bd) :
    (bd.bufferSize < vertexDataSize m → drv.createBuffer ≠ VK_SUCCESS →
      (IndexBuffer.uploadData drv rd bd m).ok = false ∧
      (IndexBuffer.uploadData drv rd bd m).renderData.isLive
        (IndexBuffer.uploadData drv rd bd m).bufferData.buffer = false ∧
      (IndexBuffer.uploadData drv rd bd m).renderData.isLive
        (IndexBuffer.uploadData drv rd bd m).bufferData.stagingBuffer = false ∧
      (IndexBuffer.uploadData drv rd bd m).renderData.isLive bd.buffer = false ∧
      (IndexBuffer.uploadData drv rd bd m).renderData.isLive bd.stagingBuffer = false) ∧
    (bd.bufferSize < vertexDataSize m → drv.createBuffer = VK_SUCCESS →
      drv.createStagingBuffer ≠ VK_SUCCESS →
      (IndexBuffer.uploadData drv rd bd m).ok = false ∧
      (IndexBuffer.uploadData drv rd bd m).renderData.isLive
        (IndexBuffer.uploadData drv rd bd m).bufferData.buffer = true ∧
      (IndexBuffer.uploadData drv rd bd m).renderData.isLive
        (IndexBuffer.uploadData drv rd bd m).bufferData.stagingBuffer = false) ∧
    ((bd.bufferSize < vertexDataSize m →
        drv.createBuffer = VK_SUCCESS ∧ drv.createStagingBuffer = VK_SUCCESS) →
      (IndexBuffer.uploadData drv rd bd m).renderData.isLive
        (IndexBuffer.uploadData drv rd bd m).bufferData.buffer = true ∧
      (IndexBuffer.uploadData drv rd bd m).renderData.isLive
        (IndexBuffer.uploadData drv rd bd m).bufferData.stagingBuffer = true ∧
      (¬ bd.bufferSize < vertexDataSize m →
        (IndexBuffer.uploadData drv rd bd m).bufferData = bd)) := by
  obtain ⟨hwf, ⟨hcd, hcs⟩, _, _, hne⟩ := hinit
  have hc := cleanup_layout rd bd
  have hold : ∀ s ∈ rd.rdAllocator.layout.filter
      (fun s => !(s.1 == bd.stagingBuffer) && !(s.1 == bd.buffer)),
      s.1 ≠ VK_NULL_HANDLE ∧ s.1 ≤ rd.rdAllocator.created ∧ s.1 ≠ bd.stagingBuffer ∧
        s.1 ≠ bd.buffer := by
    intro s hs
    simp only [List.mem_filter, Bool.and_eq_true, Bool.not_eq_true', beq_eq_false_iff_ne] at hs
    exact ⟨(hwf s hs.1).1, (hwf s hs.1).2, hs.2.1, hs.2.2⟩
  refine ⟨?_, ?_, ?_⟩
  · intro h h1
    have hf : ¬ (drv.createBuffer = VK_SUCCESS ∧ drv.createStagingBuffer = VK_SUCCESS) :=
      fun hh => h1 hh.1
    have hi := init_destination_failed drv (IndexBuffer.cleanup rd bd) bd (vertexDataSize m) h1
    rw [uploadData_of_resize_failed drv rd bd m h hf]
    have hdead : ∀ k, (k = VK_NULL_HANDLE ∨ k = bd.buffer ∨ k = bd.stagingBuffer) →
        (Logger.log
          (IndexBuffer.init drv (IndexBuffer.cleanup rd bd) bd (vertexDataSize m)).renderData 1
          "%s error: could not create index buffer of size %i bytes\n"
          (vertexDataSize m)).isLive k = false := by
      intro k hk
      apply isLive_false_of_not_mem
      show ∀ s ∈ (IndexBuffer.init drv (IndexBuffer.cleanup rd bd) bd
        (vertexDataSize m)).renderData.rdAllocator.layout, s.1 ≠ k
      rw [hi.2.1, hc.1]
      intro s hs
      have := hold s hs
      rcases hk with hk | hk | hk <;> rw [hk]
      · exact this.1
      · exact this.2.2.2
      · exact this.2.2.1
    refine ⟨rfl, ?_, ?_, hdead _ (Or.inr (Or.inl rfl)), hdead _ (Or.inr (Or.inr rfl))⟩
    · apply hdead
      rw [hi.2.2]
      show (if drv.failedCreateClears = true then VK_NULL_HANDLE else bd.buffer)
          = VK_NULL_HANDLE ∨
        (if drv.failedCreateClears = true then VK_NULL_HANDLE else bd.buffer) = bd.buffer ∨ _
      split
      · exact Or.inl rfl
      · exact Or.inr (Or.inl rfl)
    · apply hdead
      rw [hi.2.2]
      exact Or.inr (Or.inr rfl)
  · intro h h1 h2
    have hf : ¬ (drv.createBuffer = VK_SUCCESS ∧ drv.createStagingBuffer = VK_SUCCESS) :=
      fun hh => h2 hh.2
    have hi := init_staging_failed drv (IndexBuffer.cleanup rd bd) bd (vertexDataSize m) h1 h2
    rw [uploadData_of_resize_failed drv rd bd m h hf]
    have hlay : (Logger.log
          (IndexBuffer.init drv (IndexBuffer.cleanup rd bd) bd (vertexDataSize m)).renderData 1
          "%s error: could not create index buffer of size %i bytes\n"
          (vertexDataSize m)).rdAllocator.layout =
        (rd.rdAllocator.created + 1, rd.rdAllocator.created + 1, vertexDataSize m) ::
          rd.rdAllocator.layout.filter
            (fun s => !(s.1 == bd.stagingBuffer) && !(s.1 == bd.buffer)) := by
      show (IndexBuffer.init drv (IndexBuffer.cleanup rd bd) bd
        (vertexDataSize m)).renderData.rdAllocator.layout = _
      rw [hi.2.1, hc.1, hc.2.1]
    refine ⟨rfl, ?_, ?_⟩
    · rw [isLive_eq_layout, hlay]
      simp [hi.2.2.2, hc.2.1, List.find?_cons]
    · apply isLive_false_of_not_mem
      rw [hlay]
      intro s hs
      have hle := (handle_of_live hwf hcs).2
      simp only [hi.2.2.2]
      rcases List.mem_cons.mp hs with hs | hs
      · rw [hs]
        simp only []
        split
        · simp [VK_NULL_HANDLE]
        · omega
      · have := hold s hs
        split
        · exact this.1
        · exact this.2.2.1
  · intro halloc
    by_cases h : bd.bufferSize < vertexDataSize m
    · obtain ⟨h1, h2⟩ := halloc h
      have hl := resized_layout drv rd bd (vertexDataSize m) h1 h2
      have hs := sizeInvariant_resizedPair
        (IndexBuffer.init drv (IndexBuffer.cleanup rd bd) bd (vertexDataSize m)).renderData
        _ _ _ hl
      rw [uploadData_of_resize drv rd bd m h h1 h2, transfer_bufferData]
      refine ⟨?_, ?_, fun hn => absurd h hn⟩
      · rw [isLive_congr (transfer_layout _ _ _ _).1]
        exact isLive_of_capacity hs.1
      · rw [isLive_congr (transfer_layout _ _ _ _).1]
        exact isLive_of_capacity hs.2
    · rw [uploadData_of_fits drv rd bd m h, transfer_bufferData]
      refine ⟨?_, ?_, fun _ => rfl⟩
      · rw [isLive_congr (transfer_layout _ _ _ _).1]
        exact isLive_of_capacity hcd
      · rw [isLive_congr (transfer_layout _ _ _ _).1]
        exact isLive_of_capacity hcs

/-- Witness for C7, amended: into the pair of capacity 8, an upload of 12 bytes
whose destination allocation fails leaves neither buffer live, and an upload
of 4 bytes whose map fails leaves both buffers live. -/
theorem half_built_only_on_staging_failure_witness :
    Initialised smallPair.renderData smallPair.bufferData ∧
    ((IndexBuffer.uploadData Driver.destinationAllocationFails smallPair.renderData
        smallPair.bufferData threeIndices).ok = false ∧
      (IndexBuffer.uploadData Driver.destinationAllocationFails smallPair.renderData
        smallPair.bufferData threeIndices).renderData.isLive
        (IndexBuffer.uploadData Driver.destinationAllocationFails smallPair.renderData
          smallPair.bufferData threeIndices).bufferData.buffer = false ∧
      (IndexBuffer.uploadData Driver.destinationAllocationFails smallPair.renderData
        smallPair.bufferData threeIndices).renderData.isLive
        (IndexBuffer.uploadData Driver.destinationAllocationFails smallPair.renderData
          smallPair.bufferData threeIndices).bufferData.stagingBuffer = false) ∧
    ((IndexBuffer.uploadData Driver.mapFails smallPair.renderData smallPair.bufferData
        { indices := [7] }).renderData.isLive
        (IndexBuffer.uploadData Driver.mapFails smallPair.renderData smallPair.bufferData
          { indices := [7] }).bufferData.buffer = true ∧
      (IndexBuffer.uploadData Driver.mapFails smallPair.renderData smallPair.bufferData
        { indices := [7] }).renderData.isLive
        (IndexBuffer.uploadData Driver.mapFails smallPair.renderData smallPair.bufferData
          { indices := [7] }).bufferData.stagingBuffer = true) :=
  have a := (half_built_only_on_staging_failure Driver.destinationAllocationFails
    smallPair.renderData smallPair.bufferData threeIndices (by decide)).1
    (by decide) (by decide)
  have c := (half_built_only_on_staging_failure Driver.mapFails
    smallPair.renderData smallPair.bufferData { indices := [7] } (by decide)).2.2
    (fun _ => ⟨rfl, rfl⟩)
  ⟨by decide, ⟨a.1, a.2.1, a.2.2.1⟩, ⟨c.1, c.2.1⟩⟩

/-! ## Supporting lemmas on the calls of `uploadData` -/

/-- Function `uploadData` is its resize check followed, when that succeeds, by
its transfer part. -/
theorem uploadData_eq_resize_transfer (drv : Driver) (rd : VkRenderData)
    (bd : VkIndexBufferData) (m : VkMesh) :
    IndexBuffer.uploadData drv rd bd m =
      if (IndexBuffer.uploadData.resize drv rd bd m).ok = true then
        IndexBuffer.uploadData.transfer drv (IndexBuffer.uploadData.resize drv rd bd m).renderData
          (IndexBuffer.uploadData.resize drv rd bd m).bufferData m
      else IndexBuffer.uploadData.resize drv rd bd m := by
  unfold IndexBuffer.uploadData IndexBuffer.uploadData.resize
  by_cases h : bd.bufferSize < vertexDataSize m
  · cases hok : (IndexBuffer.init drv (IndexBuffer.cleanup rd bd) bd (vertexDataSize m)).ok <;>
      simp [h, hok]
  · simp [h]

/-- The resize check succeeds exactly when the allocations of a needed resize
succeed. -/
theorem resize_ok_iff (drv : Driver) (rd : VkRenderData) (bd : VkIndexBufferData)
    (m : VkMesh) :
    (IndexBuffer.uploadData.resize drv rd bd m).ok = true ↔
      (bd.bufferSize < vertexDataSize m →
        drv.createBuffer = VK_SUCCESS ∧ drv.createStagingBuffer = VK_SUCCESS) := by
  unfold IndexBuffer.uploadData.resize
  by_cases h : bd.bufferSize < vertexDataSize m
  · cases hok : (IndexBuffer.init drv (IndexBuffer.cleanup rd bd) bd (vertexDataSize m)).ok
    · have := (init_ok_iff drv (IndexBuffer.cleanup rd bd) bd (vertexDataSize m)).not.mp
        (by simp [hok])
      simp [h, hok, this]
    · have := (init_ok_iff drv (IndexBuffer.cleanup rd bd) bd (vertexDataSize m)).mp hok
      simp [h, hok, this]
  · simp [h]

/-- The calls made by `init`. -/
theorem init_calls (drv : Driver) (rd : VkRenderData) (bd : VkIndexBufferData) (S : Nat) :
    (IndexBuffer.init drv rd bd S).renderData.rdCalls
        = rd.rdCalls ++ initCallsOf drv rd.rdAllocator.created S ∧
      (IndexBuffer.init drv rd bd S).renderData.rdGraphicsQueue = rd.rdGraphicsQueue := by
  unfold IndexBuffer.init vmaCreateBuffer initCallsOf
  by_cases h1 : drv.createBuffer = VK_SUCCESS
  · by_cases h2 : drv.createStagingBuffer = VK_SUCCESS
    · simp [h1, h2, initCalls]
    · simp [h1, h2, Logger.log, VkRenderData.record, initStagingFailedCalls,
        destinationBufferInfo, stagingBufferInfo]
  · simp [h1, Logger.log, VkRenderData.record, initDestinationFailedCalls,
      destinationBufferInfo]

/-- A failed `init` leaves `bufferSize` as it was. -/
theorem init_bufferSize_of_failed (drv : Driver) (rd : VkRenderData)
    (bd : VkIndexBufferData) (S : Nat) (h : (IndexBuffer.init drv rd bd S).ok = false) :
    (IndexBuffer.init drv rd bd S).bufferData.bufferSize = bd.bufferSize := by
  by_cases h1 : drv.createBuffer = VK_SUCCESS
  · by_cases h2 : drv.createStagingBuffer = VK_SUCCESS
    · have := (init_ok_iff drv rd bd S).mpr ⟨h1, h2⟩
      rw [this] at h
      cases h
    · rw [(init_staging_failed drv rd bd S h1 h2).2.2.2]
  · rw [(init_destination_failed drv rd bd S h1).2.2]

/-- The calls made by the resize check of `uploadData`. -/
theorem resize_calls (drv : Driver) (rd : VkRenderData) (bd : VkIndexBufferData)
    (m : VkMesh) :
    (IndexBuffer.uploadData.resize drv rd bd m).renderData.rdCalls
        = rd.rdCalls ++ resizeCheckCalls drv bd rd.rdAllocator.created (vertexDataSize m) ∧
      (IndexBuffer.uploadData.resize drv rd bd m).renderData.rdGraphicsQueue
        = rd.rdGraphicsQueue := by
  have hi := init_calls drv (IndexBuffer.cleanup rd bd) bd (vertexDataSize m)
  have hc := cleanup_layout rd bd
  have hok := init_ok_iff drv (IndexBuffer.cleanup rd bd) bd (vertexDataSize m)
  unfold IndexBuffer.uploadData.resize resizeCheckCalls
  by_cases h : bd.bufferSize < vertexDataSize m
  · by_cases ha : drv.createBuffer = VK_SUCCESS ∧ drv.createStagingBuffer = VK_SUCCESS
    · have hok' := hok.mpr ha
      simp only [h, ↓reduceIte, hok', Bool.not_true, Bool.false_eq_true, Logger.log,
        VkRenderData.record, hi.1, hi.2, hc.2.1, hc.2.2.1, hc.2.2.2, ha, and_self,
        cleanupCalls, List.append_assoc, and_true]
    · have hok' : (IndexBuffer.init drv (IndexBuffer.cleanup rd bd) bd
          (vertexDataSize m)).ok = false := by
        cases hb : (IndexBuffer.init drv (IndexBuffer.cleanup rd bd) bd (vertexDataSize m)).ok
        · rfl
        · exact absurd (hok.mp hb) ha
      simp only [h, ↓reduceIte, hok', Bool.not_false, Logger.log,
        VkRenderData.record, hi.1, hi.2, hc.2.1, hc.2.2.1, hc.2.2.2, ha,
        cleanupCalls, List.append_assoc, and_true]
  · simp [h]

/-- The calls made by `uploadData`: those of the resize check, then, when it
succeeds, those of the transfer part on the pair it hands over. -/
theorem uploadData_callsSince (drv : Driver) (rd : VkRenderData) (bd : VkIndexBufferData)
    (m : VkMesh) :
    (IndexBuffer.uploadData drv rd bd m).renderData.callsSince rd =
      resizeCheckCalls drv bd rd.rdAllocator.created (vertexDataSize m) ++
        (if (IndexBuffer.uploadData.resize drv rd bd m).ok = true then
          transferCallsOf drv (IndexBuffer.uploadData.resize drv rd bd m).bufferData
            (vertexDataSize m) rd.rdGraphicsQueue
         else []) := by
  have hr := resize_calls drv rd bd m
  unfold VkRenderData.callsSince
  rw [uploadData_eq_resize_transfer]
  cases hok : (IndexBuffer.uploadData.resize drv rd bd m).ok
  · simp [hr.1]
  · simp only [↓reduceIte]
    rw [transfer_calls, hr.1, hr.2, List.append_assoc, List.drop_left]
    rfl

/-- The calls recorded since a state, when the later record extends it. -/
theorem callsSince_of_append {after before : VkRenderData} {new : List Call}
    (h : after.rdCalls = before.rdCalls ++ new) : after.callsSince before = new := by
  unfold VkRenderData.callsSince
  rw [h, List.drop_left]

/-! ## Well-formedness is an invariant of the allocator -/

/-- The allocator of a fresh render context is well formed. -/
theorem wellFormed_fresh : VkRenderData.fresh.rdAllocator.WellFormed := by
  decide

/-- A well-formed allocator stays well formed under `cleanup`. -/
theorem wellFormed_cleanup (rd : VkRenderData) (bd : VkIndexBufferData)
    (hwf : rd.rdAllocator.WellFormed) : (IndexBuffer.cleanup rd bd).rdAllocator.WellFormed := by
  have hc := cleanup_layout rd bd
  intro s hs
  rw [hc.1] at hs
  rw [hc.2.1]
  exact hwf s (List.mem_of_mem_filter hs)

/-- A well-formed allocator stays well formed under `init`, whatever the
results of the two allocations. -/
theorem wellFormed_init (drv : Driver) (rd : VkRenderData) (bd : VkIndexBufferData) (S : Nat)
    (hwf : rd.rdAllocator.WellFormed) :
    (IndexBuffer.init drv rd bd S).renderData.rdAllocator.WellFormed := by
  by_cases h1 : drv.createBuffer = VK_SUCCESS
  · by_cases h2 : drv.createStagingBuffer = VK_SUCCESS
    · have hi := init_success drv rd bd S h1 h2
      intro s hs
      unfold VmaAllocator.layout at hs
      rw [hi.2.1] at hs
      rw [hi.2.2.1]
      simp only [List.map_cons, List.mem_cons, VmaBuffer.shape] at hs
      rcases hs with hs | hs | hs
      · rw [hs]; simp [VK_NULL_HANDLE]
      · rw [hs]; simp [VK_NULL_HANDLE]
      · have := hwf s hs
        exact ⟨this.1, Nat.le_trans this.2 (Nat.le_add_right _ _)⟩
    · have hi := init_staging_failed drv rd bd S h1 h2
      intro s hs
      rw [hi.2.1] at hs
      rw [hi.2.2.1]
      rcases List.mem_cons.mp hs with hs | hs
      · rw [hs]; simp [VK_NULL_HANDLE]
      · have := hwf s hs
        exact ⟨this.1, Nat.le_trans this.2 (Nat.le_add_right _ _)⟩
  · rw [(init_destination_failed drv rd bd S h1).2.1]
    exact hwf

/-- A well-formed allocator stays well formed under `uploadData`, whatever the
driver results. -/
theorem wellFormed_uploadData (drv : Driver) (rd : VkRenderData) (bd : VkIndexBufferData)
    (m : VkMesh) (hwf : rd.rdAllocator.WellFormed) :
    (IndexBuffer.uploadData drv rd bd m).renderData.rdAllocator.WellFormed := by
  have hr : (IndexBuffer.uploadData.resize drv rd bd m).renderData.rdAllocator.WellFormed := by
    have hi := wellFormed_init drv _ bd (vertexDataSize m) (wellFormed_cleanup rd bd hwf)
    unfold IndexBuffer.uploadData.resize
    by_cases h : bd.bufferSize < vertexDataSize m
    · cases hb : (IndexBuffer.init drv (IndexBuffer.cleanup rd bd) bd (vertexDataSize m)).ok
      · simp only [h, ↓reduceIte, hb, Bool.not_false]
        exact hi
      · simp only [h, ↓reduceIte, hb, Bool.not_true, Bool.false_eq_true]
        exact hi
    · simp only [h, ↓reduceIte]
      exact hwf
  rw [uploadData_eq_resize_transfer]
  split
  · intro s hs
    rw [(transfer_layout _ _ _ _).1] at hs
    rw [(transfer_layout _ _ _ _).2]
    exact hr s hs
  · exact hr

/-! ## Claims about `IndexBuffer`: failure reports, cleanup, recorded commands -/

/-- C11: `init` returns false exactly when the destination allocation or the
staging allocation fails. When the destination allocation fails, `init` makes
one `vmaCreateBuffer` call only (the staging allocation is not attempted), logs
the message naming the index buffer, and leaves `bufferSize` unchanged; when
the staging allocation fails, it logs the message naming the index staging
buffer; the two messages differ. -/
theorem init_reports_which_allocation_failed (drv : Driver) (rd : VkRenderData)
    (bd : VkIndexBufferData) (S : Nat) :
    ((IndexBuffer.init drv rd bd S).ok = false ↔
      drv.createBuffer ≠ VK_SUCCESS ∨ drv.createStagingBuffer ≠ VK_SUCCESS) ∧
    (drv.createBuffer ≠ VK_SUCCESS →
      (IndexBuffer.init drv rd bd S).renderData.callsSince rd =
        [Call.vmaCreateBuffer (destinationBufferInfo S) { usage := VMA_MEMORY_USAGE_GPU_ONLY }
           drv.createBuffer VK_NULL_HANDLE VK_NULL_HANDLE,
         Call.log 1 "%s error: could not allocate index buffer via VMA (error: %i)\n"
           drv.createBuffer] ∧
      (IndexBuffer.init drv rd bd S).bufferData.bufferSize = bd.bufferSize) ∧
    (drv.createBuffer = VK_SUCCESS → drv.createStagingBuffer ≠ VK_SUCCESS →
      (IndexBuffer.init drv rd bd S).renderData.callsSince rd =
        [Call.vmaCreateBuffer (destinationBufferInfo S) { usage := VMA_MEMORY_USAGE_GPU_ONLY }
           VK_SUCCESS (rd.rdAllocator.created + 1) (rd.rdAllocator.created + 1),
         Call.vmaCreateBuffer (stagingBufferInfo S) { usage := VMA_MEMORY_USAGE_CPU_ONLY }
           drv.createStagingBuffer VK_NULL_HANDLE VK_NULL_HANDLE,
         Call.log 1 "%s error: could not allocate index staging buffer via VMA (error: %i)\n"
           drv.createStagingBuffer] ∧
      (IndexBuffer.init drv rd bd S).bufferData.bufferSize = bd.bufferSize) ∧
    "%s error: could not allocate index buffer via VMA (error: %i)\n" ≠
      "%s error: could not allocate index staging buffer via VMA (error: %i)\n" := by
  have hc := callsSince_of_append (init_calls drv rd bd S).1
  refine ⟨?_, ?_, ?_, by decide⟩
  · have hb : ∀ b : Bool, b = false ↔ ¬ b = true := by intro b; cases b <;> simp
    rw [hb, init_ok_iff]
    by_cases h1 : drv.createBuffer = VK_SUCCESS <;>
      by_cases h2 : drv.createStagingBuffer = VK_SUCCESS <;> simp [h1, h2]
  · intro h1
    refine ⟨?_, ?_⟩
    · rw [hc]
      simp [initCallsOf, h1, initDestinationFailedCalls]
    · rw [(init_destination_failed drv rd bd S h1).2.2]
  · intro h1 h2
    refine ⟨?_, ?_⟩
    · rw [hc]
      simp [initCallsOf, h1, h2, initStagingFailedCalls]
    · rw [(init_staging_failed drv rd bd S h1 h2).2.2.2]

/-- Witness for C11: in a fresh render context, a failed destination allocation
is reported as the index buffer and leaves `bufferSize` at 0. -/
theorem init_reports_which_allocation_failed_witness :
    (IndexBuffer.init Driver.destinationAllocationFails VkRenderData.fresh
      VkIndexBufferData.empty 1024).ok = false ∧
    (IndexBuffer.init Driver.destinationAllocationFails VkRenderData.fresh
      VkIndexBufferData.empty 1024).renderData.callsSince VkRenderData.fresh =
      [Call.vmaCreateBuffer (destinationBufferInfo 1024) { usage := VMA_MEMORY_USAGE_GPU_ONLY }
         VK_ERROR_OUT_OF_DEVICE_MEMORY VK_NULL_HANDLE VK_NULL_HANDLE,
       Call.log 1 "%s error: could not allocate index buffer via VMA (error: %i)\n"
         VK_ERROR_OUT_OF_DEVICE_MEMORY] ∧
    (IndexBuffer.init Driver.destinationAllocationFails VkRenderData.fresh
      VkIndexBufferData.empty 1024).bufferData.bufferSize = 0 :=
  have h := init_reports_which_allocation_failed Driver.destinationAllocationFails
    VkRenderData.fresh VkIndexBufferData.empty 1024
  ⟨h.1.mpr (Or.inl (by decide)), (h.2.1 (by decide)).1, (h.2.1 (by decide)).2⟩

/-- C12: when the destination allocation of `init` succeeds and its staging
allocation fails, `init` returns false, has made no `vmaDestroyBuffer` call,
the destination buffer it has just created is still live with its `S` bytes,
and `bufferSize` is unchanged. -/
theorem init_keeps_destination_on_staging_failure (drv : Driver) (rd : VkRenderData)
    (bd : VkIndexBufferData) (S : Nat) (h1 : drv.createBuffer = VK_SUCCESS)
    (h2 : drv.createStagingBuffer ≠ VK_SUCCESS) :
    (IndexBuffer.init drv rd bd S).ok = false ∧
      (IndexBuffer.init drv rd bd S).bufferData.buffer = rd.rdAllocator.created + 1 ∧
      rd.rdAllocator.created <
        (IndexBuffer.init drv rd bd S).renderData.rdAllocator.created ∧
      ((IndexBuffer.init drv rd bd S).renderData.callsSince rd).filter Call.isDestroy = [] ∧
      (IndexBuffer.init drv rd bd S).renderData.isLive
        (IndexBuffer.init drv rd bd S).bufferData.buffer = true ∧
      (IndexBuffer.init drv rd bd S).renderData.capacity
        (IndexBuffer.init drv rd bd S).bufferData.buffer = some S ∧
      (IndexBuffer.init drv rd bd S).bufferData.bufferSize = bd.bufferSize := by
  have hi := init_staging_failed drv rd bd S h1 h2
  have hc := callsSince_of_append (init_calls drv rd bd S).1
  have hcap : (IndexBuffer.init drv rd bd S).renderData.capacity
      (IndexBuffer.init drv rd bd S).bufferData.buffer = some S := by
    rw [capacity_eq_layout, hi.2.1, hi.2.2.2]
    simp [List.find?_cons]
  refine ⟨hi.1, ?_, ?_, ?_, isLive_of_capacity hcap, hcap, ?_⟩
  · rw [hi.2.2.2]
  · rw [hi.2.2.1]; exact Nat.lt_succ_self _
  · rw [hc]
    simp [initCallsOf, h1, h2, initStagingFailedCalls, Call.isDestroy]
  · rw [hi.2.2.2]

/-- Witness for C12: `init` of 1024 bytes in a fresh render context with a
failing staging allocation. -/
theorem init_keeps_destination_on_staging_failure_witness :
    Driver.stagingAllocationFails.createBuffer = VK_SUCCESS ∧
    Driver.stagingAllocationFails.createStagingBuffer ≠ VK_SUCCESS ∧
    (IndexBuffer.init Driver.stagingAllocationFails VkRenderData.fresh
      VkIndexBufferData.empty 1024).ok = false ∧
    (IndexBuffer.init Driver.stagingAllocationFails VkRenderData.fresh
      VkIndexBufferData.empty 1024).renderData.capacity
      (IndexBuffer.init Driver.stagingAllocationFails VkRenderData.fresh
        VkIndexBufferData.empty 1024).bufferData.buffer = some 1024 ∧
    (IndexBuffer.init Driver.stagingAllocationFails VkRenderData.fresh
      VkIndexBufferData.empty 1024).bufferData.bufferSize = 0 :=
  have h := init_keeps_destination_on_staging_failure Driver.stagingAllocationFails
    VkRenderData.fresh VkIndexBufferData.empty 1024 rfl (by decide)
  ⟨rfl, by decide, h.1, h.2.2.2.2.2.1, h.2.2.2.2.2.2⟩

/-- C13: in every well-formed allocator state and for every size `S`, a
successful `init` followed immediately by `cleanup` leaves the live buffers of
the allocator exactly as they were before `init`. -/
theorem init_then_cleanup_restores_allocations (drv : Driver) (rd : VkRenderData)
    (bd : VkIndexBufferData) (S : Nat) (hwf : rd.rdAllocator.WellFormed)
    (hok : (IndexBuffer.init drv rd bd S).ok = true) :
    (IndexBuffer.cleanup (IndexBuffer.init drv rd bd S).renderData
        (IndexBuffer.init drv rd bd S).bufferData).rdAllocator.buffers
        = rd.rdAllocator.buffers ∧
      (IndexBuffer.cleanup (IndexBuffer.init drv rd bd S).renderData
        (IndexBuffer.init drv rd bd S).bufferData).rdAllocator.layout
        = rd.rdAllocator.layout := by
  obtain ⟨h1, h2⟩ := (init_ok_iff drv rd bd S).mp hok
  have hi := init_success drv rd bd S h1 h2
  have hle : ∀ b ∈ rd.rdAllocator.buffers, b.handle ≤ rd.rdAllocator.created := by
    intro b hb
    exact (hwf b.shape (List.mem_map_of_mem _ hb)).2
  have hb : (IndexBuffer.cleanup (IndexBuffer.init drv rd bd S).renderData
      (IndexBuffer.init drv rd bd S).bufferData).rdAllocator.buffers
      = rd.rdAllocator.buffers := by
    unfold IndexBuffer.cleanup vmaDestroyBuffer
    simp only [hi.1, hi.2.1, List.filter_filter]
    rw [List.filter_cons_of_neg (by simp), List.filter_cons_of_neg (by simp)]
    rw [List.filter_eq_self]
    intro b hb
    have := hle b hb
    simp only [Bool.and_eq_true, Bool.not_eq_true', beq_eq_false_iff_ne, ne_eq]
    omega
  refine ⟨hb, ?_⟩
  unfold VmaAllocator.layout
  rw [hb]

/-- Witness for C13: a second pair is created and cleaned up next to the live
default pair. -/
theorem init_then_cleanup_restores_allocations_witness :
    defaultPair.renderData.rdAllocator.WellFormed ∧
    (IndexBuffer.init Driver.allOk defaultPair.renderData VkIndexBufferData.empty 16).ok
      = true ∧
    (IndexBuffer.cleanup
      (IndexBuffer.init Driver.allOk defaultPair.renderData VkIndexBufferData.empty
        16).renderData
      (IndexBuffer.init Driver.allOk defaultPair.renderData VkIndexBufferData.empty
        16).bufferData).rdAllocator.buffers = defaultPair.renderData.rdAllocator.buffers :=
  ⟨by decide, by decide,
    (init_then_cleanup_restores_allocations Driver.allOk defaultPair.renderData
      VkIndexBufferData.empty 16 (by decide) (by decide)).1⟩

/-- The recorded size after the resize check: the 32-bit byte count when the
pair was resized, the previous size otherwise (also when the resize failed). -/
theorem resize_bufferSize (drv : Driver) (rd : VkRenderData) (bd : VkIndexBufferData)
    (m : VkMesh) :
    (IndexBuffer.uploadData.resize drv rd bd m).bufferData.bufferSize =
      if bd.bufferSize < vertexDataSize m ∧
          drv.createBuffer = VK_SUCCESS ∧ drv.createStagingBuffer = VK_SUCCESS then
        vertexDataSize m
      else bd.bufferSize := by
  have hok := init_ok_iff drv (IndexBuffer.cleanup rd bd) bd (vertexDataSize m)
  unfold IndexBuffer.uploadData.resize
  by_cases h : bd.bufferSize < vertexDataSize m
  · cases hb : (IndexBuffer.init drv (IndexBuffer.cleanup rd bd) bd (vertexDataSize m)).ok
    · have hn : ¬ (drv.createBuffer = VK_SUCCESS ∧ drv.createStagingBuffer = VK_SUCCESS) :=
        fun ha => by rw [hok.mpr ha] at hb; cases hb
      simp only [h, ↓reduceIte, hb, Bool.not_false, hn, and_false]
      exact init_bufferSize_of_failed _ _ _ _ hb
    · have ha := hok.mp hb
      simp [h, ha, hb]
  · simp [h]

/-- The recorded size after `uploadData` is the one after its resize check. -/
theorem uploadData_bufferSize (drv : Driver) (rd : VkRenderData) (bd : VkIndexBufferData)
    (m : VkMesh) :
    (IndexBuffer.uploadData drv rd bd m).bufferData.bufferSize =
      (IndexBuffer.uploadData.resize drv rd bd m).bufferData.bufferSize := by
  rw [uploadData_eq_resize_transfer]
  split
  · rw [transfer_bufferData]
  · rfl

/-- C14: for every pair state and every payload, `bufferSize` after
`uploadData` is at least `bufferSize` before it, whether the call returns
true or false, and it differs from the previous value only when the byte
length of the payload exceeds that value. -/
theorem bufferSize_never_shrinks (drv : Driver) (rd : VkRenderData)
    (bd : VkIndexBufferData) (m : VkMesh) :
    bd.bufferSize ≤ (IndexBuffer.uploadData drv rd bd m).bufferData.bufferSize ∧
      ((IndexBuffer.uploadData drv rd bd m).bufferData.bufferSize ≠ bd.bufferSize →
        bd.bufferSize < m.bytes.length) := by
  rw [uploadData_bufferSize, resize_bufferSize]
  have hle := vertexDataSize_le m
  split
  · rename_i h
    exact ⟨Nat.le_of_lt h.1, fun _ => Nat.lt_of_lt_of_le h.1 hle⟩
  · exact ⟨Nat.le_refl _, fun hne => absurd rfl hne⟩

/-- C15: in every state, `cleanup` makes exactly two calls, a
`vmaDestroyBuffer` for the staging buffer with its allocation and then one for
the destination buffer with its allocation, and afterwards neither handle
names a live buffer. -/
theorem cleanup_destroys_both_buffers (rd : VkRenderData) (bd : VkIndexBufferData) :
    (IndexBuffer.cleanup rd bd).callsSince rd =
        [Call.vmaDestroyBuffer bd.stagingBuffer bd.stagingBufferAlloc,
         Call.vmaDestroyBuffer bd.buffer bd.bufferAlloc] ∧
      (IndexBuffer.cleanup rd bd).isLive bd.stagingBuffer = false ∧
      (IndexBuffer.cleanup rd bd).isLive bd.buffer = false := by
  have hc := cleanup_layout rd bd
  have hdead : ∀ k, (k = bd.stagingBuffer ∨ k = bd.buffer) →
      (IndexBuffer.cleanup rd bd).isLive k = false := by
    intro k hk
    apply isLive_false_of_not_mem
    rw [hc.1]
    intro s hs
    simp only [List.mem_filter, Bool.and_eq_true, Bool.not_eq_true', beq_eq_false_iff_ne] at hs
    rcases hk with hk | hk <;> rw [hk]
    · exact hs.2.1
    · exact hs.2.2
  exact ⟨callsSince_of_append hc.2.2.1, hdead _ (Or.inl rfl), hdead _ (Or.inr rfl)⟩

/-- The resize check of a pair that satisfies the size invariant hands over a
pair that satisfies it. -/
theorem sizeInvariant_resize (drv : Driver) (rd : VkRenderData) (bd : VkIndexBufferData)
    (m : VkMesh) (hinv : SizeInvariant rd bd)
    (hok : (IndexBuffer.uploadData.resize drv rd bd m).ok = true) :
    SizeInvariant (IndexBuffer.uploadData.resize drv rd bd m).renderData
      (IndexBuffer.uploadData.resize drv rd bd m).bufferData := by
  have ha := (resize_ok_iff drv rd bd m).mp hok
  by_cases h : bd.bufferSize < vertexDataSize m
  · obtain ⟨h1, h2⟩ := ha h
    have hl := resized_layout drv rd bd (vertexDataSize m) h1 h2
    have hs := sizeInvariant_resizedPair
      (IndexBuffer.init drv (IndexBuffer.cleanup rd bd) bd (vertexDataSize m)).renderData
      _ _ _ hl
    have hb := (init_success drv (IndexBuffer.cleanup rd bd) bd (vertexDataSize m) h1 h2).1
    have hi := (init_ok_iff drv (IndexBuffer.cleanup rd bd) bd (vertexDataSize m)).mpr ⟨h1, h2⟩
    unfold IndexBuffer.uploadData.resize
    simp only [h, ↓reduceIte, hi, Bool.not_true, Bool.false_eq_true, hb,
      (cleanup_layout rd bd).2.1]
    exact hs
  · unfold IndexBuffer.uploadData.resize
    simp only [h, ↓reduceIte]
    exact hinv

/-- C16: the copy regions that an `uploadData` call records are: the single
region with source offset 0, destination offset 0 and length `bufferSize`,
the recorded size after the resize check, when the call gets past the resize
check and the map; none otherwise. That `bufferSize` is the one the pair has
when the call returns, it does not depend on the payload length when no resize
takes place, and it is the capacity of both buffers whenever the pair
satisfied the size invariant on entry. -/
theorem copy_region_is_whole_buffer (drv : Driver) (rd : VkRenderData)
    (bd : VkIndexBufferData) (m : VkMesh) :
    copyRegions ((IndexBuffer.uploadData drv rd bd m).renderData.callsSince rd) =
        (if (IndexBuffer.uploadData.resize drv rd bd m).ok = true ∧
            drv.mapMemory = VK_SUCCESS then
          [{ srcOffset := 0, dstOffset := 0,
             size := (IndexBuffer.uploadData.resize drv rd bd m).bufferData.bufferSize }]
         else []) ∧
      (IndexBuffer.uploadData drv rd bd m).bufferData.bufferSize =
        (IndexBuffer.uploadData.resize drv rd bd m).bufferData.bufferSize ∧
      (¬ bd.bufferSize < vertexDataSize m →
        (IndexBuffer.uploadData.resize drv rd bd m).bufferData.bufferSize = bd.bufferSize) ∧
      (SizeInvariant rd bd → (IndexBuffer.uploadData.resize drv rd bd m).ok = true →
        SizeInvariant (IndexBuffer.uploadData.resize drv rd bd m).renderData
          (IndexBuffer.uploadData.resize drv rd bd m).bufferData) := by
  refine ⟨?_, uploadData_bufferSize drv rd bd m, ?_, sizeInvariant_resize drv rd bd m⟩
  · rw [uploadData_callsSince]
    have hrc : copyRegions (resizeCheckCalls drv bd rd.rdAllocator.created (vertexDataSize m))
        = [] := by
      unfold resizeCheckCalls initCallsOf
      split
      · split
        · split <;> simp [copyRegions, cleanupCalls, initDestinationFailedCalls]
        · split
          · split <;> simp [copyRegions, cleanupCalls, initStagingFailedCalls]
          · split <;> simp [copyRegions, cleanupCalls, initCalls]
      · rfl
    have happ : ∀ a b : List Call, copyRegions (a ++ b) = copyRegions a ++ copyRegions b := by
      intro a b; simp [copyRegions]
    rw [happ, hrc, List.nil_append]
    cases hok : (IndexBuffer.uploadData.resize drv rd bd m).ok
    · simp [copyRegions]
    · by_cases hm : drv.mapMemory = VK_SUCCESS
      · simp [hm, transferCallsOf, transferCalls, copyRegions]
      · simp [hm, transferCallsOf, copyRegions]
  · intro h
    rw [resize_bufferSize]
    simp [h]

/-- Witness for C16: 4 bytes uploaded into the pair of capacity 8 record the
region of 8 bytes; 12 bytes record the region of 12 bytes. -/
theorem copy_region_is_whole_buffer_witness :
    copyRegions ((IndexBuffer.uploadData Driver.allOk smallPair.renderData
        smallPair.bufferData { indices := [7] }).renderData.callsSince smallPair.renderData)
      = [{ srcOffset := 0, dstOffset := 0, size := 8 }] ∧
    copyRegions ((IndexBuffer.uploadData Driver.allOk smallPair.renderData
        smallPair.bufferData threeIndices).renderData.callsSince smallPair.renderData)
      = [{ srcOffset := 0, dstOffset := 0, size := 12 }] :=
  ⟨(copy_region_is_whole_buffer Driver.allOk smallPair.renderData smallPair.bufferData
      { indices := [7] }).1.trans (by decide),
   (copy_region_is_whole_buffer Driver.allOk smallPair.renderData smallPair.bufferData
      threeIndices).1.trans (by decide)⟩

/-- The resize check creates and submits no command buffer, records no
`memcpy`, and requests buffers of the given byte count only. -/
theorem resizeCheckCalls_projections (drv : Driver) (bd : VkIndexBufferData)
    (created count : Nat) :
    (resizeCheckCalls drv bd created count).filter Call.isCommandBufferCall = [] ∧
      memcpyCounts (resizeCheckCalls drv bd created count) = [] ∧
      (∀ s ∈ createSizes (resizeCheckCalls drv bd created count), s = count) ∧
      (resizeCheckCalls drv bd created count).filter Call.isDestroy =
        (if bd.bufferSize < count then cleanupCalls bd else []) := by
  unfold resizeCheckCalls initCallsOf
  by_cases h : bd.bufferSize < count
  · by_cases h1 : drv.createBuffer = VK_SUCCESS
    · by_cases h2 : drv.createStagingBuffer = VK_SUCCESS
      · simp [h, h1, h2, cleanupCalls, initCalls, Call.isCommandBufferCall, memcpyCounts,
          createSizes, Call.isDestroy]
      · simp [h, h1, h2, cleanupCalls, initStagingFailedCalls, Call.isCommandBufferCall,
          memcpyCounts, createSizes, Call.isDestroy, destinationBufferInfo, stagingBufferInfo]
    · simp [h, h1, cleanupCalls, initDestinationFailedCalls, Call.isCommandBufferCall,
        memcpyCounts, createSizes, Call.isDestroy, destinationBufferInfo]
  · simp [h, memcpyCounts, createSizes]

/-- The transfer part creates and destroys no buffer; it copies `count` bytes
and uses one command buffer when the map succeeds, and nothing otherwise. -/
theorem transferCallsOf_projections (drv : Driver) (bd : VkIndexBufferData)
    (count queue : Nat) :
    (transferCallsOf drv bd count queue).filter Call.isCommandBufferCall =
        (if drv.mapMemory = VK_SUCCESS then
          [Call.createSingleShotBuffer,
           Call.submitSingleShotBuffer
             { commands :=
                 [Command.copyBuffer bd.stagingBuffer bd.buffer
                    { srcOffset := 0, dstOffset := 0, size := bd.bufferSize },
                  Command.pipelineBarrier VK_PIPELINE_STAGE_TRANSFER_BIT
                    VK_PIPELINE_STAGE_VERTEX_INPUT_BIT (recordedBarrier bd)] }
             queue drv.submit]
         else []) ∧
      memcpyCounts (transferCallsOf drv bd count queue) =
        (if drv.mapMemory = VK_SUCCESS then [count] else []) ∧
      createSizes (transferCallsOf drv bd count queue) = [] ∧
      (transferCallsOf drv bd count queue).filter Call.isDestroy = [] := by
  unfold transferCallsOf
  by_cases hm : drv.mapMemory = VK_SUCCESS
  · simp [hm, transferCalls, Call.isCommandBufferCall, memcpyCounts, createSizes,
      Call.isDestroy]
  · simp [hm, Call.isCommandBufferCall, memcpyCounts, createSizes, Call.isDestroy]

/-- C17: in every `uploadData` call that gets past the resize check and the
staging map, exactly one command buffer is created and then submitted, and it
holds exactly two commands: the copy from the staging buffer to the
destination buffer of the pair, then the pipeline barrier. In every other
call, in particular when the map fails, no command buffer is created and
nothing is submitted. -/
theorem command_buffer_holds_copy_then_barrier (drv : Driver) (rd : VkRenderData)
    (bd : VkIndexBufferData) (m : VkMesh) :
    ((IndexBuffer.uploadData.resize drv rd bd m).ok = true → drv.mapMemory = VK_SUCCESS →
      ((IndexBuffer.uploadData drv rd bd m).renderData.callsSince rd).filter
          Call.isCommandBufferCall =
        [Call.createSingleShotBuffer,
         Call.submitSingleShotBuffer
           { commands :=
               [Command.copyBuffer (IndexBuffer.uploadData drv rd bd m).bufferData.stagingBuffer
                  (IndexBuffer.uploadData drv rd bd m).bufferData.buffer
                  { srcOffset := 0, dstOffset := 0,
                    size := (IndexBuffer.uploadData drv rd bd m).bufferData.bufferSize },
                Command.pipelineBarrier VK_PIPELINE_STAGE_TRANSFER_BIT
                  VK_PIPELINE_STAGE_VERTEX_INPUT_BIT
                  (recordedBarrier (IndexBuffer.uploadData drv rd bd m).bufferData)] }
           rd.rdGraphicsQueue drv.submit]) ∧
    (drv.mapMemory ≠ VK_SUCCESS →
      ((IndexBuffer.uploadData drv rd bd m).renderData.callsSince rd).filter
        Call.isCommandBufferCall = []) ∧
    ((IndexBuffer.uploadData.resize drv rd bd m).ok = false →
      ((IndexBuffer.uploadData drv rd bd m).renderData.callsSince rd).filter
        Call.isCommandBufferCall = []) := by
  have hr := (resizeCheckCalls_projections drv bd rd.rdAllocator.created (vertexDataSize m)).1
  have ht := fun bd' => (transferCallsOf_projections drv bd' (vertexDataSize m)
    rd.rdGraphicsQueue).1
  rw [uploadData_callsSince, List.filter_append, hr, List.nil_append]
  refine ⟨?_, ?_, ?_⟩
  · intro hok hm
    have hbd : (IndexBuffer.uploadData drv rd bd m).bufferData =
        (IndexBuffer.uploadData.resize drv rd bd m).bufferData := by
      rw [uploadData_eq_resize_transfer]
      simp only [hok, ↓reduceIte]
      exact transfer_bufferData _ _ _ _
    rw [hbd]
    simp only [hok, ↓reduceIte]
    rw [ht]
    simp only [hm, ↓reduceIte]
  · intro hm
    split
    · rw [ht]
      simp only [hm, ↓reduceIte]
    · rfl
  · intro hok
    simp [hok]

/-- Witness for C17: a successful upload into the pair of capacity 8 submits
the copy from buffer 2 to buffer 1 followed by the barrier; an upload whose
map fails creates no command buffer. -/
theorem command_buffer_holds_copy_then_barrier_witness :
    ((IndexBuffer.uploadData Driver.allOk smallPair.renderData smallPair.bufferData
        { indices := [7] }).renderData.callsSince smallPair.renderData).filter
        Call.isCommandBufferCall =
      [Call.createSingleShotBuffer,
       Call.submitSingleShotBuffer
         { commands :=
             [Command.copyBuffer 2 1 { srcOffset := 0, dstOffset := 0, size := 8 },
              Command.pipelineBarrier VK_PIPELINE_STAGE_TRANSFER_BIT
                VK_PIPELINE_STAGE_VERTEX_INPUT_BIT
                (recordedBarrier smallPair.bufferData)] }
         1 true] ∧
    ((IndexBuffer.uploadData Driver.mapFails smallPair.renderData smallPair.bufferData
        { indices := [7] }).renderData.callsSince smallPair.renderData).filter
        Call.isCommandBufferCall = [] :=
  ⟨((command_buffer_holds_copy_then_barrier Driver.allOk smallPair.renderData
      smallPair.bufferData { indices := [7] }).1 (by decide) rfl).trans (by decide),
   (command_buffer_holds_copy_then_barrier Driver.mapFails smallPair.renderData
      smallPair.bufferData { indices := [7] }).2.1 (by decide)⟩

/-- Two readbacks agree beyond offset `L` when their memories do. -/
theorem drop_map_range_congr (C L : Nat) (f g : Nat → Nat)
    (h : ∀ i, L ≤ i → f i = g i) :
    ((List.range C).map f).drop L = ((List.range C).map g).drop L := by
  apply List.ext_getElem?
  intro j
  simp only [List.getElem?_drop, List.getElem?_map]
  by_cases hj : L + j < C
  · rw [List.getElem?_range hj]
    simp [h (L + j) (Nat.le_add_right _ _)]
  · rw [List.getElem?_eq_none (by simpa using Nat.le_of_not_lt hj)]
    rfl

/-- The first byte of a readback of a non-empty buffer. -/
theorem head_map_range (n : Nat) (f : Nat → Nat) (h : 0 < n) :
    ((List.range n).map f).head? = some (f 0) := by
  cases n with
  | zero => exact absurd h (Nat.lt_irrefl 0)
  | succ k =>
    rw [List.head?_eq_getElem?, List.getElem?_map, List.getElem?_range (Nat.succ_pos k)]
    rfl

/-- The 32-bit byte count of a mesh of `n + 1` indices. -/
theorem vertexDataSize_cons_replicate (v w n : Nat) :
    vertexDataSize { indices := v :: List.replicate n w } = (n + 1) * 4 % 2 ^ 32 := by
  simp [vertexDataSize]

/-- The byte length of a mesh of `n + 1` indices. -/
theorem bytes_length_cons_replicate (v w n : Nat) :
    (VkMesh.bytes { indices := v :: List.replicate n w }).length = (n + 1) * 4 := by
  rw [bytes_length]
  simp

/-- The first byte of a non-empty mesh. -/
theorem bytes_head (v : Nat) (l : List Nat) :
    (VkMesh.bytes { indices := v :: l }).head? = some (v % 256) := by
  simp [VkMesh.bytes, indexBytes]

/-- The 32-bit byte count of `hugeMeshFromOne` is zero. -/
theorem vertexDataSize_hugeMeshFromOne : vertexDataSize hugeMeshFromOne = 0 := by
  rw [hugeMeshFromOne, vertexDataSize_cons_replicate]
  norm_num

/-- C18, as stated, fails: the pair of capacity `2 ^ 32` keeps that capacity
after the resize check of an upload of `2 ^ 30` indices, whose `2 ^ 32` bytes
start with the byte 1; the upload succeeds, and the first byte of the
destination buffer is 0, what the staging buffer held, not the first byte of
the payload. -/
theorem huge_payload_is_not_staged :
    hugeMeshFromOne.bytes.length = 2 ^ 32 ∧
    hugeMeshFromOne.bytes.head? = some 1 ∧
    (IndexBuffer.uploadData.resize Driver.allOk hugePair.renderData hugePair.bufferData
      hugeMeshFromOne).bufferData.bufferSize = 2 ^ 32 ∧
    (IndexBuffer.uploadData Driver.allOk hugePair.renderData hugePair.bufferData
      hugeMeshFromOne).ok = true ∧
    ((IndexBuffer.uploadData Driver.allOk hugePair.renderData hugePair.bufferData
      hugeMeshFromOne).renderData.readback
      (IndexBuffer.uploadData Driver.allOk hugePair.renderData hugePair.bufferData
        hugeMeshFromOne).bufferData.buffer).map List.head? = some (some 0) := by
  have hsize : hugePair.bufferData.bufferSize = 2 ^ 32 := by decide
  have hfit : ¬ hugePair.bufferData.bufferSize < vertexDataSize hugeMeshFromOne := by
    rw [vertexDataSize_hugeMeshFromOne]; exact Nat.not_lt_zero _
  refine ⟨?_, ?_, ?_, ?_, ?_⟩
  · rw [hugeMeshFromOne, bytes_length_cons_replicate]
    norm_num
  · rw [hugeMeshFromOne, bytes_head]
  · rw [resize_bufferSize]
    simp only [hfit, false_and, ↓reduceIte]
    exact hsize
  · exact (uploadData_ok_iff _ _ _ _).mpr ⟨fun h => absurd h hfit, rfl, rfl⟩
  · rw [uploadData_of_fits _ _ _ _ hfit, transfer_bufferData]
    rw [transfer_readback Driver.allOk hugePair.renderData hugePair.bufferData hugeMeshFromOne
      { handle := 1, allocation := 1, size := 2 ^ 32,
        usage := VK_BUFFER_USAGE_INDEX_BUFFER_BIT ||| VK_BUFFER_USAGE_TRANSFER_DST_BIT,
        memoryUsage := VMA_MEMORY_USAGE_GPU_ONLY, memory := fun _ => 0 }
      { handle := 2, allocation := 2, size := 2 ^ 32, usage := VK_BUFFER_USAGE_TRANSFER_SRC_BIT,
        memoryUsage := VMA_MEMORY_USAGE_CPU_ONLY, memory := fun _ => 0 }
      rfl rfl rfl rfl rfl rfl]
    rw [Option.map_some', hsize, head_map_range _ _ (by norm_num),
      vertexDataSize_hugeMeshFromOne]
    rfl

/-- C18, amended: for every initialised pair and every payload `P` whose byte
length `L` is below `2 ^ 32`, the capacity `C` after the resize check is at
least `L`, and after a successful `uploadData` the destination buffer reads
back `C` bytes of which the first `L` equal `P`; when no resize took place
the remaining `C - L` bytes are what the staging buffer held at the same
offsets before the call, and after a resize nothing remains (`C = L`). -/
theorem destination_holds_payload_then_staging_rest (drv : Driver) (rd : VkRenderData)
    (bd : VkIndexBufferData) (m : VkMesh) (hinit : Initialised rd bd)
    (hlen : m.bytes.length < 2 ^ 32)
    (hok : (IndexBuffer.uploadData drv rd bd m).ok = true) :
    m.bytes.length ≤ (IndexBuffer.uploadData.resize drv rd bd m).bufferData.bufferSize ∧
    ∃ r, (IndexBuffer.uploadData drv rd bd m).renderData.readback
          (IndexBuffer.uploadData drv rd bd m).bufferData.buffer = some r ∧
      r.length = (IndexBuffer.uploadData.resize drv rd bd m).bufferData.bufferSize ∧
      r.take m.bytes.length = m.bytes ∧
      (¬ bd.bufferSize < m.bytes.length →
        ∀ old, rd.readback bd.stagingBuffer = some old →
          r.drop m.bytes.length = old.drop m.bytes.length) ∧
      (bd.bufferSize < m.bytes.length → r.drop m.bytes.length = []) := by
  obtain ⟨halloc, hmap, hsub⟩ := (uploadData_ok_iff drv rd bd m).mp hok
  have hn := vertexDataSize_eq m hlen
  rw [resize_bufferSize, hn]
  by_cases h : bd.bufferSize < m.bytes.length
  · have hv : bd.bufferSize < vertexDataSize m := by rw [hn]; exact h
    obtain ⟨h1, h2⟩ := halloc hv
    simp only [h, h1, h2, and_self, ↓reduceIte, Nat.le_refl, not_true_eq_false,
      false_implies, true_implies, true_and]
    rw [uploadData_of_resize drv rd bd m hv h1 h2, transfer_bufferData]
    have hb := (init_success drv (IndexBuffer.cleanup rd bd) bd (vertexDataSize m) h1 h2).2.1
    have hr := transfer_readback drv
      (Logger.log
        (IndexBuffer.init drv (IndexBuffer.cleanup rd bd) bd (vertexDataSize m)).renderData 1
        "%s: index buffer resize to %i bytes\n" (vertexDataSize m))
      (resizedPair rd.rdAllocator.created (vertexDataSize m)) m
      { handle := (IndexBuffer.cleanup rd bd).rdAllocator.created + 1,
        allocation := (IndexBuffer.cleanup rd bd).rdAllocator.created + 1,
        size := vertexDataSize m,
        usage := VK_BUFFER_USAGE_INDEX_BUFFER_BIT ||| VK_BUFFER_USAGE_TRANSFER_DST_BIT,
        memoryUsage := VMA_MEMORY_USAGE_GPU_ONLY, memory := fun _ => 0 }
      { handle := (IndexBuffer.cleanup rd bd).rdAllocator.created + 2,
        allocation := (IndexBuffer.cleanup rd bd).rdAllocator.created + 2,
        size := vertexDataSize m, usage := VK_BUFFER_USAGE_TRANSFER_SRC_BIT,
        memoryUsage := VMA_MEMORY_USAGE_CPU_ONLY, memory := fun _ => 0 }
      (by
        simp only [Logger.log, VkRenderData.record, VmaAllocator.find, hb, resizedPair,
          (cleanup_layout rd bd).2.1]
        simp [List.find?_cons])
      (by
        simp only [Logger.log, VkRenderData.record, VmaAllocator.find, hb, resizedPair,
          (cleanup_layout rd bd).2.1]
        simp [List.find?_cons])
      (by simp [resizedPair, (cleanup_layout rd bd).2.1]) rfl hmap hsub
    refine ⟨_, hr, ?_, ?_, ?_⟩
    · simp [resizedPair, hn]
    · simp only [resizedPair, hn]
      exact staged_prefix m.bytes _ _ (Nat.le_refl _)
    · apply List.drop_eq_nil_of_le
      simp [resizedPair, hn]
  · have hv : ¬ bd.bufferSize < vertexDataSize m := by rw [hn]; exact h
    have hC : m.bytes.length ≤ bd.bufferSize := Nat.le_of_not_lt h
    simp only [h, false_and, ↓reduceIte, not_false_eq_true, true_implies, false_implies,
      and_true]
    refine ⟨hC, ?_⟩
    rw [uploadData_of_fits drv rd bd m hv, transfer_bufferData]
    obtain ⟨_, ⟨hcd, hcs⟩, _, has, _⟩ := hinit
    obtain ⟨d, hd, hds⟩ := find_of_capacity hcd
    obtain ⟨s, hs, hss⟩ := find_of_capacity hcs
    have hr := transfer_readback drv rd bd m d s hd hs (allocation_of_find hs has) hds hmap hsub
    refine ⟨_, hr, by simp, ?_, ?_⟩
    · rw [hn]
      exact staged_prefix m.bytes _ _ hC
    · intro old hold
      unfold VkRenderData.readback at hold
      rw [hs, Option.map_some', hss] at hold
      rw [← Option.some.inj hold, hn]
      apply drop_map_range_congr
      intro i hi
      simp [Nat.not_lt.mpr hi]

/-- Witness for C18, amended: 4 bytes uploaded into the pair of capacity 8. -/
theorem destination_holds_payload_then_staging_rest_witness :
    Initialised smallPair.renderData smallPair.bufferData ∧
    (VkMesh.bytes { indices := [7] }).length < 2 ^ 32 ∧
    (IndexBuffer.uploadData Driver.allOk smallPair.renderData smallPair.bufferData
      { indices := [7] }).ok = true ∧
    (VkMesh.bytes { indices := [7] }).length ≤
      (IndexBuffer.uploadData.resize Driver.allOk smallPair.renderData smallPair.bufferData
        { indices := [7] }).bufferData.bufferSize :=
  ⟨by decide, by decide, by decide,
    (destination_holds_payload_then_staging_rest Driver.allOk smallPair.renderData
      smallPair.bufferData { indices := [7] } (by decide) (by decide) (by decide)).1⟩

/-- C20: for an index list of `n` elements the byte count of `uploadData` is
`(4 * n) mod 2 ^ 32`: the pair is resized (the old buffers are destroyed)
exactly when `bufferSize` is below that number, every buffer that the call
creates is requested with that size, and every `memcpy` of the call copies
that many bytes. The number equals `4 * n` exactly when `n < 2 ^ 30`; for
`n ≥ 2 ^ 30` it is strictly smaller than the byte length of the payload; and
for `n = 2 ^ 30` it is 0, so that the pair is left as it was, no buffer is
destroyed or created, and a `memcpy` that takes place copies 0 bytes. -/
theorem byte_count_is_taken_modulo_two_pow_32 (drv : Driver) (rd : VkRenderData)
    (bd : VkIndexBufferData) (m : VkMesh) :
    vertexDataSize m = (4 * m.indices.length) % 2 ^ 32 ∧
    ((((IndexBuffer.uploadData drv rd bd m).renderData.callsSince rd).filter Call.isDestroy
        ≠ []) ↔ bd.bufferSize < (4 * m.indices.length) % 2 ^ 32) ∧
    (∀ s ∈ createSizes ((IndexBuffer.uploadData drv rd bd m).renderData.callsSince rd),
      s = (4 * m.indices.length) % 2 ^ 32) ∧
    (∀ c ∈ memcpyCounts ((IndexBuffer.uploadData drv rd bd m).renderData.callsSince rd),
      c = (4 * m.indices.length) % 2 ^ 32) ∧
    ((4 * m.indices.length) % 2 ^ 32 = 4 * m.indices.length ↔ m.indices.length < 2 ^ 30) ∧
    (2 ^ 30 ≤ m.indices.length → (4 * m.indices.length) % 2 ^ 32 < m.bytes.length) ∧
    (m.indices.length = 2 ^ 30 →
      (4 * m.indices.length) % 2 ^ 32 = 0 ∧
      (IndexBuffer.uploadData drv rd bd m).bufferData = bd ∧
      ((IndexBuffer.uploadData drv rd bd m).renderData.callsSince rd).filter Call.isDestroy
        = [] ∧
      createSizes ((IndexBuffer.uploadData drv rd bd m).renderData.callsSince rd) = [] ∧
      memcpyCounts ((IndexBuffer.uploadData drv rd bd m).renderData.callsSince rd) =
        (if drv.mapMemory = VK_SUCCESS then [0] else [])) := by
  have hv : vertexDataSize m = (4 * m.indices.length) % 2 ^ 32 := by
    unfold vertexDataSize
    rw [Nat.mul_comm]
  have hcalls := uploadData_callsSince drv rd bd m
  have hrp := resizeCheckCalls_projections drv bd rd.rdAllocator.created (vertexDataSize m)
  have htp := fun bd' =>
    transferCallsOf_projections drv bd' (vertexDataSize m) rd.rdGraphicsQueue
  have hcs : ∀ a b : List Call, createSizes (a ++ b) = createSizes a ++ createSizes b := by
    intro a b; simp [createSizes]
  have hmc : ∀ a b : List Call, memcpyCounts (a ++ b) = memcpyCounts a ++ memcpyCounts b := by
    intro a b; simp [memcpyCounts]
  have hdestroy : ((IndexBuffer.uploadData drv rd bd m).renderData.callsSince rd).filter
      Call.isDestroy = (if bd.bufferSize < vertexDataSize m then cleanupCalls bd else []) := by
    have ht : (if (IndexBuffer.uploadData.resize drv rd bd m).ok = true then
          transferCallsOf drv (IndexBuffer.uploadData.resize drv rd bd m).bufferData
            (vertexDataSize m) rd.rdGraphicsQueue
        else []).filter Call.isDestroy = [] := by
      split
      · exact (htp _).2.2.2
      · rfl
    rw [hcalls, List.filter_append, hrp.2.2.2, ht, List.append_nil]
  have hcreate : createSizes ((IndexBuffer.uploadData drv rd bd m).renderData.callsSince rd)
      = createSizes (resizeCheckCalls drv bd rd.rdAllocator.created (vertexDataSize m)) := by
    have ht : createSizes (if (IndexBuffer.uploadData.resize drv rd bd m).ok = true then
          transferCallsOf drv (IndexBuffer.uploadData.resize drv rd bd m).bufferData
            (vertexDataSize m) rd.rdGraphicsQueue
        else []) = [] := by
      split
      · exact (htp _).2.2.1
      · rfl
    rw [hcalls, hcs, ht, List.append_nil]
  have hmemcpy : memcpyCounts ((IndexBuffer.uploadData drv rd bd m).renderData.callsSince rd)
      = (if (IndexBuffer.uploadData.resize drv rd bd m).ok = true then
          (if drv.mapMemory = VK_SUCCESS then [vertexDataSize m] else [])
         else []) := by
    rw [hcalls, hmc, hrp.2.1, List.nil_append]
    split
    · rw [(htp _).2.1]
    · rfl
  refine ⟨hv, ?_, ?_, ?_, ?_, ?_, ?_⟩
  · rw [hdestroy, ← hv]
    by_cases h : bd.bufferSize < vertexDataSize m <;> simp [h, cleanupCalls]
  · intro s hs
    rw [hcreate] at hs
    rw [← hv]
    exact hrp.2.2.1 s hs
  · intro c hc
    rw [hmemcpy] at hc
    rw [← hv]
    split at hc
    · split at hc
      · exact List.mem_singleton.mp hc
      · cases hc
    · cases hc
  · constructor
    · intro h
      have := Nat.mod_lt (4 * m.indices.length) (by norm_num : 2 ^ 32 > 0)
      omega
    · intro h
      exact Nat.mod_eq_of_lt (by omega)
  · intro h
    rw [bytes_length]
    have := Nat.mod_lt (4 * m.indices.length) (by norm_num : 2 ^ 32 > 0)
    omega
  · intro h
    have h0 : vertexDataSize m = 0 := by
      rw [hv, h]; norm_num
    have hfit : ¬ bd.bufferSize < vertexDataSize m := by
      rw [h0]; exact Nat.not_lt_zero _
    have hrok : (IndexBuffer.uploadData.resize drv rd bd m).ok = true :=
      (resize_ok_iff drv rd bd m).mpr (fun hlt => absurd hlt hfit)
    refine ⟨by rw [← hv]; exact h0, ?_, ?_, ?_, ?_⟩
    · rw [uploadData_of_fits drv rd bd m hfit, transfer_bufferData]
    · rw [hdestroy]; simp [hfit]
    · rw [hcreate]
      unfold resizeCheckCalls
      simp [hfit, createSizes]
    · rw [hmemcpy, h0]
      simp [hrok]

/-- Witness for C20: the mesh of `2 ^ 30` indices uploaded into the default
pair leaves the pair as it was and copies 0 bytes. -/
theorem byte_count_is_taken_modulo_two_pow_32_witness :
    hugeMesh.indices.length = 2 ^ 30 ∧
    (IndexBuffer.uploadData Driver.allOk defaultPair.renderData defaultPair.bufferData
      hugeMesh).bufferData = defaultPair.bufferData ∧
    memcpyCounts ((IndexBuffer.uploadData Driver.allOk defaultPair.renderData
      defaultPair.bufferData hugeMesh).renderData.callsSince defaultPair.renderData) = [0] :=
  have hlen : hugeMesh.indices.length = 2 ^ 30 := by
    rw [hugeMesh]
    exact List.length_replicate _ _
  have h := (byte_count_is_taken_modulo_two_pow_32 Driver.allOk defaultPair.renderData
    defaultPair.bufferData hugeMesh).2.2.2.2.2.2 hlen
  ⟨hlen, h.2.1, h.2.2.2.2⟩

/-! ## Claims about `GraphNodeFactory` -/

/-- C21: for every node type and node id, `makeNode` of a factory built with an
empty callback constructs no node, logs that the callback is not set, and
returns the null pointer. -/
theorem makeNode_without_callback_returns_null (type : graphNodeType) (nodeId : Int) :
    GraphNodeFactory.makeNode (GraphNodeFactory.construct none) type nodeId =
      { constructed := []
        log := [{ level := 1, message := "%s error: node fire callback not set\n", args := [] }]
        ending := MakeNodeEnd.returned none } := by
  rfl

/-- C22: for each of the twelve registered node types, every node id and every
non-empty callback, `makeNode` constructs exactly one node, logs nothing, and
returns a non-null node that carries the callback, whose `mNodeType` is the
requested type and whose `mNodeName` is the name that `getNodeTypeName` gives
for that type; the lookup `at(type)` finds that name. -/
theorem makeNode_builds_registered_type (type : graphNodeType) (nodeId : Int) (callback : Nat)
    (h : type ∈ graphNodeType.registered) :
    ∃ node,
      (GraphNodeFactory.makeNode (GraphNodeFactory.construct (some callback)) type
        nodeId).ending = MakeNodeEnd.returned (some node) ∧
      node.mNodeType = type ∧
      node.mNodeName =
        (GraphNodeFactory.getNodeTypeName (GraphNodeFactory.construct (some callback)) type).1 ∧
      unordered_map.at (GraphNodeFactory.construct (some callback)).mGraphNodeTypeMap type
        = some node.mNodeName ∧
      node.outputTriggerCallback = some callback ∧
      (GraphNodeFactory.makeNode (GraphNodeFactory.construct (some callback)) type
        nodeId).constructed = [node.nodeClass] ∧
      (GraphNodeFactory.makeNode (GraphNodeFactory.construct (some callback)) type
        nodeId).log = [] := by
  simp only [graphNodeType.registered, List.mem_cons, List.mem_singleton, List.not_mem_nil,
    or_false] at h
  rcases h with h | h | h | h | h | h | h | h | h | h | h | h <;> subst h <;>
    exact ⟨_, rfl, rfl, rfl, rfl, rfl, rfl, rfl⟩

/-- Witness for C22: a wait node with id 7. -/
theorem makeNode_builds_registered_type_witness :
    graphNodeType.wait ∈ graphNodeType.registered ∧
    (GraphNodeFactory.makeNode (GraphNodeFactory.construct (some 1)) graphNodeType.wait
      7).ending =
      MakeNodeEnd.returned (some
        { nodeClass := NodeClass.WaitNode, nodeId := some 7, outputTriggerCallback := some 1,
          mNodeName := "Wait", mNodeType := graphNodeType.wait }) ∧
    ∃ node,
      (GraphNodeFactory.makeNode (GraphNodeFactory.construct (some 1)) graphNodeType.wait
        7).ending = MakeNodeEnd.returned (some node) ∧
      node.mNodeType = graphNodeType.wait :=
  have h := makeNode_builds_registered_type graphNodeType.wait 7 1 (by decide)
  ⟨by decide, by decide, h.elim (fun node hn => ⟨node, hn.1, hn.2.1⟩)⟩

/-- C23 fails on the code: with a callback set, for every value outside the
twelve registered types and every node id, the `switch` of `makeNode` takes the
`default` label, logs the invalid node type, constructs nothing and leaves
`newNode` null, and line 87 then dereferences that null pointer. -/
theorem makeNode_dereferences_null_on_invalid_type (callback : Nat) (value nodeId : Int) :
    GraphNodeFactory.makeNode (GraphNodeFactory.construct (some callback))
        (graphNodeType.other value) nodeId =
      { constructed := []
        log := [{ level := 1, message := "%s error: invalid node type %i", args := [value] }]
        ending := MakeNodeEnd.nullDereference } := by
  rfl

/-! ## Claims about `UserInterface` -/

/-- C26: when the "Reset Values to Zero" button is pressed, the settings are
afterwards the default-constructed `InstanceSettings` in every member except
`isInstanceIndexPosition` and `isInstancePerModelIndexPosition`, which keep the
values they had before; the saved settings are set to the same value, and the
block has called `applyEditInstanceSettings` with the settings and the saved
settings as they were on entry, then `micSetConfigDirtyCallbackFunction` with
true. When the button is not pressed nothing changes. -/
theorem reset_keeps_only_index_positions {Rest : Type} (defaultSettings : InstanceSettings Rest)
    (micSelectedInstance : Int) (header : InstancesHeader Rest) :
    (Chapter13.UserInterface.createSettingsWindow.resetValuesToZero true defaultSettings
        micSelectedInstance header).settings =
      { isInstanceIndexPosition := header.settings.isInstanceIndexPosition
        isInstancePerModelIndexPosition := header.settings.isInstancePerModelIndexPosition
        rest := defaultSettings.rest } ∧
    (Chapter13.UserInterface.createSettingsWindow.resetValuesToZero true defaultSettings
        micSelectedInstance header).savedInstanceSettings =
      (Chapter13.UserInterface.createSettingsWindow.resetValuesToZero true defaultSettings
        micSelectedInstance header).settings ∧
    (Chapter13.UserInterface.createSettingsWindow.resetValuesToZero true defaultSettings
        micSelectedInstance header).calls =
      header.calls ++
        [SettingsCall.applyEditInstanceSettings micSelectedInstance header.settings
           header.savedInstanceSettings,
         SettingsCall.setConfigDirty true] ∧
    Chapter13.UserInterface.createSettingsWindow.resetValuesToZero false defaultSettings
        micSelectedInstance header = header := by
  refine ⟨rfl, rfl, ?_, rfl⟩
  simp [Chapter13.UserInterface.createSettingsWindow.resetValuesToZero]
